import Mathlib

/-!
# Skyeye: nearest-contact searches, the DECLARE handler and the voice receiver

A shallow embedding of `pkg/radar/nearest.go`, `pkg/controller/declare.go` and the
function `receiveVoice` of `pkg/simpleradio/audio/receive.go`.

Conventions of the embedding.

* `unit.Length` and `unit.Angle` are `float64` in the source.  Their values are embedded as
  rationals: a length is its value in metres (the base unit of the unit library, so
  `unit.Meter` is `1` and `Meters()` is the identity), an angle is its value in the base
  unit of the library, and `unit.Degree` is a constant of the environment.  Infinities
  and NaN are not embedded.
* The loop of line 134 of `nearest.go` accumulates its variable, so its number of rounds
  depends on the rounding of `float64`: every operation of that loop is embedded with the
  rounding `round64`.  Elsewhere a result is compared or passed on once and is embedded
  unrounded.
* A Go pointer or interface that may be `nil` is an `Option`.
* The contact store is the list of its trackfiles in the order in which the iterator
  `s.contacts.itr()` yields them.
* Functions and constants that the embedded files call but do not define (the geodesic
  library, the bearing conversions, the group lookup, the filter predicate, the brevity
  constants) are fields of the structures `Deps` and `Scope`.
* Debug and info logging has no effect on results and is left out.
* A call of `HandleDeclare` is embedded as the list of its observable events in program
  order (log entries at warning and error level, radar calls with their results, sends on
  the outbound channel) together with the fault that ended it, if any.
* The ring loop of `FindNearestGroupInSector` is embedded with fuel: `none` means that the
  loop did not end within the fuel.
* The `select` loop of `receiveVoice` is embedded as a step function on the buffer and
  `c.lastRx`; the channel length and the clock are inputs of a step.
-/

namespace Skyeye

/-! ## Data model -/

/-- The type `orb.Point`: a longitude and latitude pair. -/
structure Point where
  lon : ℚ
  lat : ℚ
deriving DecidableEq

/-- Modelled from the spec: the enumeration `coalitions.Coalition`, whose declaration is
not part of the embedded files. -/
inductive Coalition where
  | red
  | blue
  | neutrals
deriving DecidableEq

/-- Modelled from the spec: the enumeration `brevity.ContactCategory` (aircraft, ground,
sea), whose declaration is not part of the embedded files. -/
inductive ContactCategory where
  | Aircraft
  | Ground
  | Sea
deriving DecidableEq

/-- Modelled from the spec: a bearing of `pkg/bearings`, a directed angle tagged as true
or magnetic. -/
structure Bearing where
  value : ℚ
  isMagnetic : Bool
deriving DecidableEq

/-- The aspect of a group; `brevity.Aspect` is a string type in the source. -/
abbrev Aspect := String

/-- Modelled from the spec: `brevity.Declaration` with its zero value `unset`. -/
inductive Declaration where
  | unset
  | Clean
  | Friendly
  | Hostile
  | Furball
deriving DecidableEq

/-- The labels of a trackfile read by the searches (`trackfile.Contact`). -/
structure Contact where
  UnitID : Nat
  Name : String
  ACMIName : String
  Coalition : Coalition
deriving DecidableEq

/-- The frame returned by `Trackfile.LastKnown()`. -/
structure Frame where
  Point : Point
  Altitude : ℚ
deriving DecidableEq

/-- A trackfile, as far as the searches read it: its labels, its last known frame and
its course. -/
structure Trackfile where
  Contact : Contact
  LastKnown : Frame
  Course : Bearing
deriving DecidableEq

/-- Modelled from the spec: the value built by `brevity.NewBRAA` (bearing, range,
altitude, aspect). -/
structure BRAA where
  bearing : Bearing
  range : ℚ
  altitude : ℚ
  aspect : Aspect
deriving DecidableEq

/-- Modelled from the spec: a bullseye-relative fix (bearing and distance from a
reference point). -/
structure BullseyeFix where
  bearing : Option Bearing
  distance : ℚ
deriving DecidableEq

/-- The struct `group` of `pkg/radar`, with the fields the embedded files assign. -/
structure Group where
  contacts : List Trackfile
  braa : Option BRAA
  bullseye : Option BullseyeFix
  aspect : Option Aspect
  isThreat : Bool
  declaration : Declaration
deriving DecidableEq

/-- Functions and constants of other packages that the embedded files call. -/
structure Deps where
  /-- The function `geo.Distance`, in metres. -/
  geoDistance : Point → Point → ℚ
  /-- The function `geo.Bearing`, in degrees. -/
  geoBearing : Point → Point → ℚ
  /-- The function `geo.PointAtBearingAndDistance`. -/
  geoPointAtBearingAndDistance : Point → ℚ → ℚ → Point
  /-- The function `planar.PolygonContains`. -/
  planarPolygonContains : List (List Point) → Point → Bool
  /-- The constant `unit.Degree`. -/
  Degree : ℚ
  /-- The constant `unit.NauticalMile`. -/
  NauticalMile : ℚ
  /-- The constant `unit.Foot`. -/
  Foot : ℚ
  /-- The constructor `bearings.NewTrueBearing`. -/
  NewTrueBearing : ℚ → Bearing
  /-- The method `Bearing.Magnetic`. -/
  Magnetic : Bearing → ℚ → Bearing
  /-- The method `Bearing.True`. -/
  True : Bearing → ℚ → Bearing
  /-- The function `brevity.AspectFromAngle`. -/
  AspectFromAngle : Bearing → Bearing → Aspect
  /-- The constant `brevity.MandatoryThreatDistance`. -/
  MandatoryThreatDistance : ℚ
  /-- The constant `conf.DefaultMarginRadius`. -/
  DefaultMarginRadius : ℚ
  /-- The method `group.point`. -/
  groupPoint : Group → Point
  /-- The method `group.Altitude`. -/
  groupAltitude : Group → ℚ
  /-- The method `group.Aspect`. -/
  groupAspect : Group → Aspect

/-- The receiver `s *scope`: the contact store in iteration order and the methods of the
scope that are defined outside `nearest.go`. -/
structure Scope where
  contacts : List Trackfile
  isMatch : Trackfile → Coalition → ContactCategory → Bool
  findGroupForAircraft : Trackfile → Option Group
  Declination : Point → ℚ

/-- The constant `unit.Meter`: the base unit of `unit.Length`. -/
def Meter : ℚ := 1

/-- The method `Length.Meters`. -/
def Meters (l : ℚ) : ℚ := l

/-- The method `Angle.Degrees`. -/
def Degrees (d : Deps) (a : ℚ) : ℚ := a / d.Degree

/-- The constant `math.MaxFloat64`, which is `(2 ^ 53 - 1) * 2 ^ 971`. -/
def MaxFloat64 : ℚ := (2 ^ 53 - 1) * 2 ^ 971

/-- The constructor `brevity.NewBRAA`. -/
def NewBRAA (b : Bearing) (r : ℚ) (alt : ℚ) (asp : Aspect) : BRAA :=
  { bearing := b, range := r, altitude := alt, aspect := asp }

/-! ## `FindNearestTrackfile` (nearest.go, lines 19 to 61) -/

/-- The test of line 33: the filters match and the altitude is inside the band. -/
def inBand (s : Scope) (minAltitude maxAltitude : ℚ) (coalition : Coalition)
    (filter : ContactCategory) (trackfile : Trackfile) : Bool :=
  s.isMatch trackfile coalition filter && decide (minAltitude ≤ trackfile.LastKnown.Altitude)
    && decide (trackfile.LastKnown.Altitude ≤ maxAltitude)

/-- The distance of line 34: the absolute value of `geo.Distance`. -/
def absDistance (d : Deps) (origin : Point) (trackfile : Trackfile) : ℚ :=
  |d.geoDistance origin trackfile.LastKnown.Point|

/-- One iteration of the loop of lines 30 to 49, on the loop state
`(nearestTrackfile, nearestDistance)`. -/
def nearestStep (d : Deps) (s : Scope) (origin : Point) (minAltitude maxAltitude : ℚ)
    (coalition : Coalition) (filter : ContactCategory)
    (st : Option Trackfile × ℚ) (trackfile : Trackfile) : Option Trackfile × ℚ :=
  if inBand s minAltitude maxAltitude coalition filter trackfile then
    let distance := absDistance d origin trackfile
    let isNearer := decide (distance < st.2)
    if isNearer then (some trackfile, distance) else st
  else st

/-- The loop of lines 27 to 49 over a list of trackfiles, from a given loop state. -/
def nearestLoop (d : Deps) (s : Scope) (origin : Point) (minAltitude maxAltitude : ℚ)
    (coalition : Coalition) (filter : ContactCategory)
    (st : Option Trackfile × ℚ) (tfs : List Trackfile) : Option Trackfile × ℚ :=
  tfs.foldl (nearestStep d s origin minAltitude maxAltitude coalition filter) st

/-- The method `scope.FindNearestTrackfile`. -/
def FindNearestTrackfile (d : Deps) (s : Scope) (origin : Point)
    (minAltitude maxAltitude radius : ℚ) (coalition : Coalition)
    (filter : ContactCategory) : Option Trackfile :=
  (nearestLoop d s origin minAltitude maxAltitude coalition filter (none, radius) s.contacts).1

/-! ## `FindNearestGroupWithBRAA` (nearest.go, lines 63 to 104) -/

/-- The method `scope.FindNearestGroupWithBRAA`. -/
def FindNearestGroupWithBRAA (d : Deps) (s : Scope) (origin : Point)
    (minAltitude maxAltitude radius : ℚ) (coalition : Coalition)
    (filter : ContactCategory) : Option Group :=
  match FindNearestTrackfile d s origin minAltitude maxAltitude radius coalition filter with
  | none => none
  | some trackfile =>
    match s.findGroupForAircraft trackfile with
    | none => none
    | some group =>
      let declination := s.Declination origin
      let bearing := d.NewTrueBearing (d.geoBearing origin (d.groupPoint group) * d.Degree)
      let magBearing := d.Magnetic bearing declination
      let range := d.geoDistance origin (d.groupPoint group) * Meter
      let altitude := trackfile.LastKnown.Altitude
      let aspect := d.AspectFromAngle magBearing trackfile.Course
      some { group with
        braa := some (NewBRAA magBearing range altitude aspect)
        bullseye := none
        aspect := some aspect
        isThreat := decide (range < d.MandatoryThreatDistance) }

/-! ## `FindNearestGroupWithBullseye` (nearest.go, lines 106 to 124) -/

/-- A run-time failure of the Go program. -/
inductive Fault where
  | nilDereference
deriving DecidableEq

/-- The method `scope.FindNearestGroupWithBullseye`.  The source tests neither the
trackfile nor the group for `nil`: line 110 reads `nearestTrackfile.LastKnown()` and
line 119 assigns `group.aspect`, so a `nil` trackfile or a `nil` group is a nil
dereference.  Neither fix field of the group is assigned. -/
def FindNearestGroupWithBullseye (d : Deps) (s : Scope) (origin : Point)
    (minAltitude maxAltitude radius : ℚ) (coalition : Coalition)
    (filter : ContactCategory) : Except Fault (Option Group) :=
  match FindNearestTrackfile d s origin minAltitude maxAltitude radius coalition filter with
  | none => .error .nilDereference
  | some nearestTrackfile =>
    let group := s.findGroupForAircraft nearestTrackfile
    let groupLocation := nearestTrackfile.LastKnown.Point
    let aspect := d.AspectFromAngle
      (d.Magnetic (d.NewTrueBearing (d.geoBearing origin groupLocation * d.Degree))
        (s.Declination origin))
      nearestTrackfile.Course
    match group with
    | none => .error .nilDereference
    | some group =>
      let rang := d.geoDistance origin groupLocation * Meter
      .ok (some { group with
        aspect := some aspect
        isThreat := decide (rang < d.MandatoryThreatDistance) })

/-! ## `FindNearestGroupInSector` (nearest.go, lines 126 to 195) -/

/-- The rounding of a real result to `float64`: to the nearest value with a mantissa of 53
bits, ties to the even mantissa, with gradual underflow below `2 ^ (-1022)`.  A result
beyond the largest `float64` is not turned into an infinity. -/
def round64 (q : ℚ) : ℚ :=
  if q = 0 then 0 else
    let e : ℤ := max (Int.log 2 |q|) (-1022)
    let ulp : ℚ := 2 ^ (e - 52)
    let n : ℚ := q / ulp
    let fl : ℤ := ⌊n⌋
    let r : ℚ := n - fl
    let m : ℤ := if r < 1 / 2 then fl else if 1 / 2 < r then fl + 1
      else if fl % 2 = 0 then fl else fl + 1
    m * ulp

/-- Lines 137 to 141: the vertex of the ring for the value `a` of the loop variable, the
point at bearing `bearing.Value() + a` and distance `length`. -/
def sectorVertex (d : Deps) (origin : Point) (bearing : Bearing) (length a : ℚ) : Point :=
  d.geoPointAtBearingAndDistance origin (Degrees d (round64 (bearing.value + a)))
    (Meters length)

/-- The loop of lines 134 to 143, from the loop variable `a` and the ring built so far:
`for a := arc / 2; a > -arc/2; a -= arc / 10`, each operation rounded to `float64`.
The loop is given fuel: `none` means the fuel ran out before the loop condition
failed. -/
def sectorLoop (d : Deps) (origin : Point) (bearing : Bearing) (length arc : ℚ) :
    Nat → ℚ → List Point → Option (List Point)
  | 0, _, _ => none
  | fuel + 1, a, ring =>
    if a > round64 (-arc / 2) then
      sectorLoop d origin bearing length arc fuel (round64 (a - round64 (arc / 10)))
        (ring ++ [sectorVertex d origin bearing length a])
    else some ring

/-- The ring of lines 133 to 144: the origin, the sampled points, the origin again. -/
def sectorRing (d : Deps) (fuel : Nat) (origin : Point) (bearing : Bearing)
    (length arc : ℚ) : Option (List Point) :=
  (sectorLoop d origin bearing length arc fuel (round64 (arc / 2)) [origin]).map
    (fun ring => ring ++ [origin])

/-- The distance of line 158: `geo.Distance` times `unit.Meter`. -/
def distanceToContact (d : Deps) (origin : Point) (trackfile : Trackfile) : ℚ :=
  d.geoDistance origin trackfile.LastKnown.Point * Meter

/-- One iteration of the loop of lines 151 to 165, on the loop state
`(nearestDistance, nearestContact)`.  The source assigns `nearestContact` only. -/
def sectorStep (d : Deps) (s : Scope) (sector : List (List Point)) (origin : Point)
    (minAltitude maxAltitude : ℚ) (coalition : Coalition) (filter : ContactCategory)
    (st : ℚ × Option Trackfile) (trackfile : Trackfile) : ℚ × Option Trackfile :=
  let isMatch := s.isMatch trackfile coalition filter
  let isWithinAltitude := decide (minAltitude ≤ trackfile.LastKnown.Altitude)
    && decide (trackfile.LastKnown.Altitude ≤ maxAltitude)
  if isMatch && isWithinAltitude then
    let contactLocation := trackfile.LastKnown.Point
    let dist := distanceToContact d origin trackfile
    let inSector := d.planarPolygonContains sector contactLocation
    if decide (dist < st.1) && decide (dist > d.DefaultMarginRadius) && inSector then
      (st.1, some trackfile)
    else st
  else st

/-- The loop of lines 148 to 165: the trackfile that the sector search selects. -/
def sectorSelect (d : Deps) (s : Scope) (sector : List (List Point)) (origin : Point)
    (minAltitude maxAltitude : ℚ) (coalition : Coalition) (filter : ContactCategory) :
    Option Trackfile :=
  (s.contacts.foldl (sectorStep d s sector origin minAltitude maxAltitude coalition filter)
    (MaxFloat64, none)).2

/-- Lines 166 to 195: the group of the selected trackfile with its BRAA fix. -/
def sectorGroup (d : Deps) (s : Scope) (origin : Point) (declination : ℚ) :
    Option Trackfile → Option Group
  | none => none
  | some nearestContact =>
    match s.findGroupForAircraft nearestContact with
    | none => none
    | some group =>
      let preciseBearing := d.Magnetic
        (d.NewTrueBearing (d.geoBearing origin nearestContact.LastKnown.Point * d.Degree))
        declination
      let aspect := d.AspectFromAngle preciseBearing nearestContact.Course
      let range := d.geoDistance origin nearestContact.LastKnown.Point * Meter
      let group1 : Group := { group with aspect := some aspect }
      let group2 : Group := { group1 with
        braa := some (NewBRAA preciseBearing range (d.groupAltitude group1) (d.groupAspect group1)) }
      some { group2 with bullseye := none }

/-- The trackfile selected by `scope.FindNearestGroupInSector` (the value of
`nearestContact` at line 166); `none` at top level means the ring loop ran out of
fuel. -/
def sectorNearestContact (d : Deps) (s : Scope) (fuel : Nat) (origin : Point)
    (minAltitude maxAltitude length : ℚ) (bearing : Bearing) (arc : ℚ)
    (coalition : Coalition) (filter : ContactCategory) : Option (Option Trackfile) :=
  let declination := s.Declination origin
  let bearing := d.Magnetic bearing declination
  (sectorRing d fuel origin bearing length arc).map (fun ring =>
    sectorSelect d s [ring] origin minAltitude maxAltitude coalition filter)

/-- The method `scope.FindNearestGroupInSector`; `none` at top level means the ring loop
ran out of fuel. -/
def FindNearestGroupInSector (d : Deps) (s : Scope) (fuel : Nat) (origin : Point)
    (minAltitude maxAltitude length : ℚ) (bearing : Bearing) (arc : ℚ)
    (coalition : Coalition) (filter : ContactCategory) : Option (Option Group) :=
  (sectorNearestContact d s fuel origin minAltitude maxAltitude length bearing arc
    coalition filter).map (sectorGroup d s origin (s.Declination origin))

/-- The condition under which an iteration of the sector scan assigns `nearestContact`:
lines 154 to 161 with `nearestDistance` at its initial value, which the loop never
changes. -/
def sectorPasses (d : Deps) (s : Scope) (sector : List (List Point)) (origin : Point)
    (minAltitude maxAltitude : ℚ) (coalition : Coalition) (filter : ContactCategory)
    (t : Trackfile) : Bool :=
  s.isMatch t coalition filter && decide (minAltitude ≤ t.LastKnown.Altitude) &&
    decide (t.LastKnown.Altitude ≤ maxAltitude) &&
    decide (distanceToContact d origin t < MaxFloat64) &&
    decide (distanceToContact d origin t > d.DefaultMarginRadius) &&
    d.planarPolygonContains sector t.LastKnown.Point

/-! ## `HandleDeclare` (declare.go, lines 12 to 99) -/

/-- Modelled from the spec: `brevity.DeclareRequest`, whose declaration is not part of
the embedded files.  The bearing of a BRAA request and the bearing of the bullseye are
interface values and may be `nil`. -/
structure DeclareRequest where
  Callsign : String
  IsBRAA : Bool
  Bearing : Option Bearing
  Range : ℚ
  Bullseye : BullseyeFix
  Altitude : ℚ
deriving DecidableEq

/-- Modelled from the spec: `brevity.DeclareResponse`. -/
structure DeclareResponse where
  Callsign : String
  Declaration : Declaration
  Group : Option Group
deriving DecidableEq

/-- The values sent on the outbound channel `c.out`. -/
inductive Message where
  | NegativeRadarContactResponse (Callsign : String)
  | DeclareResponse (response : DeclareResponse)
deriving DecidableEq

/-- The arguments of a call of `FindNearbyGroupsWithBullseye`. -/
structure GroupQuery where
  origin : Point
  minAltitude : ℚ
  maxAltitude : ℚ
  radius : ℚ
  coalition : Coalition
  filter : ContactCategory
deriving DecidableEq

/-- The methods of the interface `Radar` that `HandleDeclare` calls on `c.scope`. -/
structure Radar where
  FindCallsign : String → Coalition → String × Option Trackfile
  Bullseye : Coalition → Point
  Declination : Point → ℚ
  FindNearbyGroupsWithBullseye : GroupQuery → List Group

/-- The receiver `c *controller`; `hostileCoalition` is the value of the method
`c.hostileCoalition()`. -/
structure Controller where
  scope : Radar
  coalition : Coalition
  hostileCoalition : Coalition

/-- The observable steps of a call of `HandleDeclare`, in program order: warnings and
errors written to the log, calls of the radar with their results, and sends on the
outbound channel. -/
inductive Event where
  | warn (msg : String)
  | error (msg : String)
  | findCallsign (callsign : String) (coalition : Coalition) (found : String)
      (trackfile : Option Trackfile)
  | search (query : GroupQuery) (groups : List Group)
  | send (m : Message)
deriving DecidableEq

/-- The result of a call of `HandleDeclare`: its events, the fault that ended it if it
did not return, and the two group lists as the call leaves them (empty when no search
was made). -/
structure Outcome where
  events : List Event
  fault : Option Fault
  friendlyGroups : List Group
  hostileGroups : List Group
deriving DecidableEq

/-- The method `SetDeclaration` of a group. -/
def SetDeclaration (g : Group) (declaration : Declaration) : Group :=
  { g with declaration := declaration }

/-- The group that `response.Group` points to: none, `friendlyGroups[0]` or
`hostileGroups[0]`. -/
inductive GroupRef where
  | friendlyGroups0
  | hostileGroups0
deriving DecidableEq

/-- Lines 76 to 91: the declaration and the group reference of the response. -/
def declareClassify (friendlyGroups hostileGroups : List Group) :
    Declaration × Option GroupRef :=
  if friendlyGroups.length + hostileGroups.length = 0 then (.Clean, none)
  else if friendlyGroups.length > 0 ∧ hostileGroups.length = 0 then
    (.Friendly, some .friendlyGroups0)
  else if friendlyGroups.length = 0 ∧ hostileGroups.length > 0 then
    (.Hostile, some .hostileGroups0)
  else if friendlyGroups.length > 0 ∧ hostileGroups.length > 0 then (.Furball, none)
  else (.unset, none)

/-- Lines 93 to 95: `SetDeclaration` on the referenced group, as an update of the two
lists that hold it. -/
def setDeclarationAt (declaration : Declaration) :
    Option GroupRef → List Group × List Group → List Group × List Group
  | some .friendlyGroups0, (g :: rest, hostileGroups) =>
    (SetDeclaration g declaration :: rest, hostileGroups)
  | some .hostileGroups0, (friendlyGroups, g :: rest) =>
    (friendlyGroups, SetDeclaration g declaration :: rest)
  | _, lists => lists

/-- The value of the referenced group. -/
def derefGroup : Option GroupRef → List Group × List Group → Option Group
  | some .friendlyGroups0, (friendlyGroups, _) => friendlyGroups.head?
  | some .hostileGroups0, (_, hostileGroups) => hostileGroups.head?
  | none, _ => none

/-- Lines 41 to 66: the area of interest of the request, with the warnings and errors
logged on the way.  In the bullseye branch the test `request == nil` of line 54 is false,
the request having been read since line 14; a `nil` bullseye bearing is logged at line 57
and dereferenced at line 59. -/
def declareArea (d : Deps) (c : Controller) (request : DeclareRequest) (trackfile : Trackfile) :
    List Event × Except Fault Point :=
  if request.IsBRAA then
    match request.Bearing with
    | none => ([], .error .nilDereference)
    | some requestBearing =>
      let logged := if !requestBearing.isMagnetic then
        [Event.warn "bearing provided to HandleDeclare should be magnetic"] else []
      let origin := trackfile.LastKnown.Point
      let bearing := requestBearing
      let distance := request.Range
      (logged, .ok (d.geoPointAtBearingAndDistance origin (Degrees d bearing.value)
        (Meters distance)))
  else
    match request.Bullseye.bearing with
    | none => ([Event.error "request.Bullseye.Bearing() is nil"], .error .nilDereference)
    | some bullseyeBearing =>
      let logged := if !bullseyeBearing.isMagnetic then
        [Event.warn "bearing provided to HandleDeclare should be magnetic"] else []
      let origin := c.scope.Bullseye trackfile.Contact.Coalition
      let bearing := d.True bullseyeBearing (c.scope.Declination origin)
      let distance := request.Bullseye.distance
      (logged, .ok (d.geoPointAtBearingAndDistance origin (Degrees d bearing.value)
        (Meters distance)))

/-- The method `controller.HandleDeclare`.  Lines 17 to 27 read the bearing of the request
(of the bullseye for a bullseye request) to fill the logger, which is a nil dereference
when that bearing is `nil`. -/
def HandleDeclare (d : Deps) (c : Controller) (request : DeclareRequest) : Outcome :=
  match (if request.IsBRAA then request.Bearing else request.Bullseye.bearing) with
  | none =>
    { events := [], fault := some .nilDereference, friendlyGroups := [], hostileGroups := [] }
  | some _ =>
    let (foundCallsign, trackfile) := c.scope.FindCallsign request.Callsign c.coalition
    let lookup := Event.findCallsign request.Callsign c.coalition foundCallsign trackfile
    match trackfile with
    | none =>
      { events := [lookup, .send (.NegativeRadarContactResponse request.Callsign)],
        fault := none, friendlyGroups := [], hostileGroups := [] }
    | some trackfile =>
      match declareArea d c request trackfile with
      | (logged, .error fault) =>
        { events := lookup :: logged, fault := some fault,
          friendlyGroups := [], hostileGroups := [] }
      | (logged, .ok aoi) =>
        let radius := 7 * d.NauticalMile
        let altitudeMargin := 5000 * d.Foot
        let minAltitude := request.Altitude - altitudeMargin
        let maxAltitude := request.Altitude + altitudeMargin
        let friendlyQuery : GroupQuery :=
          { origin := aoi, minAltitude := minAltitude, maxAltitude := maxAltitude,
            radius := radius, coalition := c.coalition, filter := .Aircraft }
        let hostileQuery : GroupQuery :=
          { origin := aoi, minAltitude := minAltitude, maxAltitude := maxAltitude,
            radius := radius, coalition := c.hostileCoalition, filter := .Aircraft }
        let friendlyGroups := c.scope.FindNearbyGroupsWithBullseye friendlyQuery
        let hostileGroups := c.scope.FindNearbyGroupsWithBullseye hostileQuery
        let classified := declareClassify friendlyGroups hostileGroups
        let lists := setDeclarationAt classified.1 classified.2 (friendlyGroups, hostileGroups)
        let response : DeclareResponse :=
          { Callsign := foundCallsign, Declaration := classified.1,
            Group := derefGroup classified.2 lists }
        { events := lookup :: logged ++
            [.search friendlyQuery friendlyGroups, .search hostileQuery hostileGroups,
              .send (.DeclareResponse response)],
          fault := none, friendlyGroups := lists.1, hostileGroups := lists.2 }

/-- The message of a send event. -/
def Event.sentMessage : Event → Option Message
  | .send m => some m
  | _ => none

/-- The query and the result of a search event. -/
def Event.searchResult : Event → Option (GroupQuery × List Group)
  | .search q groups => some (q, groups)
  | _ => none

/-- The messages sent on the outbound channel during a call, in order. -/
def Outcome.sent (o : Outcome) : List Message :=
  o.events.filterMap Event.sentMessage

/-- The group searches made during a call, in order, each with the list it returned. -/
def Outcome.searches (o : Outcome) : List (GroupQuery × List Group) :=
  o.events.filterMap Event.searchResult

/-! ## `receiveVoice` (receive.go, lines 75 to 156)

The loop of `receiveVoice` is embedded as a step function on the buffer and the
last-received state, one step per iteration of the `select`.  A time is a number of
nanoseconds.  The write of `c.lastRx.deadline` by `receiveUDP` (line 49), which runs
beside `receiveVoice`, is an input of its own. -/

/-- An element of `vp.Frequencies`, with the fields that `receiveVoice` reads. -/
structure PacketFrequency where
  Frequency : ℚ
  Modulation : Nat
  Encryption : Nat
deriving DecidableEq

/-- The struct `voice.VoicePacket`, with the fields that `receiveVoice` reads; the packet
ID is a `uint64`. -/
structure VoicePacket where
  OriginGUID : String
  PacketID : Nat
  Frequencies : List PacketFrequency
deriving DecidableEq

/-- The struct `types.Radio`, with the fields that `receiveVoice` sets. -/
structure Radio where
  Frequency : ℚ
  Modulation : Nat
  IsEncrypted : Bool
  EncryptionKey : Nat
deriving DecidableEq

/-- The field `c.lastRx` of the audio client. -/
structure LastRx where
  origin : String
  packetNumber : Nat
  deadline : Int
deriving DecidableEq

/-- The part of the receiver `c *audioClient` that `receiveVoice` only reads: the radio of
the client and the method `Radio.IsSameFrequency`, which is defined outside
`receive.go`. -/
structure AudioClient where
  radio : Radio
  IsSameFrequency : Radio → Radio → Bool

/-- The variables that `receiveVoice` changes: the buffer `buf` and `c.lastRx`. -/
structure RxState where
  buf : List VoicePacket
  lastRx : LastRx
deriving DecidableEq

/-- The result of `decodeVoicePacket`: an error, a `nil` packet or a packet. -/
inductive Decoded where
  | failed
  | nilPacket
  | packet (vp : VoicePacket)
deriving DecidableEq

/-- One iteration of the loop: a packet read from the channel `in` with the result of
decoding it; a tick of the ticker, with the value of `len(in)` and of `time.Now()`; a voice
packet seen by `receiveUDP` at a given time. -/
inductive RxInput where
  | incoming (decoded : Decoded)
  | tick (queued : Nat) (now : Int)
  | udpVoice (now : Int)
deriving DecidableEq

/-- The constant `maxRxGap`: 300 milliseconds. -/
def maxRxGap : Int := 300 * 1000000

/-- The method `audioClient.updateLastRX`. -/
def updateLastRX (lastRx : LastRx) (vp : VoicePacket) : LastRx :=
  { lastRx with origin := vp.OriginGUID, packetNumber := vp.PacketID }

/-- The method `audioClient.resetLastRx`. -/
def resetLastRx (lastRx : LastRx) : LastRx :=
  { lastRx with packetNumber := 0, origin := "" }

/-- Lines 102 to 114: some frequency of the packet matches the radio of the client. -/
def isSameFrequency (c : AudioClient) (vp : VoicePacket) : Bool :=
  vp.Frequencies.any (fun f =>
    c.IsSameFrequency c.radio
      { Frequency := f.Frequency, Modulation := f.Modulation,
        IsEncrypted := decide (f.Encryption ≠ 0), EncryptionKey := f.Encryption })

/-- Lines 94 to 119: the test `isMatchingPacket`. -/
def isMatchingPacket (c : AudioClient) (lastRx : LastRx) (vp : VoicePacket) : Bool :=
  let isNewPacket := decide (lastRx.origin = "") && decide (lastRx.packetNumber = 0)
  let isSameOrigin := decide (lastRx.origin = vp.OriginGUID)
  let isNewerPacket := decide (vp.PacketID > lastRx.packetNumber)
  isSameFrequency c vp && (isNewPacket || (isNewerPacket && isSameOrigin))

/-- One iteration of the loop of `receiveVoice` (lines 82 to 142): the next state and the
transmission sent on the channel `out`, if any. -/
def receiveVoiceStep (c : AudioClient) (st : RxState) :
    RxInput → RxState × Option (List VoicePacket)
  | .incoming .failed => (st, none)
  | .incoming .nilPacket => (st, none)
  | .incoming (.packet vp) =>
    if isMatchingPacket c st.lastRx vp then
      ({ buf := st.buf ++ [vp], lastRx := updateLastRX st.lastRx vp }, none)
    else (st, none)
  | .tick queued now =>
    if st.buf.length > 25 ∧ queued = 0 ∧ now > st.lastRx.deadline then
      ({ buf := [], lastRx := resetLastRx st.lastRx }, some st.buf)
    else (st, none)
  | .udpVoice now =>
    ({ st with lastRx := { st.lastRx with deadline := now + maxRxGap } }, none)

/-- The state of `receiveVoice` after a sequence of iterations. -/
def receiveVoiceRun (c : AudioClient) (st : RxState) (inputs : List RxInput) : RxState :=
  inputs.foldl (fun st input => (receiveVoiceStep c st input).1) st

/-- The state at the start of `receiveVoice`: an empty buffer and the zero value of
`c.lastRx`. -/
def rxInit : RxState :=
  { buf := [], lastRx := { origin := "", packetNumber := 0, deadline := 0 } }

/-! ## A test environment

A small concrete environment on which the definitions are evaluated: points of a plane with
the taxicab distance in metres, a bearing that shifts the longitude, an even-odd ray
casting containment test, and a group lookup that puts every trackfile in a group of its
own. -/

/-- The edge from `a` to `b` crosses the ray that leaves `p` towards growing
longitude. -/
def crossesRay (p a b : Point) : Bool :=
  (decide (a.lat > p.lat) != decide (b.lat > p.lat)) &&
    decide (p.lon < (b.lon - a.lon) * (p.lat - a.lat) / (b.lat - a.lat) + a.lon)

/-- Even-odd test: the ray from `p` crosses the edges of the ring an odd number of
times. -/
def ringContains (ring : List Point) (p : Point) : Bool :=
  ((ring.zip ring.tail).filter (fun e => crossesRay p e.1 e.2)).length % 2 == 1

/-- The point is inside the outer ring of the polygon and outside its holes. -/
def polygonContains : List (List Point) → Point → Bool
  | [], _ => false
  | outer :: holes, p => ringContains outer p && holes.all (fun h => !ringContains h p)

/-- The test environment for the functions of other packages. -/
def flatDeps : Deps where
  geoDistance := fun p q => |q.lon - p.lon| + |q.lat - p.lat|
  geoBearing := fun _ _ => 0
  geoPointAtBearingAndDistance := fun o b dist => { lon := o.lon + b, lat := o.lat + dist }
  planarPolygonContains := polygonContains
  Degree := 1
  NauticalMile := 1852
  Foot := 381 / 1250
  NewTrueBearing := fun a => { value := a, isMagnetic := false }
  Magnetic := fun b decl => { value := b.value - decl, isMagnetic := true }
  True := fun b decl => { value := b.value + decl, isMagnetic := false }
  AspectFromAngle := fun _ _ => "Hot"
  MandatoryThreatDistance := 46300
  DefaultMarginRadius := 5556
  groupPoint := fun g => (g.contacts.head?.map (fun t => t.LastKnown.Point)).getD { lon := 0, lat := 0 }
  groupAltitude := fun g => (g.contacts.head?.map (fun t => t.LastKnown.Altitude)).getD 0
  groupAspect := fun g => g.aspect.getD "Unknown"

/-- A blue aircraft trackfile of the test environment, on the meridian of the origin. -/
def mkTrack (unitID : Nat) (lat altitude : ℚ) : Trackfile where
  Contact := { UnitID := unitID, Name := "", ACMIName := "F-16C", Coalition := .blue }
  LastKnown := { Point := { lon := 0, lat := lat }, Altitude := altitude }
  Course := { value := 0, isMagnetic := false }

/-- The origin of the test searches. -/
def origin0 : Point := { lon := 0, lat := 0 }

/-- A group as the lookup of the test environment produces it: the trackfile alone, with
a bullseye fix and no BRAA fix. -/
def soloGroup (t : Trackfile) : Group where
  contacts := [t]
  braa := none
  bullseye := some { bearing := none, distance := 0 }
  aspect := none
  isThreat := false
  declaration := .unset

/-- A scope of the test environment over a given store. -/
def flatScope (contacts : List Trackfile) : Scope where
  contacts := contacts
  isMatch := fun t c _ => decide (t.Contact.Coalition = c)
  findGroupForAircraft := fun t => some (soloGroup t)
  Declination := fun _ => 0

/-- A store of the test environment: one trackfile at 30 km, then two at 20 km. -/
def tieStore : List Trackfile :=
  [mkTrack 1 30000 8000, mkTrack 2 20000 8000, mkTrack 3 20000 8000]

/-- A store of the test environment: a trackfile at 20 km, then one at 30 km. -/
def nearFarStore : List Trackfile :=
  [mkTrack 1 20000 8000, mkTrack 2 30000 8000]

/-- A scope of the test environment over a given store and a given group lookup. -/
def lookupScope (contacts : List Trackfile) (lookup : Trackfile → Option Group) : Scope where
  contacts := contacts
  isMatch := fun t c _ => decide (t.Contact.Coalition = c)
  findGroupForAircraft := lookup
  Declination := fun _ => 0

/-- A group that carries a BRAA fix and no bullseye fix. -/
def braaOnlyGroup (t : Trackfile) : Group where
  contacts := [t]
  braa := some (NewBRAA { value := 0, isMagnetic := true } 1000 8000 "Hot")
  bullseye := none
  aspect := none
  isThreat := false
  declaration := .unset

/-- The magnetic bearing 000 used by the test sector searches. -/
def north : Bearing := { value := 0, isMagnetic := true }

/-- The ring of the test sector: origin `origin0`, bearing `north`, length 50 km, arc 60. -/
def testRing : List Point :=
  [{ lon := 0, lat := 0 }, { lon := 30, lat := 50000 }, { lon := 24, lat := 50000 },
    { lon := 18, lat := 50000 }, { lon := 12, lat := 50000 }, { lon := 6, lat := 50000 },
    { lon := 0, lat := 50000 }, { lon := -6, lat := 50000 }, { lon := -12, lat := 50000 },
    { lon := -18, lat := 50000 }, { lon := -24, lat := 50000 }, { lon := 0, lat := 0 }]

/-- The group that the BRAA search of the test environment returns for a lone trackfile
at 20 km. -/
def threatGroup : Group where
  contacts := [mkTrack 1 20000 8000]
  braa := some (NewBRAA { value := 0, isMagnetic := true } 20000 8000 "Hot")
  bullseye := none
  aspect := some "Hot"
  isThreat := true
  declaration := .unset

/-- The group that the sector search of the test environment returns for the trackfile at
30 km. -/
def farGroup : Group where
  contacts := [mkTrack 2 30000 8000]
  braa := some (NewBRAA { value := 0, isMagnetic := true } 30000 8000 "Hot")
  bullseye := none
  aspect := some "Hot"
  isThreat := false
  declaration := .unset

/-- A radar of the test environment: it knows the callsign "freedom 3 1" only, and
answers the group searches with a given function. -/
def flatRadar (groups : GroupQuery → List Group) : Radar where
  FindCallsign := fun callsign _ =>
    if callsign = "freedom 3 1" then ("freedom 31", some (mkTrack 7 0 8000)) else ("", none)
  Bullseye := fun _ => origin0
  Declination := fun _ => 0
  FindNearbyGroupsWithBullseye := groups

/-- A blue controller of the test environment. -/
def blueController (groups : GroupQuery → List Group) : Controller where
  scope := flatRadar groups
  coalition := .blue
  hostileCoalition := .red

/-- A BRAA request from a callsign the radar does not know. -/
def ghostRequest : DeclareRequest where
  Callsign := "Ghost 1"
  IsBRAA := true
  Bearing := some { value := 125, isMagnetic := true }
  Range := 18520
  Bullseye := { bearing := none, distance := 0 }
  Altitude := 3000

/-- A BRAA request from a callsign the radar knows. -/
def freedomRequest : DeclareRequest where
  Callsign := "freedom 3 1"
  IsBRAA := true
  Bearing := some { value := 125, isMagnetic := true }
  Range := 18520
  Bullseye := { bearing := none, distance := 0 }
  Altitude := 3000

/-- A search answer with two blue groups and no red group. -/
def twoFriendly (q : GroupQuery) : List Group :=
  if q.coalition = .blue then [soloGroup (mkTrack 1 20000 8000), soloGroup (mkTrack 2 30000 8000)]
  else []

/-- The query of the test controller for `freedomRequest` and a coalition. -/
def freedomQuery (coalition : Coalition) : GroupQuery where
  origin := { lon := 125, lat := 18520 }
  minAltitude := 1476
  maxAltitude := 4524
  radius := 12964
  coalition := coalition
  filter := .Aircraft

/-- A bullseye request from a known callsign whose bullseye bearing is `nil`. -/
def nilBullseyeRequest : DeclareRequest where
  Callsign := "freedom 3 1"
  IsBRAA := false
  Bearing := none
  Range := 0
  Bullseye := { bearing := none, distance := 18520 }
  Altitude := 3000

/-- A bullseye request from the callsign "Ghost 1", which the radar does not know, whose
bullseye bearing is `nil`. -/
def ghostNilRequest : DeclareRequest where
  Callsign := "Ghost 1"
  IsBRAA := false
  Bearing := none
  Range := 0
  Bullseye := { bearing := none, distance := 18520 }
  Altitude := 3000

/-- A BRAA request from a known callsign whose bearing is `nil`. -/
def nilBraaRequest : DeclareRequest where
  Callsign := "freedom 3 1"
  IsBRAA := true
  Bearing := none
  Range := 18520
  Bullseye := { bearing := none, distance := 0 }
  Altitude := 3000

/-- The ring of a sector of the test environment with arc 5/4: ten samples, from bearing
5/8 down to bearing -1/2. -/
def narrowRing : List Point :=
  [{ lon := 0, lat := 0 }, { lon := 5 / 8, lat := 50000 }, { lon := 1 / 2, lat := 50000 },
    { lon := 3 / 8, lat := 50000 }, { lon := 1 / 4, lat := 50000 }, { lon := 1 / 8, lat := 50000 },
    { lon := 0, lat := 50000 }, { lon := -1 / 8, lat := 50000 }, { lon := -1 / 4, lat := 50000 },
    { lon := -3 / 8, lat := 50000 }, { lon := -1 / 2, lat := 50000 }, { lon := 0, lat := 0 }]

/-- An audio client of the test environment: its radio is on 251 MHz, and two radios are
on the same frequency when frequency, modulation and encryption agree. -/
def testClient : AudioClient where
  radio := { Frequency := 251000000, Modulation := 0, IsEncrypted := false, EncryptionKey := 0 }
  IsSameFrequency := fun a b =>
    decide (a.Frequency = b.Frequency) && decide (a.Modulation = b.Modulation) &&
      decide (a.IsEncrypted = b.IsEncrypted) && decide (a.EncryptionKey = b.EncryptionKey)

/-- A packet of the test environment on the frequency of the test client. -/
def onFrequency (origin : String) (packetID : Nat) : VoicePacket where
  OriginGUID := origin
  PacketID := packetID
  Frequencies := [{ Frequency := 251000000, Modulation := 0, Encryption := 0 }]

/-- A packet of the test environment on 305 MHz, which the test client does not listen
to. -/
def offFrequency (origin : String) (packetID : Nat) : VoicePacket where
  OriginGUID := origin
  PacketID := packetID
  Frequencies := [{ Frequency := 305000000, Modulation := 0, Encryption := 0 }]

/-- A sequence of iterations of the test environment: two packets of one transmission, a
packet of another origin on another frequency, a repeated packet, a deadline write and a
tick. -/
def sampleInputs : List RxInput :=
  [.incoming (.packet (onFrequency "pilot-1" 1)), .incoming (.packet (onFrequency "pilot-1" 2)),
    .incoming (.packet (offFrequency "pilot-2" 3)), .incoming (.packet (onFrequency "pilot-1" 2)),
    .incoming .failed, .udpVoice 100, .tick 0 500000000]

/-- A state of the test environment with 26 buffered packets of one transmission. -/
def fullBuffer : RxState where
  buf := (List.range 26).map (fun n => onFrequency "pilot-1" (n + 1))
  lastRx := { origin := "pilot-1", packetNumber := 26, deadline := 300000100 }

/-- The `float64` value of `10 * unit.Degree`, 0.17453292519943295: the mantissa
`0x1657184ae74487` at the exponent -55. -/
def tenDegrees : ℚ := 6288211335136391 / 36028797018963968

/-- The values of the loop variable of line 134 that pass the loop condition for the arc
`tenDegrees`, in the order of the loop. -/
def tenDegreesSamples : List ℚ :=
  [6288211335136391 / 72057594037927936,
    5030569068109113 / 72057594037927936,
    3772926801081835 / 72057594037927936,
    2515284534054557 / 72057594037927936,
    5030569068109115 / 288230376151711744,
    1 / 144115188075855872,
    -5030569068109111 / 288230376151711744,
    -628821133513639 / 18014398509481984,
    -1886463400540917 / 36028797018963968,
    -628821133513639 / 9007199254740992,
    -3144105667568195 / 36028797018963968]

/-- The `float64` value `1e-323`, twice the smallest positive `float64`. -/
def tinyArc : ℚ := 2 ^ (-1073 : ℤ)

/-! ## The scan of `FindNearestTrackfile` -/

theorem nearestLoop_snoc (d : Deps) (s : Scope) (origin : Point) (minAltitude maxAltitude : ℚ)
    (coalition : Coalition) (filter : ContactCategory) (st : Option Trackfile × ℚ)
    (tfs : List Trackfile) (tf : Trackfile) :
    nearestLoop d s origin minAltitude maxAltitude coalition filter st (tfs ++ [tf]) =
      nearestStep d s origin minAltitude maxAltitude coalition filter
        (nearestLoop d s origin minAltitude maxAltitude coalition filter st tfs) tf := by
  simp [nearestLoop, List.foldl_append]

/-- The state of the scan after a prefix of the store, started from `(none, radius)`:
either nothing was kept and every matching trackfile of the prefix is at `radius` or
farther, or the kept trackfile matches, lies strictly inside `radius`, every matching
trackfile before it is strictly farther and every matching trackfile after it is at
least as far. -/
theorem nearestLoop_spec (d : Deps) (s : Scope) (origin : Point)
    (minAltitude maxAltitude radius : ℚ) (coalition : Coalition) (filter : ContactCategory)
    (tfs : List Trackfile) :
    (fun st : Option Trackfile × ℚ =>
      (st.1 = none → st.2 = radius ∧
        ∀ u ∈ tfs, inBand s minAltitude maxAltitude coalition filter u = true →
          radius ≤ absDistance d origin u) ∧
      (∀ t, st.1 = some t →
        inBand s minAltitude maxAltitude coalition filter t = true ∧
        absDistance d origin t = st.2 ∧ st.2 < radius ∧
        ∃ before after, tfs = before ++ t :: after ∧
          (∀ u ∈ before, inBand s minAltitude maxAltitude coalition filter u = true →
            st.2 < absDistance d origin u) ∧
          (∀ u ∈ after, inBand s minAltitude maxAltitude coalition filter u = true →
            st.2 ≤ absDistance d origin u)))
      (nearestLoop d s origin minAltitude maxAltitude coalition filter (none, radius) tfs) := by
  induction tfs using List.reverseRecOn with
  | nil => simp [nearestLoop]
  | append_singleton l a ih =>
    rw [nearestLoop_snoc]
    generalize nearestLoop d s origin minAltitude maxAltitude coalition filter (none, radius) l
      = st at ih
    obtain ⟨best, nd⟩ := st
    obtain ⟨ihn, ihs⟩ := ih
    simp only at ihn ihs
    unfold nearestStep
    by_cases hb : inBand s minAltitude maxAltitude coalition filter a = true
    · by_cases hlt : absDistance d origin a < nd
      · -- the candidate replaces the current best
        simp only [hb, hlt, if_true, decide_True]
        refine ⟨fun h => by simp at h, ?_⟩
        intro t ht
        have hta : a = t := by simpa using ht
        subst hta
        have hnd : nd ≤ radius := by
          cases best with
          | none => exact le_of_eq (ihn rfl).1
          | some b => exact le_of_lt (ihs b rfl).2.2.1
        refine ⟨hb, rfl, lt_of_lt_of_le hlt hnd, l, [], rfl, ?_, by simp⟩
        intro u hu hub
        cases best with
        | none =>
          have := (ihn rfl).2 u hu hub
          have h2 := (ihn rfl).1
          linarith
        | some b =>
          obtain ⟨_, _, _, before, after, hl, hbef, haft⟩ := ihs b rfl
          subst hl
          rcases List.mem_append.1 hu with h | h
          · exact lt_trans hlt (hbef u h hub)
          · rcases List.mem_cons.1 h with h | h
            · subst h; linarith
            · exact lt_of_lt_of_le hlt (haft u h hub)
      · -- the current best is kept
        simp only [hb, hlt, if_true, decide_False]
        have hge : nd ≤ absDistance d origin a := not_lt.1 hlt
        refine ⟨?_, ?_⟩
        · intro h
          obtain ⟨h1, h2⟩ := ihn h
          refine ⟨h1, ?_⟩
          intro u hu hub
          rcases List.mem_append.1 hu with h | h
          · exact h2 u h hub
          · have : u = a := by simpa using h
            subst this
            exact le_of_eq_of_le h1.symm hge
        · intro t ht
          obtain ⟨h1, h2, h3, before, after, hl, hbef, haft⟩ := ihs t ht
          refine ⟨h1, h2, h3, before, after ++ [a], by simp [hl], hbef, ?_⟩
          intro u hu hub
          rcases List.mem_append.1 hu with h | h
          · exact haft u h hub
          · have : u = a := by simpa using h
            subst this
            exact hge
    · -- the trackfile does not match: the state is unchanged
      simp only [hb]
      refine ⟨?_, ?_⟩
      · intro h
        obtain ⟨h1, h2⟩ := ihn h
        refine ⟨h1, ?_⟩
        intro u hu hub
        rcases List.mem_append.1 hu with h | h
        · exact h2 u h hub
        · have : u = a := by simpa using h
          subst this
          exact absurd hub hb
      · intro t ht
        obtain ⟨h1, h2, h3, before, after, hl, hbef, haft⟩ := ihs t ht
        refine ⟨h1, h2, h3, before, after ++ [a], by simp [hl], hbef, ?_⟩
        intro u hu hub
        rcases List.mem_append.1 hu with h | h
        · exact haft u h hub
        · have : u = a := by simpa using h
          subst this
          exact absurd hub hb

/-- The test of line 33 holds iff the filters match and the altitude is inside the
closed band. -/
theorem inBand_iff (s : Scope) (minAltitude maxAltitude : ℚ) (coalition : Coalition)
    (filter : ContactCategory) (t : Trackfile) :
    inBand s minAltitude maxAltitude coalition filter t = true ↔
      s.isMatch t coalition filter = true ∧ minAltitude ≤ t.LastKnown.Altitude ∧
        t.LastKnown.Altitude ≤ maxAltitude := by
  simp [inBand, and_assoc]

/-! ## Claims about `FindNearestTrackfile` -/

/-- C3. When `FindNearestTrackfile` returns a trackfile, that trackfile is in the store,
satisfies the filters and the altitude band, its distance from the origin is strictly less
than `radius`, and no trackfile of the store that satisfies the filters and the band is
strictly nearer.  The store is an arbitrary list, so this holds for every iteration
order. -/
theorem FindNearestTrackfile_is_nearest (d : Deps) (s : Scope) (origin : Point)
    (minAltitude maxAltitude radius : ℚ) (coalition : Coalition) (filter : ContactCategory)
    (t : Trackfile)
    (h : FindNearestTrackfile d s origin minAltitude maxAltitude radius coalition filter
      = some t) :
    t ∈ s.contacts ∧ s.isMatch t coalition filter = true ∧
      minAltitude ≤ t.LastKnown.Altitude ∧ t.LastKnown.Altitude ≤ maxAltitude ∧
      absDistance d origin t < radius ∧
      ∀ u ∈ s.contacts, s.isMatch u coalition filter = true →
        minAltitude ≤ u.LastKnown.Altitude → u.LastKnown.Altitude ≤ maxAltitude →
        ¬ absDistance d origin u < absDistance d origin t := by
  have hspec := nearestLoop_spec d s origin minAltitude maxAltitude radius coalition filter
    s.contacts
  obtain ⟨hb, hd, hr, before, after, hl, hbef, haft⟩ := hspec.2 t h
  have hb2 := (inBand_iff s minAltitude maxAltitude coalition filter t).1 hb
  refine ⟨by rw [hl]; simp, hb2.1, hb2.2.1, hb2.2.2, by rw [hd]; exact hr, ?_⟩
  intro u hu hm h1 h2
  have hub := (inBand_iff s minAltitude maxAltitude coalition filter u).2 ⟨hm, h1, h2⟩
  rw [hl] at hu
  rw [hd]
  rcases List.mem_append.1 hu with hu | hu
  · exact not_lt.2 (le_of_lt (hbef u hu hub))
  · rcases List.mem_cons.1 hu with hu | hu
    · subst hu; exact not_lt.2 (le_of_eq hd.symm)
    · exact not_lt.2 (haft u hu hub)

/-- C4. `FindNearestTrackfile` returns a trackfile iff the store holds a trackfile that
satisfies the filters, whose altitude `a` has `minAltitude ≤ a ≤ maxAltitude`, and whose
distance from the origin is strictly less than `radius`; otherwise it returns absent.  In
particular a matching trackfile inside `radius` at exactly `minAltitude` or exactly
`maxAltitude` makes the search succeed, and a store whose trackfiles are all at distance
`radius` or more yields absent. -/
theorem FindNearestTrackfile_some_iff (d : Deps) (s : Scope) (origin : Point)
    (minAltitude maxAltitude radius : ℚ) (coalition : Coalition) (filter : ContactCategory) :
    ((∃ t, FindNearestTrackfile d s origin minAltitude maxAltitude radius coalition filter
        = some t) ↔
      ∃ u ∈ s.contacts, s.isMatch u coalition filter = true ∧
        minAltitude ≤ u.LastKnown.Altitude ∧ u.LastKnown.Altitude ≤ maxAltitude ∧
        absDistance d origin u < radius) ∧
    (FindNearestTrackfile d s origin minAltitude maxAltitude radius coalition filter = none ↔
      ¬ ∃ u ∈ s.contacts, s.isMatch u coalition filter = true ∧
        minAltitude ≤ u.LastKnown.Altitude ∧ u.LastKnown.Altitude ≤ maxAltitude ∧
        absDistance d origin u < radius) ∧
    (∀ u ∈ s.contacts, s.isMatch u coalition filter = true →
      absDistance d origin u < radius → minAltitude ≤ maxAltitude →
      (u.LastKnown.Altitude = minAltitude ∨ u.LastKnown.Altitude = maxAltitude) →
      ∃ t, FindNearestTrackfile d s origin minAltitude maxAltitude radius coalition filter
        = some t) ∧
    ((∀ u ∈ s.contacts, radius ≤ absDistance d origin u) →
      FindNearestTrackfile d s origin minAltitude maxAltitude radius coalition filter
        = none) := by
  have hspec := nearestLoop_spec d s origin minAltitude maxAltitude radius coalition filter
    s.contacts
  have key : (∃ t, FindNearestTrackfile d s origin minAltitude maxAltitude radius coalition
        filter = some t) ↔
      ∃ u ∈ s.contacts, s.isMatch u coalition filter = true ∧
        minAltitude ≤ u.LastKnown.Altitude ∧ u.LastKnown.Altitude ≤ maxAltitude ∧
        absDistance d origin u < radius := by
    constructor
    · rintro ⟨t, ht⟩
      obtain ⟨hb, hd, hr, before, after, hl, _, _⟩ := hspec.2 t ht
      have hb2 := (inBand_iff s minAltitude maxAltitude coalition filter t).1 hb
      exact ⟨t, by rw [hl]; simp, hb2.1, hb2.2.1, hb2.2.2, by rw [hd]; exact hr⟩
    · rintro ⟨u, hu, hm, h1, h2, h3⟩
      cases hres : FindNearestTrackfile d s origin minAltitude maxAltitude radius coalition
        filter with
      | some t => exact ⟨t, rfl⟩
      | none =>
        have := (hspec.1 hres).2 u hu
          ((inBand_iff s minAltitude maxAltitude coalition filter u).2 ⟨hm, h1, h2⟩)
        exact absurd h3 (not_lt.2 this)
  have key2 : FindNearestTrackfile d s origin minAltitude maxAltitude radius coalition filter
      = none ↔ ¬ ∃ u ∈ s.contacts, s.isMatch u coalition filter = true ∧
        minAltitude ≤ u.LastKnown.Altitude ∧ u.LastKnown.Altitude ≤ maxAltitude ∧
        absDistance d origin u < radius := by
    rw [← key]
    cases FindNearestTrackfile d s origin minAltitude maxAltitude radius coalition filter
      <;> simp
  refine ⟨key, key2, ?_, ?_⟩
  · intro u hu hm hr hle halt
    refine key.2 ⟨u, hu, hm, ?_, ?_, hr⟩
    · rcases halt with h | h <;> rw [h]
      exact hle
    · rcases halt with h | h <;> rw [h]
      exact hle
  · intro hall
    refine key2.2 ?_
    rintro ⟨u, hu, _, _, _, hlt⟩
    exact absurd hlt (not_lt.2 (hall u hu))

/-- On the store `tieStore` the search returns the first of the two trackfiles at
20 km. -/
theorem FindNearestTrackfile_tieStore :
    FindNearestTrackfile flatDeps (flatScope tieStore) origin0 3000 13000 40000 .blue .Aircraft
      = some (mkTrack 2 20000 8000) := by
  simp [FindNearestTrackfile, nearestLoop, nearestStep, inBand, absDistance, flatDeps,
    flatScope, mkTrack, origin0, tieStore]
  norm_num

/-- Boundary cases of the search on one trackfile at 20 km and 8000 m: it is found when
the band starts or ends exactly at its altitude, and it is not found when the radius is
exactly its distance. -/
theorem FindNearestTrackfile_boundaries :
    FindNearestTrackfile flatDeps (flatScope [mkTrack 1 20000 8000]) origin0 8000 9000 40000
        .blue .Aircraft = some (mkTrack 1 20000 8000) ∧
    FindNearestTrackfile flatDeps (flatScope [mkTrack 1 20000 8000]) origin0 7000 8000 40000
        .blue .Aircraft = some (mkTrack 1 20000 8000) ∧
    FindNearestTrackfile flatDeps (flatScope [mkTrack 1 20000 8000]) origin0 7000 9000 20000
        .blue .Aircraft = none := by
  refine ⟨?_, ?_, ?_⟩ <;>
    simp [FindNearestTrackfile, nearestLoop, nearestStep, inBand, absDistance, flatDeps,
      flatScope, mkTrack, origin0] <;> norm_num

/-- The nearest-trackfile property on the store `tieStore`, whose result is the trackfile
with unit 2 at 20 km. -/
theorem FindNearestTrackfile_is_nearest_witness :
    FindNearestTrackfile flatDeps (flatScope tieStore) origin0 3000 13000 40000 .blue .Aircraft
      = some (mkTrack 2 20000 8000) ∧
    (mkTrack 2 20000 8000 ∈ (flatScope tieStore).contacts ∧
      (flatScope tieStore).isMatch (mkTrack 2 20000 8000) .blue .Aircraft = true ∧
      3000 ≤ (mkTrack 2 20000 8000).LastKnown.Altitude ∧
      (mkTrack 2 20000 8000).LastKnown.Altitude ≤ 13000 ∧
      absDistance flatDeps origin0 (mkTrack 2 20000 8000) < 40000 ∧
      ∀ u ∈ (flatScope tieStore).contacts, (flatScope tieStore).isMatch u .blue .Aircraft = true →
        3000 ≤ u.LastKnown.Altitude → u.LastKnown.Altitude ≤ 13000 →
        ¬ absDistance flatDeps origin0 u < absDistance flatDeps origin0 (mkTrack 2 20000 8000)) :=
  ⟨FindNearestTrackfile_tieStore,
    FindNearestTrackfile_is_nearest flatDeps (flatScope tieStore) origin0 3000 13000 40000
      .blue .Aircraft (mkTrack 2 20000 8000) FindNearestTrackfile_tieStore⟩

/-- C6. In `FindNearestTrackfile` a candidate replaces the current best only on strictly
smaller distance (an iteration either leaves the loop state unchanged, or the candidate is
strictly nearer than `nearestDistance` and becomes the best), and the result is the first
trackfile of the iteration order among the eligible ones at the minimum distance: every
eligible trackfile encountered before the result is strictly farther, every eligible
trackfile encountered after it is at least as far. -/
theorem FindNearestTrackfile_first_encountered (d : Deps) (s : Scope) (origin : Point)
    (minAltitude maxAltitude radius : ℚ) (coalition : Coalition) (filter : ContactCategory)
    (t : Trackfile)
    (h : FindNearestTrackfile d s origin minAltitude maxAltitude radius coalition filter
      = some t) :
    (∀ (st : Option Trackfile × ℚ) (tf : Trackfile),
      nearestStep d s origin minAltitude maxAltitude coalition filter st tf = st ∨
      (absDistance d origin tf < st.2 ∧
        nearestStep d s origin minAltitude maxAltitude coalition filter st tf
          = (some tf, absDistance d origin tf))) ∧
    ∃ before after, s.contacts = before ++ t :: after ∧
      (∀ u ∈ before, s.isMatch u coalition filter = true →
        minAltitude ≤ u.LastKnown.Altitude → u.LastKnown.Altitude ≤ maxAltitude →
        absDistance d origin t < absDistance d origin u) ∧
      (∀ u ∈ after, s.isMatch u coalition filter = true →
        minAltitude ≤ u.LastKnown.Altitude → u.LastKnown.Altitude ≤ maxAltitude →
        absDistance d origin t ≤ absDistance d origin u) := by
  constructor
  · intro st tf
    unfold nearestStep
    by_cases hb : inBand s minAltitude maxAltitude coalition filter tf = true
    · by_cases hlt : absDistance d origin tf < st.2
      · right; simp [hb, hlt]
      · left; simp [hb, hlt]
    · left; simp [hb]
  · have hspec := nearestLoop_spec d s origin minAltitude maxAltitude radius coalition filter
      s.contacts
    obtain ⟨_, hd, _, before, after, hl, hbef, haft⟩ := hspec.2 t h
    refine ⟨before, after, hl, ?_, ?_⟩
    · intro u hu hm h1 h2
      rw [hd]
      exact hbef u hu ((inBand_iff s minAltitude maxAltitude coalition filter u).2 ⟨hm, h1, h2⟩)
    · intro u hu hm h1 h2
      rw [hd]
      exact haft u hu ((inBand_iff s minAltitude maxAltitude coalition filter u).2 ⟨hm, h1, h2⟩)

/-- The tie-break property on the store `tieStore`: units 2 and 3 are both at 20 km and
unit 2, met first, is returned. -/
theorem FindNearestTrackfile_first_encountered_witness :
    FindNearestTrackfile flatDeps (flatScope tieStore) origin0 3000 13000 40000 .blue .Aircraft
      = some (mkTrack 2 20000 8000) ∧
    ((∀ (st : Option Trackfile × ℚ) (tf : Trackfile),
      nearestStep flatDeps (flatScope tieStore) origin0 3000 13000 .blue .Aircraft st tf = st ∨
      (absDistance flatDeps origin0 tf < st.2 ∧
        nearestStep flatDeps (flatScope tieStore) origin0 3000 13000 .blue .Aircraft st tf
          = (some tf, absDistance flatDeps origin0 tf))) ∧
    ∃ before after, (flatScope tieStore).contacts = before ++ mkTrack 2 20000 8000 :: after ∧
      (∀ u ∈ before, (flatScope tieStore).isMatch u .blue .Aircraft = true →
        3000 ≤ u.LastKnown.Altitude → u.LastKnown.Altitude ≤ 13000 →
        absDistance flatDeps origin0 (mkTrack 2 20000 8000) < absDistance flatDeps origin0 u) ∧
      (∀ u ∈ after, (flatScope tieStore).isMatch u .blue .Aircraft = true →
        3000 ≤ u.LastKnown.Altitude → u.LastKnown.Altitude ≤ 13000 →
        absDistance flatDeps origin0 (mkTrack 2 20000 8000) ≤ absDistance flatDeps origin0 u)) :=
  ⟨FindNearestTrackfile_tieStore,
    FindNearestTrackfile_first_encountered flatDeps (flatScope tieStore) origin0 3000 13000
      40000 .blue .Aircraft (mkTrack 2 20000 8000) FindNearestTrackfile_tieStore⟩

/-! ## The scan of `FindNearestGroupInSector` -/

theorem sectorStep_eq (d : Deps) (s : Scope) (sector : List (List Point)) (origin : Point)
    (minAltitude maxAltitude : ℚ) (coalition : Coalition) (filter : ContactCategory)
    (best : Option Trackfile) (t : Trackfile) :
    sectorStep d s sector origin minAltitude maxAltitude coalition filter (MaxFloat64, best) t =
      (MaxFloat64, if sectorPasses d s sector origin minAltitude maxAltitude coalition filter t
        then some t else best) := by
  unfold sectorStep sectorPasses
  by_cases h1 : s.isMatch t coalition filter = true <;>
  by_cases h2 : minAltitude ≤ t.LastKnown.Altitude <;>
  by_cases h3 : t.LastKnown.Altitude ≤ maxAltitude <;>
  by_cases h4 : distanceToContact d origin t < MaxFloat64 <;>
  by_cases h5 : distanceToContact d origin t > d.DefaultMarginRadius <;>
  by_cases h6 : d.planarPolygonContains sector t.LastKnown.Point = true <;>
  simp [h1, h2, h3, h4, h5, h6]

/-- The sector scan keeps the last trackfile of the iteration order that passes the
test of line 161; `nearestDistance` stays at `math.MaxFloat64`. -/
theorem sectorFold_eq (d : Deps) (s : Scope) (sector : List (List Point)) (origin : Point)
    (minAltitude maxAltitude : ℚ) (coalition : Coalition) (filter : ContactCategory)
    (tfs : List Trackfile) :
    tfs.foldl (sectorStep d s sector origin minAltitude maxAltitude coalition filter)
        (MaxFloat64, none) =
      (MaxFloat64, (tfs.filter
        (sectorPasses d s sector origin minAltitude maxAltitude coalition filter)).getLast?) := by
  induction tfs using List.reverseRecOn with
  | nil => simp
  | append_singleton l a ih =>
    rw [List.foldl_append, ih, List.foldl_cons, List.foldl_nil, sectorStep_eq]
    by_cases h : sectorPasses d s sector origin minAltitude maxAltitude coalition filter a = true
    · simp [h, List.filter_append]
    · simp [h, List.filter_append]

theorem sectorSelect_eq (d : Deps) (s : Scope) (sector : List (List Point)) (origin : Point)
    (minAltitude maxAltitude : ℚ) (coalition : Coalition) (filter : ContactCategory) :
    sectorSelect d s sector origin minAltitude maxAltitude coalition filter =
      (s.contacts.filter
        (sectorPasses d s sector origin minAltitude maxAltitude coalition filter)).getLast? := by
  simp [sectorSelect, sectorFold_eq]

/-! ## The rounding to `float64` -/

theorem round64_zero : round64 0 = 0 := by simp [round64]

/-- The mantissa chosen by `round64` is the integer within one half of the scaled
value. -/
theorem round64_mantissa (n : ℚ) (m : ℤ) (h1 : (m : ℚ) - 1 / 2 < n)
    (h2 : n < (m : ℚ) + 1 / 2) :
    (if n - (⌊n⌋ : ℤ) < 1 / 2 then ⌊n⌋ else if 1 / 2 < n - (⌊n⌋ : ℤ) then ⌊n⌋ + 1
      else if ⌊n⌋ % 2 = 0 then ⌊n⌋ else ⌊n⌋ + 1) = m := by
  by_cases hge : (m : ℚ) ≤ n
  · have hfl : ⌊n⌋ = m := by
      rw [Int.floor_eq_iff]
      constructor
      · exact hge
      · linarith
    rw [hfl]
    have : n - (m : ℚ) < 1 / 2 := by linarith
    rw [if_pos this]
  · have hlt : n < m := not_le.1 hge
    have hfl : ⌊n⌋ = m - 1 := by
      rw [Int.floor_eq_iff]
      push_cast
      constructor <;> linarith
    rw [hfl]
    have h3 : ¬ (n - ((m - 1 : ℤ) : ℚ) < 1 / 2) := by
      push_cast
      intro h
      linarith
    have h4 : 1 / 2 < n - ((m - 1 : ℤ) : ℚ) := by
      push_cast
      linarith
    rw [if_neg h3, if_pos h4]
    ring

/-- The value of `round64` at a number whose magnitude lies in the binade of exponent
`e`: the multiple `m` of `2 ^ (e - 52)` within half a unit of it. -/
theorem round64_eq_abs (q : ℚ) (e m : ℤ) (he : -1022 ≤ e) (h1 : (2 : ℚ) ^ e ≤ |q|)
    (h2 : |q| < (2 : ℚ) ^ (e + 1)) (hm1 : (m : ℚ) - 1 / 2 < q / (2 : ℚ) ^ (e - 52))
    (hm2 : q / (2 : ℚ) ^ (e - 52) < (m : ℚ) + 1 / 2) :
    round64 q = m * (2 : ℚ) ^ (e - 52) := by
  have hpos : (0 : ℚ) < |q| := lt_of_lt_of_le (by positivity) h1
  have hq : q ≠ 0 := abs_pos.1 hpos
  have hlog : Int.log 2 |q| = e := by
    apply le_antisymm
    · have := (Int.lt_zpow_iff_log_lt (R := ℚ) (b := 2) (by norm_num) hpos (x := e + 1)).1
        (by exact_mod_cast h2)
      omega
    · exact (Int.zpow_le_iff_le_log (R := ℚ) (b := 2) (by norm_num) hpos).1
        (by exact_mod_cast h1)
  unfold round64
  simp only [hq, if_false, hlog, max_eq_left he]
  rw [round64_mantissa _ m hm1 hm2]

theorem round64_pos (q : ℚ) (e m : ℤ) (he : -1022 ≤ e) (h1 : (2 : ℚ) ^ e ≤ q)
    (h2 : q < (2 : ℚ) ^ (e + 1)) (hm1 : (m : ℚ) - 1 / 2 < q / (2 : ℚ) ^ (e - 52))
    (hm2 : q / (2 : ℚ) ^ (e - 52) < (m : ℚ) + 1 / 2) :
    round64 q = m * (2 : ℚ) ^ (e - 52) := by
  have hpos : (0 : ℚ) < q := lt_of_lt_of_le (by positivity) h1
  exact round64_eq_abs q e m he (by rw [abs_of_pos hpos]; exact h1)
    (by rw [abs_of_pos hpos]; exact h2) hm1 hm2

theorem round64_neg (q : ℚ) (e m : ℤ) (he : -1022 ≤ e) (h1 : (2 : ℚ) ^ e ≤ -q)
    (h2 : -q < (2 : ℚ) ^ (e + 1)) (hm1 : (m : ℚ) - 1 / 2 < q / (2 : ℚ) ^ (e - 52))
    (hm2 : q / (2 : ℚ) ^ (e - 52) < (m : ℚ) + 1 / 2) :
    round64 q = m * (2 : ℚ) ^ (e - 52) := by
  have hpos : (0 : ℚ) < -q := lt_of_lt_of_le (by positivity) h1
  have hneg : q < 0 := by linarith
  exact round64_eq_abs q e m he (by rw [abs_of_neg hneg]; exact h1)
    (by rw [abs_of_neg hneg]; exact h2) hm1 hm2

/-- The value of `round64` below the normal range: the multiple `m` of `2 ^ (-1074)`
within half a unit of the number. -/
theorem round64_subnormal (q : ℚ) (m : ℤ) (hq : q ≠ 0) (h2 : |q| < (2 : ℚ) ^ (-1022 : ℤ))
    (hm1 : (m : ℚ) - 1 / 2 < q / (2 : ℚ) ^ (-1074 : ℤ))
    (hm2 : q / (2 : ℚ) ^ (-1074 : ℤ) < (m : ℚ) + 1 / 2) :
    round64 q = m * (2 : ℚ) ^ (-1074 : ℤ) := by
  have hpos : (0 : ℚ) < |q| := abs_pos.2 hq
  have hlog : Int.log 2 |q| < -1022 :=
    (Int.lt_zpow_iff_log_lt (R := ℚ) (b := 2) (by norm_num) hpos).1 (by exact_mod_cast h2)
  unfold round64
  have hmax : max (Int.log 2 |q|) (-1022) = -1022 := max_eq_right (le_of_lt hlog)
  simp only [hq, if_false, hmax]
  have : (-1022 : ℤ) - 52 = -1074 := by norm_num
  rw [this, round64_mantissa _ m hm1 hm2]

/-- The mantissa chosen by `round64` at a tie, a scaled value half way between two
integers, is the even one of the two. -/
theorem round64_mantissa_tie (n : ℚ) (m : ℤ) (hev : m % 2 = 0)
    (h : n = (m : ℚ) + 1 / 2 ∨ n = (m : ℚ) - 1 / 2) :
    (if n - (⌊n⌋ : ℤ) < 1 / 2 then ⌊n⌋ else if 1 / 2 < n - (⌊n⌋ : ℤ) then ⌊n⌋ + 1
      else if ⌊n⌋ % 2 = 0 then ⌊n⌋ else ⌊n⌋ + 1) = m := by
  rcases h with h | h
  · have hfl : ⌊n⌋ = m := by
      rw [Int.floor_eq_iff]
      constructor <;> linarith
    rw [hfl]
    have h3 : ¬ (n - (m : ℚ) < 1 / 2) := by
      intro h4
      linarith
    have h4 : ¬ (1 / 2 < n - (m : ℚ)) := by
      intro h5
      linarith
    rw [if_neg h3, if_neg h4, if_pos hev]
  · have hfl : ⌊n⌋ = m - 1 := by
      rw [Int.floor_eq_iff]
      push_cast
      constructor <;> linarith
    rw [hfl]
    have h3 : ¬ (n - ((m - 1 : ℤ) : ℚ) < 1 / 2) := by
      push_cast
      intro h4
      linarith
    have h4 : ¬ (1 / 2 < n - ((m - 1 : ℤ) : ℚ)) := by
      push_cast
      intro h5
      linarith
    have hodd : ¬ ((m - 1) % 2 = 0) := by omega
    rw [if_neg h3, if_neg h4, if_neg hodd]
    ring

/-- The value of `round64` at a tie in the binade of exponent `e`: the even multiple `m`
of `2 ^ (e - 52)` at half a unit from the number. -/
theorem round64_eq_abs_tie (q : ℚ) (e m : ℤ) (he : -1022 ≤ e) (h1 : (2 : ℚ) ^ e ≤ |q|)
    (h2 : |q| < (2 : ℚ) ^ (e + 1)) (hev : m % 2 = 0)
    (hm : q / (2 : ℚ) ^ (e - 52) = (m : ℚ) + 1 / 2 ∨ q / (2 : ℚ) ^ (e - 52) = (m : ℚ) - 1 / 2) :
    round64 q = m * (2 : ℚ) ^ (e - 52) := by
  have hpos : (0 : ℚ) < |q| := lt_of_lt_of_le (by positivity) h1
  have hq : q ≠ 0 := abs_pos.1 hpos
  have hlog : Int.log 2 |q| = e := by
    apply le_antisymm
    · have := (Int.lt_zpow_iff_log_lt (R := ℚ) (b := 2) (by norm_num) hpos (x := e + 1)).1
        (by exact_mod_cast h2)
      omega
    · exact (Int.zpow_le_iff_le_log (R := ℚ) (b := 2) (by norm_num) hpos).1
        (by exact_mod_cast h1)
  unfold round64
  simp only [hq, if_false, hlog, max_eq_left he]
  rw [round64_mantissa_tie _ m hev hm]

theorem round64_pos_tie (q : ℚ) (e m : ℤ) (he : -1022 ≤ e) (h1 : (2 : ℚ) ^ e ≤ q)
    (h2 : q < (2 : ℚ) ^ (e + 1)) (hev : m % 2 = 0)
    (hm : q / (2 : ℚ) ^ (e - 52) = (m : ℚ) + 1 / 2 ∨ q / (2 : ℚ) ^ (e - 52) = (m : ℚ) - 1 / 2) :
    round64 q = m * (2 : ℚ) ^ (e - 52) := by
  have hpos : (0 : ℚ) < q := lt_of_lt_of_le (by positivity) h1
  exact round64_eq_abs_tie q e m he (by rw [abs_of_pos hpos]; exact h1)
    (by rw [abs_of_pos hpos]; exact h2) hev hm

theorem round64_neg_tie (q : ℚ) (e m : ℤ) (he : -1022 ≤ e) (h1 : (2 : ℚ) ^ e ≤ -q)
    (h2 : -q < (2 : ℚ) ^ (e + 1)) (hev : m % 2 = 0)
    (hm : q / (2 : ℚ) ^ (e - 52) = (m : ℚ) + 1 / 2 ∨ q / (2 : ℚ) ^ (e - 52) = (m : ℚ) - 1 / 2) :
    round64 q = m * (2 : ℚ) ^ (e - 52) := by
  have hpos : (0 : ℚ) < -q := lt_of_lt_of_le (by positivity) h1
  have hneg : q < 0 := by linarith
  exact round64_eq_abs_tie q e m he (by rw [abs_of_neg hneg]; exact h1)
    (by rw [abs_of_neg hneg]; exact h2) hev hm

/-! ## The ring loop of `FindNearestGroupInSector` -/

/-- The ring loop along a trace.  When the values `a`, then `rest`, of the loop variable
follow one another by the rounded subtraction of the step, all pass the loop condition
but the last, and the fuel exceeds the number of rounds, the loop ends and appends the
vertices of the values that passed. -/
theorem sectorLoop_trace (d : Deps) (origin : Point) (bearing : Bearing) (length arc : ℚ)
    (bound step : ℚ) (hb : round64 (-arc / 2) = bound) (hs : round64 (arc / 10) = step) :
    ∀ (rest : List ℚ) (a z : ℚ) (fuel : Nat) (ring : List Point),
      List.Chain (fun x y => x > bound ∧ round64 (x - step) = y) a rest →
      (a :: rest).getLast? = some z → ¬ z > bound → rest.length < fuel →
      sectorLoop d origin bearing length arc fuel a ring =
        some (ring ++ ((a :: rest).dropLast).map (sectorVertex d origin bearing length)) := by
  intro rest
  induction rest with
  | nil =>
    intro a z fuel ring _ hz hstop hf
    obtain ⟨f, rfl⟩ : ∃ f, fuel = f + 1 := ⟨fuel - 1, by simp at hf; omega⟩
    have hza : a = z := by simpa using hz
    subst hza
    rw [sectorLoop, hb]
    simp [hstop]
  | cons b rest ih =>
    intro a z fuel ring hchain hz hstop hf
    obtain ⟨f, rfl⟩ : ∃ f, fuel = f + 1 := ⟨fuel - 1, by simp at hf; omega⟩
    rw [List.chain_cons] at hchain
    obtain ⟨⟨hpass, hnext⟩, hrest⟩ := hchain
    have hz2 : (b :: rest).getLast? = some z := by
      rw [List.getLast?_cons_cons] at hz
      exact hz
    have hrec := ih b z f (ring ++ [sectorVertex d origin bearing length a]) hrest hz2 hstop
      (by simp at hf; omega)
    rw [sectorLoop, hb, hs]
    simp only [hpass, if_true, hnext, hrec]
    simp [List.dropLast]

/-- The ring along a trace that starts at the rounded half arc. -/
theorem sectorRing_trace (d : Deps) (fuel : Nat) (origin : Point) (bearing : Bearing)
    (length arc : ℚ) (a bound step z : ℚ) (rest : List ℚ)
    (ha : round64 (arc / 2) = a) (hb : round64 (-arc / 2) = bound)
    (hs : round64 (arc / 10) = step)
    (hchain : List.Chain (fun x y => x > bound ∧ round64 (x - step) = y) a rest)
    (hz : (a :: rest).getLast? = some z) (hstop : ¬ z > bound) (hf : rest.length < fuel) :
    sectorRing d fuel origin bearing length arc =
      some (origin :: ((a :: rest).dropLast).map (sectorVertex d origin bearing length)
        ++ [origin]) := by
  have h := sectorLoop_trace d origin bearing length arc bound step hb hs rest a z fuel
    [origin] hchain hz hstop hf
  simp [sectorRing, ha, h]

/-- The ring loop runs out of fuel when the values `a`, then `rest`, of the loop variable
follow one another, all pass the loop condition, and there are at least as many of them
as there is fuel. -/
theorem sectorLoop_fuel_out (d : Deps) (origin : Point) (bearing : Bearing) (length arc : ℚ)
    (bound step : ℚ) (hb : round64 (-arc / 2) = bound) (hs : round64 (arc / 10) = step) :
    ∀ (rest : List ℚ) (a : ℚ) (fuel : Nat) (ring : List Point),
      List.Chain (fun x y => x > bound ∧ round64 (x - step) = y) a rest →
      (∀ x ∈ a :: rest, x > bound) → fuel ≤ rest.length + 1 →
      sectorLoop d origin bearing length arc fuel a ring = none := by
  intro rest
  induction rest with
  | nil =>
    intro a fuel ring _ hall hf
    have hpass : a > bound := hall a (by simp)
    match fuel, hf with
    | 0, _ => rfl
    | 1, _ =>
      rw [sectorLoop, hb]
      simp only [hpass, if_true]
      rfl
  | cons b rest ih =>
    intro a fuel ring hchain hall hf
    rw [List.chain_cons] at hchain
    obtain ⟨⟨hpass, hnext⟩, hrest⟩ := hchain
    match fuel, hf with
    | 0, _ => rfl
    | f + 1, hf =>
      rw [sectorLoop, hb, hs]
      simp only [hpass, if_true, hnext]
      exact ih b f _ hrest (fun x hx => hall x (List.mem_cons_of_mem a hx))
        (by simp at hf; omega)

/-! ## The end of the ring loop -/

/-- The mantissa chosen by `round64` is within one half of the scaled value. -/
theorem round64_mantissa_abs (n : ℚ) :
    |(((if n - (⌊n⌋ : ℤ) < 1 / 2 then ⌊n⌋ else if 1 / 2 < n - (⌊n⌋ : ℤ) then ⌊n⌋ + 1
      else if ⌊n⌋ % 2 = 0 then ⌊n⌋ else ⌊n⌋ + 1 : ℤ) : ℚ)) - n| ≤ 1 / 2 := by
  have h0 := Int.floor_le n
  have h1 := Int.lt_floor_add_one n
  rw [abs_le]
  split_ifs <;> push_cast <;> constructor <;> linarith

/-- The mantissa chosen by `round64` has the sign of the scaled value. -/
theorem round64_mantissa_sign (n : ℚ) :
    (0 ≤ n → 0 ≤ (if n - (⌊n⌋ : ℤ) < 1 / 2 then ⌊n⌋ else if 1 / 2 < n - (⌊n⌋ : ℤ) then ⌊n⌋ + 1
      else if ⌊n⌋ % 2 = 0 then ⌊n⌋ else ⌊n⌋ + 1)) ∧
    (n ≤ 0 → (if n - (⌊n⌋ : ℤ) < 1 / 2 then ⌊n⌋ else if 1 / 2 < n - (⌊n⌋ : ℤ) then ⌊n⌋ + 1
      else if ⌊n⌋ % 2 = 0 then ⌊n⌋ else ⌊n⌋ + 1) ≤ 0) := by
  have h0 := Int.floor_le n
  constructor
  · intro hn
    have hfl : 0 ≤ ⌊n⌋ := Int.floor_nonneg.2 hn
    split_ifs <;> omega
  · intro hn
    have hfl : ⌊n⌋ ≤ 0 := by
      have : ((⌊n⌋ : ℤ) : ℚ) ≤ 0 := le_trans h0 hn
      exact_mod_cast this
    by_cases h1 : n - (⌊n⌋ : ℤ) < 1 / 2
    · rw [if_pos h1]
      exact hfl
    · have hneg : ((⌊n⌋ : ℤ) : ℚ) < 0 := by linarith
      have hneg2 : ⌊n⌋ < 0 := by exact_mod_cast hneg
      rw [if_neg h1]
      split_ifs <;> omega

/-- The rounding keeps the sign: a result that is not negative is not rounded to a
negative value. -/
theorem round64_nonneg (q : ℚ) (hq : 0 ≤ q) : 0 ≤ round64 q := by
  by_cases h0 : q = 0
  · rw [h0, round64_zero]
  · unfold round64
    simp only [h0, if_false]
    have hu : (0 : ℚ) < 2 ^ (max (Int.log 2 |q|) (-1022) - 52) := by positivity
    have hm := (round64_mantissa_sign (q / 2 ^ (max (Int.log 2 |q|) (-1022) - 52))).1
      (div_nonneg hq (le_of_lt hu))
    exact mul_nonneg (by exact_mod_cast hm) (le_of_lt hu)

/-- The rounding keeps the sign: a result that is not positive is not rounded to a
positive value. -/
theorem round64_nonpos (q : ℚ) (hq : q ≤ 0) : round64 q ≤ 0 := by
  by_cases h0 : q = 0
  · rw [h0, round64_zero]
  · unfold round64
    simp only [h0, if_false]
    have hu : (0 : ℚ) < 2 ^ (max (Int.log 2 |q|) (-1022) - 52) := by positivity
    have hm := (round64_mantissa_sign (q / 2 ^ (max (Int.log 2 |q|) (-1022) - 52))).2
      (div_nonpos_of_nonpos_of_nonneg hq (le_of_lt hu))
    exact mul_nonpos_of_nonpos_of_nonneg (by exact_mod_cast hm) (le_of_lt hu)

/-- A multiple of the unit whose mantissa is within one half of the scaled value is within
half a unit of the value. -/
theorem round64_half_unit (m ulp q : ℚ) (hu : 0 < ulp) (hm : |m - q / ulp| ≤ 1 / 2) :
    |m * ulp - q| ≤ ulp / 2 := by
  have h : m * ulp - q = (m - q / ulp) * ulp := by
    field_simp
  rw [h, abs_mul, abs_of_pos hu]
  have := mul_le_mul_of_nonneg_right hm (le_of_lt hu)
  linarith

/-- The error of the rounding: at most the fraction `2 ^ (-53)` of the magnitude of the
result, or half the unit `2 ^ (-1074)` of the subnormal range. -/
theorem round64_error (q : ℚ) :
    |round64 q - q| ≤ 2 ^ (-53 : ℤ) * |q| + 2 ^ (-1075 : ℤ) := by
  by_cases h0 : q = 0
  · rw [h0, round64_zero]
    simp
    positivity
  · have hpos : 0 < |q| := abs_pos.2 h0
    unfold round64
    simp only [h0, if_false]
    have hu : (0 : ℚ) < 2 ^ (max (Int.log 2 |q|) (-1022) - 52) := by positivity
    have hm := round64_mantissa_abs (q / 2 ^ (max (Int.log 2 |q|) (-1022) - 52))
    refine le_trans (round64_half_unit _ _ q hu hm) ?_
    have h53 : (0 : ℚ) < 2 ^ (-53 : ℤ) := by positivity
    have h1075 : (0 : ℚ) < 2 ^ (-1075 : ℤ) := by positivity
    rcases le_total (Int.log 2 |q|) (-1022) with hle | hge
    · rw [max_eq_right hle]
      have h : (2 : ℚ) ^ ((-1022 : ℤ) - 52) / 2 = 2 ^ (-1075 : ℤ) := by
        have : (2 : ℚ) ^ ((-1022 : ℤ) - 52) = 2 ^ (-1075 : ℤ) * 2 ^ (1 : ℤ) := by
          rw [← zpow_add₀ (by norm_num : (2 : ℚ) ≠ 0)]
          norm_num
        rw [this]
        norm_num
      rw [h]
      have := mul_pos h53 hpos
      linarith
    · rw [max_eq_left hge]
      have hlog : (2 : ℚ) ^ Int.log 2 |q| ≤ |q| := Int.zpow_log_le_self (by norm_num) hpos
      have h : (2 : ℚ) ^ (Int.log 2 |q| - 52) / 2 = 2 ^ (-53 : ℤ) * 2 ^ Int.log 2 |q| := by
        have : (2 : ℚ) ^ (Int.log 2 |q| - 52)
            = 2 ^ (-53 : ℤ) * 2 ^ Int.log 2 |q| * 2 ^ (1 : ℤ) := by
          rw [← zpow_add₀ (by norm_num : (2 : ℚ) ≠ 0), ← zpow_add₀ (by norm_num : (2 : ℚ) ≠ 0)]
          congr 1
          ring
        rw [this]
        norm_num
      rw [h]
      have := mul_le_mul_of_nonneg_left hlog (le_of_lt h53)
      linarith

/-- For an arc of at least `2 ^ (-1018)`, the rounding of a result of magnitude at most
the arc errs by at most the fraction `2 ^ (-50)` of the arc. -/
theorem round64_near (arc q : ℚ) (harc : 2 ^ (-1018 : ℤ) ≤ arc) (hq : |q| ≤ arc) :
    |round64 q - q| ≤ arc / 2 ^ 50 := by
  have h := round64_error q
  have h53 : (2 : ℚ) ^ (-53 : ℤ) = 1 / 2 ^ 53 := by
    rw [zpow_neg]
    norm_num
  have h1075 : (2 : ℚ) ^ (-1075 : ℤ) = 2 ^ (-1018 : ℤ) * (1 / 2 ^ 57) := by
    have : (2 : ℚ) ^ (-1075 : ℤ) = 2 ^ (-1018 : ℤ) * 2 ^ (-57 : ℤ) := by
      rw [← zpow_add₀ (by norm_num : (2 : ℚ) ≠ 0)]
      norm_num
    rw [this, zpow_neg (2 : ℚ) 57]
    norm_num
  have hpos : (0 : ℚ) < 2 ^ (-1018 : ℤ) := by positivity
  rw [h53, h1075] at h
  have e1 : (1 : ℚ) / 2 ^ 53 * |q| ≤ 1 / 2 ^ 53 * arc :=
    mul_le_mul_of_nonneg_left hq (by positivity)
  have e2 : (2 : ℚ) ^ (-1018 : ℤ) * (1 / 2 ^ 57) ≤ arc * (1 / 2 ^ 57) :=
    mul_le_mul_of_nonneg_right harc (by positivity)
  have harc0 : 0 < arc := lt_of_lt_of_le hpos harc
  have e3 : (1 : ℚ) / 2 ^ 53 * arc + arc * (1 / 2 ^ 57) ≤ arc / 2 ^ 50 := by
    have : (1 : ℚ) / 2 ^ 53 * arc + arc * (1 / 2 ^ 57) = arc * (1 / 2 ^ 53 + 1 / 2 ^ 57) := by
      ring
    rw [this, div_eq_mul_one_div arc]
    exact mul_le_mul_of_nonneg_left (by norm_num) (le_of_lt harc0)
  linarith

/-- The ring loop ends for an arc of at least `2 ^ (-1018)`: from a value of the loop
variable that is near `arc / 2 - k * (arc / 10)` it samples `10 - k` or `11 - k` values
more and returns. -/
theorem sectorLoop_ends (d : Deps) (origin : Point) (bearing : Bearing) (length arc : ℚ)
    (harc : 2 ^ (-1018 : ℤ) ≤ arc) :
    ∀ (j k fuel : Nat) (a : ℚ) (ring : List Point), k + j = 11 → j < fuel →
      |a - (arc / 2 - k * (arc / 10))| ≤ (2 * k + 1) * (arc / 2 ^ 50) →
      ∃ r, sectorLoop d origin bearing length arc fuel a ring = some r ∧
        ring.length + 10 ≤ r.length + k ∧ r.length + k ≤ ring.length + 11 := by
  have harc0 : 0 < arc := lt_of_lt_of_le (by positivity) harc
  have heta : arc / 2 ^ 50 ≤ arc / 1000 := by
    rw [div_eq_mul_one_div arc, div_eq_mul_one_div arc 1000]
    exact mul_le_mul_of_nonneg_left (by norm_num) (le_of_lt harc0)
  have heta0 : 0 < arc / 2 ^ 50 := by positivity
  have hb := round64_near arc (-arc / 2) harc (by rw [abs_le]; constructor <;> linarith)
  have hs := round64_near arc (arc / 10) harc (by rw [abs_le]; constructor <;> linarith)
  rw [abs_le] at hb hs
  intro j
  induction j with
  | zero =>
    intro k fuel a ring hk hf ha
    have hk11 : k = 11 := by omega
    subst hk11
    obtain ⟨f, rfl⟩ : ∃ f, fuel = f + 1 := ⟨fuel - 1, by omega⟩
    rw [abs_le] at ha
    push_cast at ha
    have hstop : ¬ a > round64 (-arc / 2) := by
      rw [not_lt]
      linarith
    refine ⟨ring, ?_, by omega, by omega⟩
    rw [sectorLoop, if_neg hstop]
  | succ j ih =>
    intro k fuel a ring hk hf ha
    obtain ⟨f, rfl⟩ : ∃ f, fuel = f + 1 := ⟨fuel - 1, by omega⟩
    have hk10 : k ≤ 10 := by omega
    have hkq : (k : ℚ) * (arc / 2 ^ 50) ≤ 10 * (arc / 2 ^ 50) :=
      mul_le_mul_of_nonneg_right (by exact_mod_cast hk10) (le_of_lt heta0)
    have hkq0 : 0 ≤ (k : ℚ) * (arc / 2 ^ 50) := by positivity
    have hka : 0 ≤ (k : ℚ) * (arc / 10) := by positivity
    rw [abs_le] at ha
    rw [sectorLoop]
    by_cases hpass : a > round64 (-arc / 2)
    · rw [if_pos hpass]
      have hq : |a - round64 (arc / 10)| ≤ arc := by
        rw [abs_le]
        constructor <;> linarith
      have hn := round64_near arc (a - round64 (arc / 10)) harc hq
      rw [abs_le] at hn
      obtain ⟨r, hr, h1, h2⟩ := ih (k + 1) f (round64 (a - round64 (arc / 10)))
        (ring ++ [sectorVertex d origin bearing length a]) (by omega) (by omega) (by
          rw [abs_le]
          push_cast
          constructor <;> linarith)
      refine ⟨r, hr, ?_, ?_⟩
      · simp only [List.length_append, List.length_cons, List.length_nil] at h1
        omega
      · simp only [List.length_append, List.length_cons, List.length_nil] at h2
        omega
    · rw [if_neg hpass]
      have hk9 : 10 ≤ k := by
        by_contra hlt
        have hk9 : k ≤ 9 := by omega
        have hkq9 : (k : ℚ) * (arc / 2 ^ 50) ≤ 9 * (arc / 2 ^ 50) :=
          mul_le_mul_of_nonneg_right (by exact_mod_cast hk9) (le_of_lt heta0)
        have hka9 : (k : ℚ) * (arc / 10) ≤ 9 * (arc / 10) :=
          mul_le_mul_of_nonneg_right (by exact_mod_cast hk9) (by positivity)
        apply hpass
        linarith
      exact ⟨ring, rfl, by omega, by omega⟩

/-- The ring loop ends at once for an arc that is not positive. -/
theorem sectorLoop_nonpos (d : Deps) (origin : Point) (bearing : Bearing) (length arc : ℚ)
    (harc : arc ≤ 0) (fuel : Nat) (ring : List Point) :
    sectorLoop d origin bearing length arc (fuel + 1) (round64 (arc / 2)) ring = some ring := by
  have h1 : round64 (arc / 2) ≤ 0 := round64_nonpos _ (by linarith)
  have h2 : 0 ≤ round64 (-arc / 2) := round64_nonneg _ (by linarith)
  have hstop : ¬ round64 (arc / 2) > round64 (-arc / 2) := by
    rw [not_lt]
    linarith
  rw [sectorLoop, if_neg hstop]

/-- For an arc that is not positive the ring is the degenerate ring of the origin twice,
whenever there is fuel for one test of the loop condition. -/
theorem sectorRing_nonpos (d : Deps) (fuel : Nat) (origin : Point) (bearing : Bearing)
    (length arc : ℚ) (harc : arc ≤ 0) (hf : 1 ≤ fuel) :
    sectorRing d fuel origin bearing length arc = some [origin, origin] := by
  obtain ⟨f, rfl⟩ : ∃ f, fuel = f + 1 := ⟨fuel - 1, by omega⟩
  rw [sectorRing, sectorLoop_nonpos d origin bearing length arc harc]
  rfl

/-- For an arc of at least `2 ^ (-1018)` the ring loop ends within fuel 12, and the ring
has 12 or 13 vertices: the origin, 10 or 11 samples, the origin. -/
theorem sectorRing_pos (d : Deps) (fuel : Nat) (origin : Point) (bearing : Bearing)
    (length arc : ℚ) (harc : 2 ^ (-1018 : ℤ) ≤ arc) (hf : 12 ≤ fuel) :
    ∃ ring, sectorRing d fuel origin bearing length arc = some ring ∧
      (ring.length = 12 ∨ ring.length = 13) := by
  have ha := round64_near arc (arc / 2) harc (by
    have harc0 : 0 < arc := lt_of_lt_of_le (by positivity) harc
    rw [abs_le]
    constructor <;> linarith)
  obtain ⟨r, hr, h1, h2⟩ := sectorLoop_ends d origin bearing length arc harc 11 0 fuel
    (round64 (arc / 2)) [origin] (by omega) (by omega) (by
      push_cast
      simpa using ha)
  refine ⟨r ++ [origin], ?_, ?_⟩
  · rw [sectorRing, hr]
    rfl
  · simp only [List.length_cons, List.length_nil, List.length_append] at h1 h2 ⊢
    omega

/-- The ring loop ends within fuel 12 for every arc that is not positive or is at least
`2 ^ (-1018)`. -/
theorem sectorRing_total (d : Deps) (fuel : Nat) (origin : Point) (bearing : Bearing)
    (length arc : ℚ) (harc : arc ≤ 0 ∨ 2 ^ (-1018 : ℤ) ≤ arc) (hf : 12 ≤ fuel) :
    ∃ ring, sectorRing d fuel origin bearing length arc = some ring := by
  rcases harc with h | h
  · exact ⟨_, sectorRing_nonpos d fuel origin bearing length arc h (by omega)⟩
  · obtain ⟨ring, hring, _⟩ := sectorRing_pos d fuel origin bearing length arc h hf
    exact ⟨ring, hring⟩

/-! ## The ring loop at the arcs of the test environment -/

/-- The rounded values of the ring loop for the arc 60: every one of them is exact. -/
theorem round64_arc60 :
    round64 ((60) / 2) = 30 ∧
    round64 (-(60) / 2) = -30 ∧
    round64 ((60) / 10) = 6 ∧
    round64 ((30) - (6)) = 24 ∧
    round64 ((24) - (6)) = 18 ∧
    round64 ((18) - (6)) = 12 ∧
    round64 ((12) - (6)) = 6 ∧
    round64 ((6) - (6)) = 0 ∧
    round64 ((0) - (6)) = -6 ∧
    round64 ((-6) - (6)) = -12 ∧
    round64 ((-12) - (6)) = -18 ∧
    round64 ((-18) - (6)) = -24 ∧
    round64 ((-24) - (6)) = -30 := by
  have ha : round64 ((60) / 2) = 30 := by
    have hq : ((60) / 2 : ℚ) = 30 := by norm_num
    rw [hq, round64_pos (30) 4 8444249301319680 (by norm_num) (by norm_num) (by norm_num)
      (by norm_num) (by norm_num)]
    norm_num
  have hb : round64 (-(60) / 2) = -30 := by
    have hq : (-(60) / 2 : ℚ) = -30 := by norm_num
    rw [hq, round64_neg (-30) 4 (-8444249301319680) (by norm_num) (by norm_num) (by norm_num)
      (by norm_num) (by norm_num)]
    norm_num
  have hs : round64 ((60) / 10) = 6 := by
    have hq : ((60) / 10 : ℚ) = 6 := by norm_num
    rw [hq, round64_pos (6) 2 6755399441055744 (by norm_num) (by norm_num) (by norm_num)
      (by norm_num) (by norm_num)]
    norm_num
  have h0 : round64 ((30) - (6)) = 24 := by
    have hq : ((30) - (6) : ℚ) = 24 := by norm_num
    rw [hq, round64_pos (24) 4 6755399441055744 (by norm_num) (by norm_num) (by norm_num)
      (by norm_num) (by norm_num)]
    norm_num
  have h1 : round64 ((24) - (6)) = 18 := by
    have hq : ((24) - (6) : ℚ) = 18 := by norm_num
    rw [hq, round64_pos (18) 4 5066549580791808 (by norm_num) (by norm_num) (by norm_num)
      (by norm_num) (by norm_num)]
    norm_num
  have h2 : round64 ((18) - (6)) = 12 := by
    have hq : ((18) - (6) : ℚ) = 12 := by norm_num
    rw [hq, round64_pos (12) 3 6755399441055744 (by norm_num) (by norm_num) (by norm_num)
      (by norm_num) (by norm_num)]
    norm_num
  have h3 : round64 ((12) - (6)) = 6 := by
    have hq : ((12) - (6) : ℚ) = 6 := by norm_num
    rw [hq, round64_pos (6) 2 6755399441055744 (by norm_num) (by norm_num) (by norm_num)
      (by norm_num) (by norm_num)]
    norm_num
  have h4 : round64 ((6) - (6)) = 0 := by
    have hq : ((6) - (6) : ℚ) = 0 := by norm_num
    rw [hq, round64_zero]
  have h5 : round64 ((0) - (6)) = -6 := by
    have hq : ((0) - (6) : ℚ) = -6 := by norm_num
    rw [hq, round64_neg (-6) 2 (-6755399441055744) (by norm_num) (by norm_num) (by norm_num)
      (by norm_num) (by norm_num)]
    norm_num
  have h6 : round64 ((-6) - (6)) = -12 := by
    have hq : ((-6) - (6) : ℚ) = -12 := by norm_num
    rw [hq, round64_neg (-12) 3 (-6755399441055744) (by norm_num) (by norm_num) (by norm_num)
      (by norm_num) (by norm_num)]
    norm_num
  have h7 : round64 ((-12) - (6)) = -18 := by
    have hq : ((-12) - (6) : ℚ) = -18 := by norm_num
    rw [hq, round64_neg (-18) 4 (-5066549580791808) (by norm_num) (by norm_num) (by norm_num)
      (by norm_num) (by norm_num)]
    norm_num
  have h8 : round64 ((-18) - (6)) = -24 := by
    have hq : ((-18) - (6) : ℚ) = -24 := by norm_num
    rw [hq, round64_neg (-24) 4 (-6755399441055744) (by norm_num) (by norm_num) (by norm_num)
      (by norm_num) (by norm_num)]
    norm_num
  have h9 : round64 ((-24) - (6)) = -30 := by
    have hq : ((-24) - (6) : ℚ) = -30 := by norm_num
    rw [hq, round64_neg (-30) 4 (-8444249301319680) (by norm_num) (by norm_num) (by norm_num)
      (by norm_num) (by norm_num)]
    norm_num
  exact ⟨ha, hb, hs, h0, h1, h2, h3, h4, h5, h6, h7, h8, h9⟩

/-- For the arc 60 the ring has the ten samples at 30, 24, ..., -24 on either side of the
bearing, in every environment. -/
theorem sectorRing_arc60 (d : Deps) (fuel : Nat) (origin : Point) (bearing : Bearing) (length : ℚ)
    (hf : 11 ≤ fuel) :
    sectorRing d fuel origin bearing length (60) =
      some (origin :: [30, 24, 18, 12, 6, 0, -6, -12, -18, -24].map
        (sectorVertex d origin bearing length) ++ [origin]) := by
  obtain ⟨ha, hb, hs, h0, h1, h2, h3, h4, h5, h6, h7, h8, h9⟩ := round64_arc60
  have h := sectorRing_trace d fuel origin bearing length (60) (30) (-30) (6) (-30)
    [24, 18, 12, 6, 0, -6, -12, -18, -24, -30] ha hb hs
    (List.Chain.cons ⟨by norm_num, h0⟩
      (List.Chain.cons ⟨by norm_num, h1⟩
      (List.Chain.cons ⟨by norm_num, h2⟩
      (List.Chain.cons ⟨by norm_num, h3⟩
      (List.Chain.cons ⟨by norm_num, h4⟩
      (List.Chain.cons ⟨by norm_num, h5⟩
      (List.Chain.cons ⟨by norm_num, h6⟩
      (List.Chain.cons ⟨by norm_num, h7⟩
      (List.Chain.cons ⟨by norm_num, h8⟩
      (List.Chain.cons ⟨by norm_num, h9⟩
      (List.Chain.nil)))))))))))
    (by simp) (by norm_num) (by simp only [List.length_cons, List.length_nil]; omega)
  rw [h]
  rfl

/-- The sample values of the arc 60 are values of `float64`. -/
theorem round64_arc60_samples :
    round64 (30) = 30 ∧
    round64 (24) = 24 ∧
    round64 (18) = 18 ∧
    round64 (12) = 12 ∧
    round64 (6) = 6 ∧
    round64 (-6) = -6 ∧
    round64 (-12) = -12 ∧
    round64 (-18) = -18 ∧
    round64 (-24) = -24 := by
  have r0 : round64 (30) = 30 := by
    have hq : (30 : ℚ) = 30 := by norm_num
    rw [hq, round64_pos (30) 4 8444249301319680 (by norm_num) (by norm_num) (by norm_num)
      (by norm_num) (by norm_num)]
    norm_num
  have r1 : round64 (24) = 24 := by
    have hq : (24 : ℚ) = 24 := by norm_num
    rw [hq, round64_pos (24) 4 6755399441055744 (by norm_num) (by norm_num) (by norm_num)
      (by norm_num) (by norm_num)]
    norm_num
  have r2 : round64 (18) = 18 := by
    have hq : (18 : ℚ) = 18 := by norm_num
    rw [hq, round64_pos (18) 4 5066549580791808 (by norm_num) (by norm_num) (by norm_num)
      (by norm_num) (by norm_num)]
    norm_num
  have r3 : round64 (12) = 12 := by
    have hq : (12 : ℚ) = 12 := by norm_num
    rw [hq, round64_pos (12) 3 6755399441055744 (by norm_num) (by norm_num) (by norm_num)
      (by norm_num) (by norm_num)]
    norm_num
  have r4 : round64 (6) = 6 := by
    have hq : (6 : ℚ) = 6 := by norm_num
    rw [hq, round64_pos (6) 2 6755399441055744 (by norm_num) (by norm_num) (by norm_num)
      (by norm_num) (by norm_num)]
    norm_num
  have r5 : round64 (-6) = -6 := by
    have hq : (-6 : ℚ) = -6 := by norm_num
    rw [hq, round64_neg (-6) 2 (-6755399441055744) (by norm_num) (by norm_num) (by norm_num)
      (by norm_num) (by norm_num)]
    norm_num
  have r6 : round64 (-12) = -12 := by
    have hq : (-12 : ℚ) = -12 := by norm_num
    rw [hq, round64_neg (-12) 3 (-6755399441055744) (by norm_num) (by norm_num) (by norm_num)
      (by norm_num) (by norm_num)]
    norm_num
  have r7 : round64 (-18) = -18 := by
    have hq : (-18 : ℚ) = -18 := by norm_num
    rw [hq, round64_neg (-18) 4 (-5066549580791808) (by norm_num) (by norm_num) (by norm_num)
      (by norm_num) (by norm_num)]
    norm_num
  have r8 : round64 (-24) = -24 := by
    have hq : (-24 : ℚ) = -24 := by norm_num
    rw [hq, round64_neg (-24) 4 (-6755399441055744) (by norm_num) (by norm_num) (by norm_num)
      (by norm_num) (by norm_num)]
    norm_num
  exact ⟨r0, r1, r2, r3, r4, r5, r6, r7, r8⟩

/-! ## Claims about `FindNearestGroupInSector` -/

theorem lt_MaxFloat64_of_le (x : ℚ) (h : x ≤ 2 ^ 20) : x < MaxFloat64 := by
  have h1 : (2 : ℚ) ^ 20 ≤ 2 ^ 971 := pow_le_pow_right₀ (by norm_num) (by norm_num)
  have h2 : (1 : ℚ) < 2 ^ 53 - 1 := by norm_num
  have hpos : (0 : ℚ) < 2 ^ 971 := by positivity
  have h3 : (1 : ℚ) * 2 ^ 971 < (2 ^ 53 - 1) * 2 ^ 971 := mul_lt_mul_of_pos_right h2 hpos
  unfold MaxFloat64
  linarith

/-- In the test environment the ring of the test sector is `testRing`. -/
theorem sectorRing_test (contacts : List Trackfile) :
    sectorRing flatDeps 11 origin0
      (flatDeps.Magnetic north ((flatScope contacts).Declination origin0)) 50000 60
      = some testRing := by
  rw [sectorRing_arc60 flatDeps 11 origin0 _ 50000 (le_refl 11)]
  have hv : ∀ a, round64 a = a → sectorVertex flatDeps origin0
      (flatDeps.Magnetic north ((flatScope contacts).Declination origin0)) 50000 a
      = { lon := a, lat := 50000 } := by
    intro a h
    simp [sectorVertex, flatDeps, flatScope, north, origin0, Degrees, Meters, h]
  obtain ⟨r0, r1, r2, r3, r4, r5, r6, r7, r8⟩ := round64_arc60_samples
  simp only [List.map_cons, List.map_nil]
  rw [hv 30 r0, hv 24 r1, hv 18 r2, hv 12 r3, hv 6 r4, hv 0 round64_zero, hv (-6) r5,
    hv (-12) r6, hv (-18) r7, hv (-24) r8]
  rfl

/-- In the test environment the blue trackfiles at 20 km and at 30 km on the meridian
both pass the test of the sector scan for the test sector. -/
theorem flat_sectorPasses (contacts : List Trackfile) :
    sectorPasses flatDeps (flatScope contacts) [testRing] origin0 3000 13000 .blue .Aircraft
      (mkTrack 1 20000 8000) = true ∧
    sectorPasses flatDeps (flatScope contacts) [testRing] origin0 3000 13000 .blue .Aircraft
      (mkTrack 2 30000 8000) = true := by
  have h1 : (20000 : ℚ) < MaxFloat64 := lt_MaxFloat64_of_le _ (by norm_num)
  have h2 : (30000 : ℚ) < MaxFloat64 := lt_MaxFloat64_of_le _ (by norm_num)
  have a1 : |(20000 : ℚ)| = 20000 := abs_of_nonneg (by norm_num)
  have a2 : |(30000 : ℚ)| = 30000 := abs_of_nonneg (by norm_num)
  constructor
  · simp [sectorPasses, distanceToContact, flatDeps, flatScope, mkTrack, origin0, Meter,
      polygonContains, ringContains, crossesRay, testRing, a1, h1]
    norm_num
  · simp [sectorPasses, distanceToContact, flatDeps, flatScope, mkTrack, origin0, Meter,
      polygonContains, ringContains, crossesRay, testRing, a2, h2]
    norm_num

/-- In the test environment the sector scan over `nearFarStore` selects the trackfile at
30 km, the last of the store. -/
theorem flat_sectorSelect_nearFar :
    sectorSelect flatDeps (flatScope nearFarStore) [testRing] origin0 3000 13000 .blue .Aircraft
      = some (mkTrack 2 30000 8000) := by
  rw [sectorSelect_eq]
  have hp := flat_sectorPasses nearFarStore
  have hc : (flatScope nearFarStore).contacts
      = [mkTrack 1 20000 8000, mkTrack 2 30000 8000] := rfl
  rw [hc]
  simp [List.filter, hp.1, hp.2]

/-- A trackfile selected by the sector scan is strictly beyond the margin radius. -/
theorem sectorSelect_beyond_margin (d : Deps) (s : Scope) (sector : List (List Point))
    (origin : Point) (minAltitude maxAltitude : ℚ) (coalition : Coalition)
    (filter : ContactCategory) (t : Trackfile)
    (ht : sectorSelect d s sector origin minAltitude maxAltitude coalition filter = some t) :
    d.DefaultMarginRadius < distanceToContact d origin t := by
  rw [sectorSelect_eq] at ht
  have hmem := List.mem_of_getLast?_eq_some ht
  have hp := (List.mem_filter.1 hmem).2
  simp only [sectorPasses, Bool.and_eq_true, decide_eq_true_eq] at hp
  exact hp.1.2

/-- The sector scan selects nothing when every matching trackfile inside the band and
inside the sector is within the margin radius. -/
theorem sectorSelect_none_of_margin (d : Deps) (s : Scope) (sector : List (List Point))
    (origin : Point) (minAltitude maxAltitude : ℚ) (coalition : Coalition)
    (filter : ContactCategory)
    (hall : ∀ u ∈ s.contacts, s.isMatch u coalition filter = true →
      minAltitude ≤ u.LastKnown.Altitude → u.LastKnown.Altitude ≤ maxAltitude →
      d.planarPolygonContains sector u.LastKnown.Point = true →
      distanceToContact d origin u ≤ d.DefaultMarginRadius) :
    sectorSelect d s sector origin minAltitude maxAltitude coalition filter = none := by
  rw [sectorSelect_eq]
  have hf : s.contacts.filter
      (sectorPasses d s sector origin minAltitude maxAltitude coalition filter) = [] := by
    rw [List.filter_eq_nil_iff]
    intro u hu hp
    simp only [sectorPasses, Bool.and_eq_true, decide_eq_true_eq] at hp
    have := hall u hu hp.1.1.1.1.1 hp.1.1.1.1.2 hp.1.1.1.2 hp.2
    exact absurd hp.1.2 (not_lt.2 this)
  rw [hf]
  rfl

/-- C5 (the code at the failing input). On a store that yields a trackfile at 20 km and
then one at 30 km, both matching the filters, inside the altitude band, beyond the margin
radius and inside the wedge, `FindNearestGroupInSector` selects the one at 30 km: the
loop never assigns `nearestDistance`, so every passing trackfile replaces the previous
one and the last one in iteration order is kept, although a passing trackfile with a
strictly smaller distance exists. -/
theorem FindNearestGroupInSector_keeps_last_not_nearest :
    sectorNearestContact flatDeps (flatScope nearFarStore) 11 origin0 3000 13000 50000 north 60
        .blue .Aircraft = some (some (mkTrack 2 30000 8000)) ∧
    FindNearestGroupInSector flatDeps (flatScope nearFarStore) 11 origin0 3000 13000 50000 north
        60 .blue .Aircraft = some (some farGroup) ∧
    mkTrack 1 20000 8000 ∈ (flatScope nearFarStore).contacts ∧
    (flatScope nearFarStore).isMatch (mkTrack 1 20000 8000) .blue .Aircraft = true ∧
    3000 ≤ (mkTrack 1 20000 8000).LastKnown.Altitude ∧
    (mkTrack 1 20000 8000).LastKnown.Altitude ≤ 13000 ∧
    flatDeps.DefaultMarginRadius < distanceToContact flatDeps origin0 (mkTrack 1 20000 8000) ∧
    flatDeps.planarPolygonContains [testRing] (mkTrack 1 20000 8000).LastKnown.Point = true ∧
    distanceToContact flatDeps origin0 (mkTrack 1 20000 8000) <
      distanceToContact flatDeps origin0 (mkTrack 2 30000 8000) := by
  have hp := (flat_sectorPasses nearFarStore).1
  simp only [sectorPasses, Bool.and_eq_true, decide_eq_true_eq] at hp
  have hsel : sectorNearestContact flatDeps (flatScope nearFarStore) 11 origin0 3000 13000 50000
      north 60 .blue .Aircraft = some (some (mkTrack 2 30000 8000)) := by
    simp only [sectorNearestContact, sectorRing_test, Option.map_some',
      flat_sectorSelect_nearFar]
  refine ⟨hsel, ?_, ?_, hp.1.1.1.1.1, hp.1.1.1.1.2, hp.1.1.1.2, hp.1.2, hp.2, ?_⟩
  · simp only [FindNearestGroupInSector, hsel, Option.map_some']
    simp [sectorGroup, flatScope, flatDeps, soloGroup, farGroup, mkTrack, origin0, Meter,
      NewBRAA]
  · simp [flatScope, nearFarStore]
  · simp [distanceToContact, flatDeps, mkTrack, origin0, Meter]
    norm_num

/-- The sector search returns exactly when the ring loop ends: it runs out of fuel iff the
ring loop does. -/
theorem FindNearestGroupInSector_none_iff (d : Deps) (s : Scope) (fuel : Nat)
    (origin : Point) (minAltitude maxAltitude length : ℚ) (bearing : Bearing) (arc : ℚ)
    (coalition : Coalition) (filter : ContactCategory) :
    FindNearestGroupInSector d s fuel origin minAltitude maxAltitude length bearing arc
        coalition filter = none ↔
      sectorRing d fuel origin (d.Magnetic bearing (s.Declination origin)) length arc
        = none := by
  unfold FindNearestGroupInSector sectorNearestContact
  cases hring : sectorRing d fuel origin (d.Magnetic bearing (s.Declination origin)) length arc
    with
  | none => simp [hring]
  | some ring => simp [hring]

/-- C7. `FindNearestGroupInSector` never selects a trackfile whose distance from the
origin is at most `conf.DefaultMarginRadius`: the selected trackfile, and the range of the
BRAA fix of a returned group, are strictly beyond it.  When every trackfile of the store
that matches the filters, lies in the altitude band and lies inside the sector polygon is
within the margin radius, the search returns absent.  The search returns a result
whenever the ring loop ends, and with fuel 12 or more it does for every arc that is not
positive or is at least `2 ^ (-1018)`. -/
theorem FindNearestGroupInSector_excludes_margin (d : Deps) (s : Scope) (fuel : Nat)
    (origin : Point) (minAltitude maxAltitude length : ℚ) (bearing : Bearing) (arc : ℚ)
    (coalition : Coalition) (filter : ContactCategory) :
    (∀ t, sectorNearestContact d s fuel origin minAltitude maxAltitude length bearing arc
        coalition filter = some (some t) →
      d.DefaultMarginRadius < distanceToContact d origin t) ∧
    (∀ g, FindNearestGroupInSector d s fuel origin minAltitude maxAltitude length bearing arc
        coalition filter = some (some g) →
      ∃ b, g.braa = some b ∧ d.DefaultMarginRadius < b.range) ∧
    (∀ ring, sectorRing d fuel origin (d.Magnetic bearing (s.Declination origin)) length arc
        = some ring →
      (∀ u ∈ s.contacts, s.isMatch u coalition filter = true →
        minAltitude ≤ u.LastKnown.Altitude → u.LastKnown.Altitude ≤ maxAltitude →
        d.planarPolygonContains [ring] u.LastKnown.Point = true →
        distanceToContact d origin u ≤ d.DefaultMarginRadius) →
      FindNearestGroupInSector d s fuel origin minAltitude maxAltitude length bearing arc
        coalition filter = some none) ∧
    (FindNearestGroupInSector d s fuel origin minAltitude maxAltitude length bearing arc
        coalition filter = none ↔
      sectorRing d fuel origin (d.Magnetic bearing (s.Declination origin)) length arc
        = none) ∧
    (12 ≤ fuel → arc ≤ 0 ∨ 2 ^ (-1018 : ℤ) ≤ arc →
      ∃ r, FindNearestGroupInSector d s fuel origin minAltitude maxAltitude length
        bearing arc coalition filter = some r) := by
  have hsel : ∀ sector t, sectorSelect d s sector origin minAltitude maxAltitude coalition
      filter = some t → d.DefaultMarginRadius < distanceToContact d origin t :=
    fun sector t ht => sectorSelect_beyond_margin d s sector origin minAltitude maxAltitude
      coalition filter t ht
  refine ⟨?_, ?_, ?_, FindNearestGroupInSector_none_iff d s fuel origin minAltitude
    maxAltitude length bearing arc coalition filter, ?_⟩
  · intro t ht
    unfold sectorNearestContact at ht
    cases hring : sectorRing d fuel origin (d.Magnetic bearing (s.Declination origin)) length arc
      with
    | none => simp [hring] at ht
    | some ring =>
      simp only [hring, Option.map_some', Option.some.injEq] at ht
      exact hsel [ring] t ht
  · intro g hg
    unfold FindNearestGroupInSector sectorNearestContact at hg
    cases hring : sectorRing d fuel origin (d.Magnetic bearing (s.Declination origin)) length arc
      with
    | none => simp [hring] at hg
    | some ring =>
      simp only [hring, Option.map_some', Option.some.injEq] at hg
      cases hs : sectorSelect d s [ring] origin minAltitude maxAltitude coalition filter with
      | none => simp [hs, sectorGroup] at hg
      | some t =>
        have hm := hsel [ring] t hs
        rw [hs] at hg
        unfold sectorGroup at hg
        cases hl : s.findGroupForAircraft t with
        | none => simp [hl] at hg
        | some g0 =>
          simp only [hl, Option.some.injEq] at hg
          subst hg
          exact ⟨_, rfl, by simpa [NewBRAA, distanceToContact] using hm⟩
  · intro ring hring hall
    have hnone := sectorSelect_none_of_margin d s [ring] origin minAltitude maxAltitude
      coalition filter hall
    simp [FindNearestGroupInSector, sectorNearestContact, hring, hnone, sectorGroup]
  · intro hf harc
    obtain ⟨ring, hring⟩ := sectorRing_total d fuel origin
      (d.Magnetic bearing (s.Declination origin)) length arc harc hf
    exact ⟨_, by simp only [FindNearestGroupInSector, sectorNearestContact, hring,
      Option.map_some']; rfl⟩

/-- In the test environment a lone trackfile at 3 km, inside the margin radius of
5556 m, is not selected: the sector search returns absent. -/
theorem FindNearestGroupInSector_inside_margin :
    FindNearestGroupInSector flatDeps (flatScope [mkTrack 1 3000 8000]) 11 origin0 3000 13000
      50000 north 60 .blue .Aircraft = some none := by
  have hring := sectorRing_test [mkTrack 1 3000 8000]
  have hnone := sectorSelect_none_of_margin flatDeps (flatScope [mkTrack 1 3000 8000])
    [testRing]
    origin0 3000 13000 .blue .Aircraft (by
      intro u hu _ _ _ _
      have : u = mkTrack 1 3000 8000 := by simpa [flatScope] using hu
      subst this
      simp [distanceToContact, flatDeps, mkTrack, origin0, Meter]
      norm_num)
  simp [FindNearestGroupInSector, sectorNearestContact, hring, hnone, sectorGroup]

/-! ## Claims about the group searches -/

/-- In the test environment the nearest trackfile of a store with one trackfile at 20 km
is that trackfile, for every group lookup. -/
theorem FindNearestTrackfile_single (lookup : Trackfile → Option Group) :
    FindNearestTrackfile flatDeps (lookupScope [mkTrack 1 20000 8000] lookup) origin0 3000 13000
      40000 .blue .Aircraft = some (mkTrack 1 20000 8000) := by
  simp [FindNearestTrackfile, nearestLoop, nearestStep, inBand, absDistance, flatDeps,
    lookupScope, mkTrack, origin0]
  norm_num

/-- C8 (counterexample). When the group lookup produces a group with a BRAA fix and no
bullseye fix, the group returned by `FindNearestGroupWithBullseye` still has the BRAA fix
set and the bullseye fix clear: the bullseye search assigns neither field. -/
theorem FindNearestGroupWithBullseye_leaves_fix_fields :
    FindNearestGroupWithBullseye flatDeps
        (lookupScope [mkTrack 1 20000 8000] (fun t => some (braaOnlyGroup t)))
        origin0 3000 13000 40000 .blue .Aircraft
      = .ok (some { braaOnlyGroup (mkTrack 1 20000 8000) with
          aspect := some "Hot", isThreat := true }) ∧
    ({ braaOnlyGroup (mkTrack 1 20000 8000) with
        aspect := some "Hot", isThreat := true } : Group).braa
      = some (NewBRAA { value := 0, isMagnetic := true } 1000 8000 "Hot") ∧
    ({ braaOnlyGroup (mkTrack 1 20000 8000) with
        aspect := some "Hot", isThreat := true } : Group).bullseye = none := by
  refine ⟨?_, rfl, rfl⟩
  unfold FindNearestGroupWithBullseye
  rw [FindNearestTrackfile_single]
  simp [lookupScope, flatDeps, mkTrack, origin0, Meter, braaOnlyGroup]
  norm_num

/-- C8 (amended). A group returned by `FindNearestGroupWithBRAA` or by
`FindNearestGroupInSector` has its BRAA fix set and its bullseye fix cleared, whatever the
group lookup produced.  A group returned by `FindNearestGroupWithBullseye` has both fix
fields exactly as the group lookup produced them for the nearest trackfile. -/
theorem nearest_group_fix_fields (d : Deps) (s : Scope) (fuel : Nat) (origin : Point)
    (minAltitude maxAltitude radius length : ℚ) (bearing : Bearing) (arc : ℚ)
    (coalition : Coalition) (filter : ContactCategory) :
    (∀ g, FindNearestGroupWithBRAA d s origin minAltitude maxAltitude radius coalition filter
        = some g → g.braa.isSome = true ∧ g.bullseye = none) ∧
    (∀ g, FindNearestGroupInSector d s fuel origin minAltitude maxAltitude length bearing arc
        coalition filter = some (some g) → g.braa.isSome = true ∧ g.bullseye = none) ∧
    (∀ g, FindNearestGroupWithBullseye d s origin minAltitude maxAltitude radius coalition
        filter = .ok (some g) →
      ∃ t g0, FindNearestTrackfile d s origin minAltitude maxAltitude radius coalition filter
          = some t ∧ s.findGroupForAircraft t = some g0 ∧
        g.braa = g0.braa ∧ g.bullseye = g0.bullseye) := by
  refine ⟨?_, ?_, ?_⟩
  · intro g hg
    unfold FindNearestGroupWithBRAA at hg
    cases ht : FindNearestTrackfile d s origin minAltitude maxAltitude radius coalition filter
      with
    | none => simp [ht] at hg
    | some t =>
      cases hl : s.findGroupForAircraft t with
      | none => simp [ht, hl] at hg
      | some g0 =>
        simp only [ht, hl, Option.some.injEq] at hg
        subst hg
        exact ⟨rfl, rfl⟩
  · intro g hg
    unfold FindNearestGroupInSector at hg
    cases hc : sectorNearestContact d s fuel origin minAltitude maxAltitude length bearing arc
      coalition filter with
    | none => simp [hc] at hg
    | some sel =>
      simp only [hc, Option.map_some', Option.some.injEq] at hg
      cases sel with
      | none => simp [sectorGroup] at hg
      | some t =>
        unfold sectorGroup at hg
        cases hl : s.findGroupForAircraft t with
        | none => simp [hl] at hg
        | some g0 =>
          simp only [hl, Option.some.injEq] at hg
          subst hg
          exact ⟨rfl, rfl⟩
  · intro g hg
    unfold FindNearestGroupWithBullseye at hg
    cases ht : FindNearestTrackfile d s origin minAltitude maxAltitude radius coalition filter
      with
    | none => simp [ht] at hg
    | some t =>
      cases hl : s.findGroupForAircraft t with
      | none => simp [ht, hl] at hg
      | some g0 =>
        simp only [ht, hl, Except.ok.injEq, Option.some.injEq] at hg
        subst hg
        exact ⟨t, g0, rfl, hl, rfl, rfl⟩

/-- C9 (the code at the failing inputs). On an empty store, and on a store whose nearest
trackfile has no group, `FindNearestGroupWithBullseye` dereferences `nil`, where
`FindNearestGroupWithBRAA` returns absent. -/
theorem FindNearestGroupWithBullseye_nil_dereference :
    FindNearestGroupWithBullseye flatDeps (flatScope []) origin0 3000 13000 40000
        .blue .Aircraft = .error .nilDereference ∧
    FindNearestGroupWithBRAA flatDeps (flatScope []) origin0 3000 13000 40000
        .blue .Aircraft = none ∧
    FindNearestGroupWithBullseye flatDeps (lookupScope [mkTrack 1 20000 8000] (fun _ => none))
        origin0 3000 13000 40000 .blue .Aircraft = .error .nilDereference ∧
    FindNearestGroupWithBRAA flatDeps (lookupScope [mkTrack 1 20000 8000] (fun _ => none))
        origin0 3000 13000 40000 .blue .Aircraft = none := by
  refine ⟨?_, ?_, ?_, ?_⟩
  · simp [FindNearestGroupWithBullseye, FindNearestTrackfile, nearestLoop, flatScope]
  · simp [FindNearestGroupWithBRAA, FindNearestTrackfile, nearestLoop, flatScope]
  · unfold FindNearestGroupWithBullseye
    rw [FindNearestTrackfile_single]
    simp [lookupScope]
  · unfold FindNearestGroupWithBRAA
    rw [FindNearestTrackfile_single]
    simp [lookupScope]

/-- C10. For a group returned by `FindNearestGroupWithBRAA`, built from the group `g0`
that the lookup produced for the nearest trackfile: the threat flag is true iff the range
from the origin to the point of `g0` is strictly less than
`brevity.MandatoryThreatDistance`, a range equal to the threshold gives no threat, and the
range stored in the BRAA fix is that same range. -/
theorem FindNearestGroupWithBRAA_threat (d : Deps) (s : Scope) (origin : Point)
    (minAltitude maxAltitude radius : ℚ) (coalition : Coalition) (filter : ContactCategory)
    (g : Group)
    (h : FindNearestGroupWithBRAA d s origin minAltitude maxAltitude radius coalition filter
      = some g) :
    ∃ t g0, FindNearestTrackfile d s origin minAltitude maxAltitude radius coalition filter
        = some t ∧ s.findGroupForAircraft t = some g0 ∧
      (g.isThreat = true ↔
        d.geoDistance origin (d.groupPoint g0) * Meter < d.MandatoryThreatDistance) ∧
      (d.geoDistance origin (d.groupPoint g0) * Meter = d.MandatoryThreatDistance →
        g.isThreat = false) ∧
      g.braa.map BRAA.range = some (d.geoDistance origin (d.groupPoint g0) * Meter) := by
  unfold FindNearestGroupWithBRAA at h
  cases ht : FindNearestTrackfile d s origin minAltitude maxAltitude radius coalition filter with
  | none => simp [ht] at h
  | some t =>
    cases hl : s.findGroupForAircraft t with
    | none => simp [ht, hl] at h
    | some g0 =>
      simp only [ht, hl, Option.some.injEq] at h
      subst h
      refine ⟨t, g0, rfl, hl, by simp, ?_, by simp [NewBRAA]⟩
      intro heq
      simp [heq]

/-- In the test environment the BRAA search over a lone trackfile at 20 km returns
`threatGroup`. -/
theorem FindNearestGroupWithBRAA_single :
    FindNearestGroupWithBRAA flatDeps (lookupScope [mkTrack 1 20000 8000]
      (fun t => some (soloGroup t))) origin0 3000 13000 40000 .blue .Aircraft
      = some threatGroup := by
  unfold FindNearestGroupWithBRAA
  rw [FindNearestTrackfile_single]
  simp [lookupScope, flatDeps, mkTrack, origin0, Meter, soloGroup, threatGroup, NewBRAA]
  norm_num

/-- The threat property on a lone trackfile at 20 km, inside the threat distance of
46300 m. -/
theorem FindNearestGroupWithBRAA_threat_witness :
    FindNearestGroupWithBRAA flatDeps (lookupScope [mkTrack 1 20000 8000]
      (fun t => some (soloGroup t))) origin0 3000 13000 40000 .blue .Aircraft
      = some threatGroup ∧
    ∃ t g0, FindNearestTrackfile flatDeps (lookupScope [mkTrack 1 20000 8000]
          (fun t => some (soloGroup t))) origin0 3000 13000 40000 .blue .Aircraft = some t ∧
      (lookupScope [mkTrack 1 20000 8000] (fun t => some (soloGroup t))).findGroupForAircraft t
        = some g0 ∧
      (threatGroup.isThreat = true ↔
        flatDeps.geoDistance origin0 (flatDeps.groupPoint g0) * Meter
          < flatDeps.MandatoryThreatDistance) ∧
      (flatDeps.geoDistance origin0 (flatDeps.groupPoint g0) * Meter
          = flatDeps.MandatoryThreatDistance → threatGroup.isThreat = false) ∧
      threatGroup.braa.map BRAA.range
        = some (flatDeps.geoDistance origin0 (flatDeps.groupPoint g0) * Meter) :=
  ⟨FindNearestGroupWithBRAA_single,
    FindNearestGroupWithBRAA_threat flatDeps (lookupScope [mkTrack 1 20000 8000]
      (fun t => some (soloGroup t))) origin0 3000 13000 40000 .blue .Aircraft threatGroup
      FindNearestGroupWithBRAA_single⟩

/-! ## Claims about `HandleDeclare` -/

/-- Lines 41 to 66 write only warnings and errors to the log. -/
theorem declareArea_logged (d : Deps) (c : Controller) (request : DeclareRequest)
    (trackfile : Trackfile) :
    ∀ e ∈ (declareArea d c request trackfile).1, (∃ m, e = .warn m) ∨ (∃ m, e = .error m) := by
  unfold declareArea
  cases request.IsBRAA
  · cases request.Bullseye.bearing with
    | none => simp
    | some b => cases b.isMagnetic <;> simp
  · cases request.Bearing with
    | none => simp
    | some b => cases b.isMagnetic <;> simp

/-- Lines 41 to 66 resolve the area of interest whenever the bearing that the logger
preamble reads is present. -/
theorem declareArea_ok (d : Deps) (c : Controller) (request : DeclareRequest)
    (trackfile : Trackfile)
    (hb : (if request.IsBRAA then request.Bearing else request.Bullseye.bearing) ≠ none) :
    ∃ logged aoi, declareArea d c request trackfile = (logged, .ok aoi) := by
  unfold declareArea
  cases hk : request.IsBRAA
  · simp only [hk, Bool.false_eq_true, if_false] at hb ⊢
    cases hbe : request.Bullseye.bearing with
    | none => exact absurd hbe hb
    | some b => exact ⟨_, _, rfl⟩
  · simp only [hk, if_true] at hb ⊢
    cases hbe : request.Bearing with
    | none => exact absurd hbe hb
    | some b => exact ⟨_, _, rfl⟩

/-- The shape of a call of `HandleDeclare`: it faults in the logger preamble with no
event; or the lookup finds no trackfile and the negative response is sent; or the lookup
finds a trackfile, the call makes the two searches and sends the declare response. -/
theorem HandleDeclare_cases (d : Deps) (c : Controller) (request : DeclareRequest) :
    ((if request.IsBRAA then request.Bearing else request.Bullseye.bearing) = none ∧
      HandleDeclare d c request =
        { events := [], fault := some .nilDereference, friendlyGroups := [],
          hostileGroups := [] }) ∨
    (∃ found, (if request.IsBRAA then request.Bearing else request.Bullseye.bearing) ≠ none ∧
      c.scope.FindCallsign request.Callsign c.coalition = (found, none) ∧
      HandleDeclare d c request =
        { events := [.findCallsign request.Callsign c.coalition found none,
            .send (.NegativeRadarContactResponse request.Callsign)],
          fault := none, friendlyGroups := [], hostileGroups := [] }) ∨
    (∃ found trackfile logged aoi,
      (if request.IsBRAA then request.Bearing else request.Bullseye.bearing) ≠ none ∧
      c.scope.FindCallsign request.Callsign c.coalition = (found, some trackfile) ∧
      declareArea d c request trackfile = (logged, .ok aoi) ∧
      HandleDeclare d c request =
        (let friendlyQuery : GroupQuery :=
          { origin := aoi, minAltitude := request.Altitude - 5000 * d.Foot,
            maxAltitude := request.Altitude + 5000 * d.Foot,
            radius := 7 * d.NauticalMile, coalition := c.coalition, filter := .Aircraft }
        let hostileQuery : GroupQuery :=
          { origin := aoi, minAltitude := request.Altitude - 5000 * d.Foot,
            maxAltitude := request.Altitude + 5000 * d.Foot,
            radius := 7 * d.NauticalMile, coalition := c.hostileCoalition, filter := .Aircraft }
        let friendlyGroups := c.scope.FindNearbyGroupsWithBullseye friendlyQuery
        let hostileGroups := c.scope.FindNearbyGroupsWithBullseye hostileQuery
        let classified := declareClassify friendlyGroups hostileGroups
        let lists := setDeclarationAt classified.1 classified.2 (friendlyGroups, hostileGroups)
        { events := .findCallsign request.Callsign c.coalition found (some trackfile) :: logged ++
            [.search friendlyQuery friendlyGroups, .search hostileQuery hostileGroups,
              .send (.DeclareResponse
                { Callsign := found, Declaration := classified.1,
                  Group := derefGroup classified.2 lists })],
          fault := none, friendlyGroups := lists.1, hostileGroups := lists.2 })) := by
  cases hb : (if request.IsBRAA then request.Bearing else request.Bullseye.bearing) with
  | none => left; exact ⟨rfl, by simp [HandleDeclare, hb]⟩
  | some b =>
    right
    have hne : (if request.IsBRAA then request.Bearing else request.Bullseye.bearing) ≠ none := by
      rw [hb]; simp
    rcases hl : c.scope.FindCallsign request.Callsign c.coalition with ⟨found, tf⟩
    cases tf with
    | none => left; exact ⟨found, by simp, rfl, by simp [HandleDeclare, hb, hl]⟩
    | some trackfile =>
      right
      obtain ⟨logged, aoi, ha⟩ := declareArea_ok d c request trackfile hne
      exact ⟨found, trackfile, logged, aoi, by simp, rfl, ha, by simp [HandleDeclare, hb, hl, ha]⟩

/-- The callsign lookup is made and returns no trackfile exactly when the bearing that
the logger preamble reads is present and the radar has no trackfile for the callsign. -/
theorem HandleDeclare_lookup_none_iff (d : Deps) (c : Controller) (request : DeclareRequest)
    (found : String) :
    Event.findCallsign request.Callsign c.coalition found none
        ∈ (HandleDeclare d c request).events ↔
      ((if request.IsBRAA then request.Bearing else request.Bullseye.bearing) ≠ none ∧
        c.scope.FindCallsign request.Callsign c.coalition = (found, none)) := by
  rcases HandleDeclare_cases d c request with ⟨hb, ho⟩ | ⟨found1, hb, hl, ho⟩ |
    ⟨found1, trackfile, logged, aoi, hb, hl, ha, ho⟩
  · rw [ho]
    simp [hb]
  · rw [ho, hl]
    simp [hb]
    constructor <;> intro h <;> exact h.symm
  · have hlog := declareArea_logged d c request trackfile
    rw [ha] at hlog
    rw [ho, hl]
    constructor
    · intro h
      simp only [List.cons_append, List.mem_cons, Event.findCallsign.injEq, true_and,
        reduceCtorEq, and_false, false_or, List.mem_append, List.mem_singleton, or_false,
        List.mem_nil_iff] at h
      rcases hlog _ h with ⟨m, hm⟩ | ⟨m, hm⟩ <;> simp at hm
    · intro h
      simp at h

/-- Log entries contain no search and no send. -/
theorem logged_no_effect (logged : List Event)
    (h : ∀ e ∈ logged, (∃ m, e = .warn m) ∨ (∃ m, e = .error m)) :
    logged.filterMap Event.searchResult = [] ∧ logged.filterMap Event.sentMessage = [] := by
  induction logged with
  | nil => simp
  | cons e rest ih =>
    have hrest := ih (fun x hx => h x (List.mem_cons_of_mem e hx))
    rcases h e (List.mem_cons_self e rest) with ⟨m, rfl⟩ | ⟨m, rfl⟩ <;>
      simp [Event.searchResult, Event.sentMessage, hrest.1, hrest.2]

/-- A call of `HandleDeclare` that reaches the callsign lookup of line 34, the lookup
returning no trackfile, makes the lookup, sends exactly one message on the outbound
channel, the negative radar contact response carrying the callsign of the request
unchanged, and returns: it makes no group search and sends no declare response.  A
request whose bearing is `nil` faults in the logger preamble and never reaches the
lookup. -/
theorem HandleDeclare_no_trackfile (d : Deps) (c : Controller) (request : DeclareRequest)
    (found : String)
    (h : Event.findCallsign request.Callsign c.coalition found none
      ∈ (HandleDeclare d c request).events) :
    (HandleDeclare d c request).events =
      [.findCallsign request.Callsign c.coalition found none,
        .send (.NegativeRadarContactResponse request.Callsign)] ∧
    (HandleDeclare d c request).sent = [.NegativeRadarContactResponse request.Callsign] ∧
    (HandleDeclare d c request).searches = [] ∧
    (∀ response, Message.DeclareResponse response ∉ (HandleDeclare d c request).sent) ∧
    (HandleDeclare d c request).fault = none := by
  rcases HandleDeclare_cases d c request with ⟨_, ho⟩ | ⟨found1, _, _, ho⟩ |
    ⟨found1, trackfile, logged, aoi, _, _, ha, ho⟩
  · rw [ho] at h
    simp at h
  · rw [ho] at h ⊢
    have hf : found = found1 := by simpa using h
    subst hf
    simp [Outcome.sent, Outcome.searches, Event.sentMessage, Event.searchResult]
  · rw [ho] at h
    have hlog := declareArea_logged d c request trackfile
    rw [ha] at hlog
    simp only [List.cons_append, List.mem_cons, Event.findCallsign.injEq, true_and, reduceCtorEq,
      and_false, false_or, List.mem_append, List.mem_singleton, or_false, List.mem_nil_iff]
      at h
    rcases hlog _ h with ⟨m, hm⟩ | ⟨m, hm⟩ <;> simp at hm

/-- In the test environment the unknown callsign "Ghost 1" gets the negative radar contact
response. -/
theorem HandleDeclare_ghost (groups : GroupQuery → List Group) :
    HandleDeclare flatDeps (blueController groups) ghostRequest =
      { events := [.findCallsign "Ghost 1" .blue "" none,
          .send (.NegativeRadarContactResponse "Ghost 1")],
        fault := none, friendlyGroups := [], hostileGroups := [] } := by
  simp [HandleDeclare, blueController, flatRadar, ghostRequest]

/-- The negative response on the request of the unknown callsign "Ghost 1". -/
theorem HandleDeclare_no_trackfile_witness :
    Event.findCallsign ghostRequest.Callsign (blueController twoFriendly).coalition "" none
      ∈ (HandleDeclare flatDeps (blueController twoFriendly) ghostRequest).events ∧
    ((HandleDeclare flatDeps (blueController twoFriendly) ghostRequest).events =
      [.findCallsign ghostRequest.Callsign (blueController twoFriendly).coalition "" none,
        .send (.NegativeRadarContactResponse ghostRequest.Callsign)] ∧
    (HandleDeclare flatDeps (blueController twoFriendly) ghostRequest).sent
      = [.NegativeRadarContactResponse ghostRequest.Callsign] ∧
    (HandleDeclare flatDeps (blueController twoFriendly) ghostRequest).searches = [] ∧
    (∀ response, Message.DeclareResponse response
      ∉ (HandleDeclare flatDeps (blueController twoFriendly) ghostRequest).sent) ∧
    (HandleDeclare flatDeps (blueController twoFriendly) ghostRequest).fault = none) :=
  ⟨by rw [HandleDeclare_ghost]; simp [ghostRequest, blueController],
    HandleDeclare_no_trackfile flatDeps (blueController twoFriendly) ghostRequest ""
      (by rw [HandleDeclare_ghost]; simp [ghostRequest, blueController])⟩

/-- C2 (the code at the failing input). The bullseye request of the callsign "Ghost 1",
which the radar does not know, with a `nil` bullseye bearing: the callsign lookup returns
no trackfile for it, but `HandleDeclare` reads the bearing at line 24 to fill the logger,
before the lookup of line 34, and ends there with a nil dereference.  The call has no
event: no lookup is made and nothing is sent, so the negative radar contact response is
not sent. -/
theorem HandleDeclare_unknown_callsign_nil_bearing (groups : GroupQuery → List Group) :
    (blueController groups).scope.FindCallsign ghostNilRequest.Callsign
        (blueController groups).coalition = ("", none) ∧
    HandleDeclare flatDeps (blueController groups) ghostNilRequest =
      { events := [], fault := some .nilDereference, friendlyGroups := [],
        hostileGroups := [] } ∧
    (HandleDeclare flatDeps (blueController groups) ghostNilRequest).sent = [] ∧
    Message.NegativeRadarContactResponse ghostNilRequest.Callsign
      ∉ (HandleDeclare flatDeps (blueController groups) ghostNilRequest).sent := by
  refine ⟨?_, ?_, ?_, ?_⟩
  · simp [blueController, flatRadar, ghostNilRequest]
  · simp [HandleDeclare, ghostNilRequest]
  · simp [HandleDeclare, ghostNilRequest, Outcome.sent]
  · simp [HandleDeclare, ghostNilRequest, Outcome.sent]

/-- C1. In every call of `HandleDeclare` that makes the two group searches, with results
`friendly` and `hostile`, exactly one message is sent, a declare response fixed by which of
the two lists are empty: both empty gives Clean with no group; `friendly` non-empty and
`hostile` empty gives Friendly with the first friendly group attached; `friendly` empty and
`hostile` non-empty gives Hostile with the first hostile group attached; both non-empty
gives Furball with no group.  The attached group is the first group of its list with its
declaration set to the classification (lines 93 to 95). -/
theorem HandleDeclare_classification (d : Deps) (c : Controller) (request : DeclareRequest)
    (q1 q2 : GroupQuery) (friendly hostile : List Group)
    (h : (HandleDeclare d c request).searches = [(q1, friendly), (q2, hostile)]) :
    ∃ response, (HandleDeclare d c request).sent = [.DeclareResponse response] ∧
      (friendly = [] → hostile = [] →
        response.Declaration = .Clean ∧ response.Group = none) ∧
      (∀ g rest, friendly = g :: rest → hostile = [] →
        response.Declaration = .Friendly ∧
        response.Group = some (SetDeclaration g .Friendly)) ∧
      (∀ g rest, friendly = [] → hostile = g :: rest →
        response.Declaration = .Hostile ∧
        response.Group = some (SetDeclaration g .Hostile)) ∧
      (friendly ≠ [] → hostile ≠ [] →
        response.Declaration = .Furball ∧ response.Group = none) := by
  rcases HandleDeclare_cases d c request with ⟨_, ho⟩ | ⟨found1, _, _, ho⟩ |
    ⟨found1, trackfile, logged, aoi, _, _, ha, ho⟩
  · rw [ho] at h
    simp [Outcome.searches] at h
  · rw [ho] at h
    simp [Outcome.searches, Event.searchResult] at h
  · have hlog := declareArea_logged d c request trackfile
    rw [ha] at hlog
    have hn := logged_no_effect logged hlog
    rw [ho] at h
    simp only [Outcome.searches, List.filterMap_cons, Event.searchResult, List.filterMap_append,
      hn.1, List.nil_append, List.filterMap_nil, List.cons.injEq, Prod.mk.injEq, and_true] at h
    obtain ⟨⟨_, hf⟩, ⟨_, hh⟩⟩ := h
    simp only [hf, hh] at ho
    have hsent : (HandleDeclare d c request).sent = [.DeclareResponse
        { Callsign := found1, Declaration := (declareClassify friendly hostile).1,
          Group := derefGroup (declareClassify friendly hostile).2
            (setDeclarationAt (declareClassify friendly hostile).1
              (declareClassify friendly hostile).2 (friendly, hostile)) }] := by
      rw [ho]
      simp only [Outcome.sent, List.filterMap_cons, Event.sentMessage, List.filterMap_append,
        hn.2, List.nil_append, List.filterMap_nil]
    refine ⟨_, hsent, ?_, ?_, ?_, ?_⟩
    · intro h1 h2
      subst h1 h2
      simp [declareClassify, derefGroup]
    · intro g rest h1 h2
      subst h1 h2
      simp [declareClassify, derefGroup, setDeclarationAt]
    · intro g rest h1 h2
      subst h1 h2
      simp [declareClassify, derefGroup, setDeclarationAt]
    · intro h1 h2
      have l1 := List.length_pos.2 h1
      have l2 := List.length_pos.2 h2
      have e1 : ¬ friendly.length = 0 := by omega
      have e2 : ¬ hostile.length = 0 := by omega
      simp [declareClassify, derefGroup, l1, l2, e1, e2]

/-- In the test environment the request of "freedom 3 1" leads to two searches around the
same point, the first for blue groups and the second for red groups. -/
theorem HandleDeclare_freedom_searches :
    (HandleDeclare flatDeps (blueController twoFriendly) freedomRequest).searches =
      [(freedomQuery .blue, twoFriendly (freedomQuery .blue)),
        (freedomQuery .red, twoFriendly (freedomQuery .red))] := by
  simp [HandleDeclare, declareArea, blueController, flatRadar, freedomRequest, flatDeps,
    Outcome.searches, Event.searchResult, freedomQuery, Degrees, Meters, mkTrack]
  norm_num

/-- The classification on the request of "freedom 3 1" with two blue groups and no red
group near the declared point. -/
theorem HandleDeclare_classification_witness :
    (HandleDeclare flatDeps (blueController twoFriendly) freedomRequest).searches =
      [(freedomQuery .blue, twoFriendly (freedomQuery .blue)),
        (freedomQuery .red, twoFriendly (freedomQuery .red))] ∧
    ∃ response, (HandleDeclare flatDeps (blueController twoFriendly) freedomRequest).sent
        = [.DeclareResponse response] ∧
      (twoFriendly (freedomQuery .blue) = [] → twoFriendly (freedomQuery .red) = [] →
        response.Declaration = .Clean ∧ response.Group = none) ∧
      (∀ g rest, twoFriendly (freedomQuery .blue) = g :: rest →
        twoFriendly (freedomQuery .red) = [] →
        response.Declaration = .Friendly ∧
        response.Group = some (SetDeclaration g .Friendly)) ∧
      (∀ g rest, twoFriendly (freedomQuery .blue) = [] →
        twoFriendly (freedomQuery .red) = g :: rest →
        response.Declaration = .Hostile ∧
        response.Group = some (SetDeclaration g .Hostile)) ∧
      (twoFriendly (freedomQuery .blue) ≠ [] → twoFriendly (freedomQuery .red) ≠ [] →
        response.Declaration = .Furball ∧ response.Group = none) :=
  ⟨HandleDeclare_freedom_searches,
    HandleDeclare_classification flatDeps (blueController twoFriendly) freedomRequest
      (freedomQuery .blue) (freedomQuery .red) (twoFriendly (freedomQuery .blue))
      (twoFriendly (freedomQuery .red)) HandleDeclare_freedom_searches⟩

/-- In the test environment, with two blue groups and no red group near the declared
point, the response is Friendly and carries the first blue group, its declaration set. -/
theorem HandleDeclare_freedom_sent :
    (HandleDeclare flatDeps (blueController twoFriendly) freedomRequest).sent =
      [.DeclareResponse
        { Callsign := "freedom 31", Declaration := .Friendly,
          Group := some (SetDeclaration (soloGroup (mkTrack 1 20000 8000)) .Friendly) }] := by
  simp [HandleDeclare, declareArea, blueController, flatRadar, freedomRequest, flatDeps,
    Outcome.sent, Event.sentMessage, twoFriendly, declareClassify, setDeclarationAt, derefGroup]

/-! ## Further claims about `HandleDeclare` -/

/-- The callsign lookup is made and returns a trackfile exactly when the bearing that the
logger preamble reads is present and the radar has that trackfile for the callsign. -/
theorem HandleDeclare_lookup_some_iff (d : Deps) (c : Controller) (request : DeclareRequest)
    (found : String) (trackfile : Trackfile) :
    Event.findCallsign request.Callsign c.coalition found (some trackfile)
        ∈ (HandleDeclare d c request).events ↔
      ((if request.IsBRAA then request.Bearing else request.Bullseye.bearing) ≠ none ∧
        c.scope.FindCallsign request.Callsign c.coalition = (found, some trackfile)) := by
  rcases HandleDeclare_cases d c request with ⟨hb, ho⟩ | ⟨found1, hb, hl, ho⟩ |
    ⟨found1, trackfile1, logged, aoi, hb, hl, ha, ho⟩
  · rw [ho]
    simp [hb]
  · rw [ho, hl]
    simp
  · have hlog := declareArea_logged d c request trackfile1
    rw [ha] at hlog
    rw [ho, hl]
    constructor
    · intro h
      simp only [List.cons_append, List.mem_cons, Event.findCallsign.injEq, true_and,
        reduceCtorEq, false_or, List.mem_append, List.mem_singleton, or_false,
        List.mem_nil_iff, Option.some.injEq] at h
      rcases h with ⟨h1, h2⟩ | h
      · exact ⟨hb, by rw [h1, h2]⟩
      · rcases hlog _ h with ⟨m, hm⟩ | ⟨m, hm⟩ <;> simp at hm
    · rintro ⟨_, h⟩
      simp only [Prod.mk.injEq, Option.some.injEq] at h
      simp [h.1, h.2]

/-- The whole result of a call in which the lookup is made and returns a trackfile. -/
theorem HandleDeclare_of_lookup_some (d : Deps) (c : Controller) (request : DeclareRequest)
    (found : String) (trackfile : Trackfile)
    (h : Event.findCallsign request.Callsign c.coalition found (some trackfile)
      ∈ (HandleDeclare d c request).events) :
    ∃ logged aoi, declareArea d c request trackfile = (logged, .ok aoi) ∧
      logged.filterMap Event.searchResult = [] ∧ logged.filterMap Event.sentMessage = [] ∧
      HandleDeclare d c request =
        (let friendlyQuery : GroupQuery :=
          { origin := aoi, minAltitude := request.Altitude - 5000 * d.Foot,
            maxAltitude := request.Altitude + 5000 * d.Foot,
            radius := 7 * d.NauticalMile, coalition := c.coalition, filter := .Aircraft }
        let hostileQuery : GroupQuery :=
          { origin := aoi, minAltitude := request.Altitude - 5000 * d.Foot,
            maxAltitude := request.Altitude + 5000 * d.Foot,
            radius := 7 * d.NauticalMile, coalition := c.hostileCoalition, filter := .Aircraft }
        let friendlyGroups := c.scope.FindNearbyGroupsWithBullseye friendlyQuery
        let hostileGroups := c.scope.FindNearbyGroupsWithBullseye hostileQuery
        let classified := declareClassify friendlyGroups hostileGroups
        let lists := setDeclarationAt classified.1 classified.2 (friendlyGroups, hostileGroups)
        { events := .findCallsign request.Callsign c.coalition found (some trackfile) :: logged ++
            [.search friendlyQuery friendlyGroups, .search hostileQuery hostileGroups,
              .send (.DeclareResponse
                { Callsign := found, Declaration := classified.1,
                  Group := derefGroup classified.2 lists })],
          fault := none, friendlyGroups := lists.1, hostileGroups := lists.2 }) := by
  have hiff := (HandleDeclare_lookup_some_iff d c request found trackfile).1 h
  rcases HandleDeclare_cases d c request with ⟨hb, _⟩ | ⟨found1, _, hl, _⟩ |
    ⟨found1, trackfile1, logged, aoi, _, hl, ha, ho⟩
  · exact absurd hb hiff.1
  · rw [hl] at hiff
    simp at hiff
  · rw [hl] at hiff
    have h2 := hiff.2
    simp only [Prod.mk.injEq, Option.some.injEq] at h2
    obtain ⟨rfl, rfl⟩ := h2
    have hlog := declareArea_logged d c request trackfile1
    rw [ha] at hlog
    have hn := logged_no_effect logged hlog
    exact ⟨logged, aoi, ha, hn.1, hn.2, ho⟩

/-- In the test environment the request of "freedom 3 1" reaches the lookup, which returns
the canonical callsign and the trackfile of the requestor. -/
theorem HandleDeclare_freedom_lookup :
    Event.findCallsign freedomRequest.Callsign (blueController twoFriendly).coalition
        "freedom 31" (some (mkTrack 7 0 8000))
      ∈ (HandleDeclare flatDeps (blueController twoFriendly) freedomRequest).events := by
  rw [HandleDeclare_lookup_some_iff]
  simp [freedomRequest, blueController, flatRadar]

/-- In a call of `HandleDeclare` that reaches the callsign lookup of line 34, the lookup
returning a trackfile, exactly two group searches are made: both around the same area-of-interest
point, with the same altitude band from `request.Altitude - 5000 ft` to
`request.Altitude + 5000 ft`, the same radius of 7 nautical miles and the Aircraft
category; the first for the coalition of the controller and the second for the hostile
coalition. -/
theorem HandleDeclare_two_searches (d : Deps) (c : Controller) (request : DeclareRequest)
    (found : String) (trackfile : Trackfile)
    (h : Event.findCallsign request.Callsign c.coalition found (some trackfile)
      ∈ (HandleDeclare d c request).events) :
    ∃ aoi q1 q2 friendly hostile, (declareArea d c request trackfile).2 = .ok aoi ∧
      (HandleDeclare d c request).searches = [(q1, friendly), (q2, hostile)] ∧
      q1.origin = aoi ∧ q2.origin = aoi ∧
      q1.minAltitude = request.Altitude - 5000 * d.Foot ∧
      q2.minAltitude = request.Altitude - 5000 * d.Foot ∧
      q1.maxAltitude = request.Altitude + 5000 * d.Foot ∧
      q2.maxAltitude = request.Altitude + 5000 * d.Foot ∧
      q1.radius = 7 * d.NauticalMile ∧ q2.radius = 7 * d.NauticalMile ∧
      q1.filter = .Aircraft ∧ q2.filter = .Aircraft ∧
      q1.coalition = c.coalition ∧ q2.coalition = c.hostileCoalition ∧
      friendly = c.scope.FindNearbyGroupsWithBullseye q1 ∧
      hostile = c.scope.FindNearbyGroupsWithBullseye q2 := by
  obtain ⟨logged, aoi, ha, hs, _, ho⟩ := HandleDeclare_of_lookup_some d c request found trackfile h
  refine ⟨aoi,
    GroupQuery.mk aoi (request.Altitude - 5000 * d.Foot) (request.Altitude + 5000 * d.Foot)
      (7 * d.NauticalMile) c.coalition .Aircraft,
    GroupQuery.mk aoi (request.Altitude - 5000 * d.Foot) (request.Altitude + 5000 * d.Foot)
      (7 * d.NauticalMile) c.hostileCoalition .Aircraft,
    _, _, by rw [ha], ?_, rfl, rfl, rfl, rfl, rfl, rfl, rfl, rfl, rfl, rfl, rfl, rfl, rfl, rfl⟩
  rw [ho]
  simp only [Outcome.searches, List.filterMap_cons, Event.searchResult, List.filterMap_append,
    hs, List.nil_append, List.filterMap_nil]

/-- The two searches on the request of "freedom 3 1": around the point at bearing 125 and
18520 m from the requestor, band 1476 to 4524, radius 12964. -/
theorem HandleDeclare_two_searches_witness :
    Event.findCallsign freedomRequest.Callsign (blueController twoFriendly).coalition
        "freedom 31" (some (mkTrack 7 0 8000))
      ∈ (HandleDeclare flatDeps (blueController twoFriendly) freedomRequest).events ∧
    ∃ aoi q1 q2 friendly hostile,
      (declareArea flatDeps (blueController twoFriendly) freedomRequest (mkTrack 7 0 8000)).2
        = .ok aoi ∧
      (HandleDeclare flatDeps (blueController twoFriendly) freedomRequest).searches
        = [(q1, friendly), (q2, hostile)] ∧
      q1.origin = aoi ∧ q2.origin = aoi ∧
      q1.minAltitude = freedomRequest.Altitude - 5000 * flatDeps.Foot ∧
      q2.minAltitude = freedomRequest.Altitude - 5000 * flatDeps.Foot ∧
      q1.maxAltitude = freedomRequest.Altitude + 5000 * flatDeps.Foot ∧
      q2.maxAltitude = freedomRequest.Altitude + 5000 * flatDeps.Foot ∧
      q1.radius = 7 * flatDeps.NauticalMile ∧ q2.radius = 7 * flatDeps.NauticalMile ∧
      q1.filter = .Aircraft ∧ q2.filter = .Aircraft ∧
      q1.coalition = (blueController twoFriendly).coalition ∧
      q2.coalition = (blueController twoFriendly).hostileCoalition ∧
      friendly = (blueController twoFriendly).scope.FindNearbyGroupsWithBullseye q1 ∧
      hostile = (blueController twoFriendly).scope.FindNearbyGroupsWithBullseye q2 :=
  ⟨HandleDeclare_freedom_lookup,
    HandleDeclare_two_searches flatDeps (blueController twoFriendly) freedomRequest "freedom 31"
      (mkTrack 7 0 8000) HandleDeclare_freedom_lookup⟩

/-- C11 (the code at the failing input). The bullseye request of the known callsign
"freedom 3 1" with a `nil` bullseye bearing: the callsign is resolvable, the lookup
returning the callsign "freedom 31" and a trackfile, but `HandleDeclare` reads the bearing
at line 24 to fill the logger and ends there with a nil dereference.  The call has no
event: no group search is made, neither for the coalition of the controller nor for the
hostile one.  The BRAA request of the same callsign with a `nil` bearing ends the same way
at line 19. -/
theorem HandleDeclare_nil_bearing_no_search (groups : GroupQuery → List Group) :
    (blueController groups).scope.FindCallsign nilBullseyeRequest.Callsign
        (blueController groups).coalition = ("freedom 31", some (mkTrack 7 0 8000)) ∧
    HandleDeclare flatDeps (blueController groups) nilBullseyeRequest =
      { events := [], fault := some .nilDereference, friendlyGroups := [],
        hostileGroups := [] } ∧
    (HandleDeclare flatDeps (blueController groups) nilBullseyeRequest).searches = [] ∧
    (blueController groups).scope.FindCallsign nilBraaRequest.Callsign
        (blueController groups).coalition = ("freedom 31", some (mkTrack 7 0 8000)) ∧
    HandleDeclare flatDeps (blueController groups) nilBraaRequest =
      { events := [], fault := some .nilDereference, friendlyGroups := [],
        hostileGroups := [] } ∧
    (HandleDeclare flatDeps (blueController groups) nilBraaRequest).searches = [] := by
  refine ⟨?_, ?_, ?_, ?_, ?_, ?_⟩
  · simp [blueController, flatRadar, nilBullseyeRequest]
  · simp [HandleDeclare, nilBullseyeRequest]
  · simp [HandleDeclare, nilBullseyeRequest, Outcome.searches]
  · simp [blueController, flatRadar, nilBraaRequest]
  · simp [HandleDeclare, nilBraaRequest]
  · simp [HandleDeclare, nilBraaRequest, Outcome.searches]

/-- In a call of `HandleDeclare` that reaches the callsign lookup of line 34, the lookup
returning a trackfile, exactly one message is sent on the outbound channel: a declare
response whose callsign is the callsign returned by the lookup.  No negative radar contact
response is sent and the call returns. -/
theorem HandleDeclare_found_response (d : Deps) (c : Controller) (request : DeclareRequest)
    (found : String) (trackfile : Trackfile)
    (h : Event.findCallsign request.Callsign c.coalition found (some trackfile)
      ∈ (HandleDeclare d c request).events) :
    (∃ response, (HandleDeclare d c request).sent = [.DeclareResponse response] ∧
      response.Callsign = found) ∧
    (∀ callsign, Message.NegativeRadarContactResponse callsign
      ∉ (HandleDeclare d c request).sent) ∧
    (HandleDeclare d c request).fault = none := by
  obtain ⟨logged, aoi, ha, _, hm, ho⟩ := HandleDeclare_of_lookup_some d c request found trackfile h
  rw [ho]
  simp only [Outcome.sent, List.filterMap_cons, Event.sentMessage, List.filterMap_append,
    hm, List.nil_append, List.filterMap_nil]
  refine ⟨⟨_, rfl, rfl⟩, ?_, trivial⟩
  intro callsign hmem
  simp at hmem

/-- The response to "freedom 3 1" carries the canonical callsign "freedom 31" of the
lookup. -/
theorem HandleDeclare_found_response_witness :
    Event.findCallsign freedomRequest.Callsign (blueController twoFriendly).coalition
        "freedom 31" (some (mkTrack 7 0 8000))
      ∈ (HandleDeclare flatDeps (blueController twoFriendly) freedomRequest).events ∧
    ((∃ response, (HandleDeclare flatDeps (blueController twoFriendly) freedomRequest).sent
        = [.DeclareResponse response] ∧ response.Callsign = "freedom 31") ∧
    (∀ callsign, Message.NegativeRadarContactResponse callsign
      ∉ (HandleDeclare flatDeps (blueController twoFriendly) freedomRequest).sent) ∧
    (HandleDeclare flatDeps (blueController twoFriendly) freedomRequest).fault = none) :=
  ⟨HandleDeclare_freedom_lookup,
    HandleDeclare_found_response flatDeps (blueController twoFriendly) freedomRequest
      "freedom 31" (mkTrack 7 0 8000) HandleDeclare_freedom_lookup⟩

/-- C12 (the code at the failing input). The bullseye request of the known callsign
"freedom 3 1" with a `nil` bullseye bearing: the callsign lookup returns the callsign
"freedom 31" and a trackfile for it, but `HandleDeclare` reads the bearing at line 24 to
fill the logger and ends there with a nil dereference.  Nothing is sent on the outbound
channel: no declare response, with the canonical callsign or any other, is sent. -/
theorem HandleDeclare_nil_bearing_no_response (groups : GroupQuery → List Group) :
    (blueController groups).scope.FindCallsign nilBullseyeRequest.Callsign
        (blueController groups).coalition = ("freedom 31", some (mkTrack 7 0 8000)) ∧
    (HandleDeclare flatDeps (blueController groups) nilBullseyeRequest).sent = [] ∧
    (∀ response, Message.DeclareResponse response
      ∉ (HandleDeclare flatDeps (blueController groups) nilBullseyeRequest).sent) ∧
    (HandleDeclare flatDeps (blueController groups) nilBullseyeRequest).fault
      = some .nilDereference := by
  refine ⟨?_, ?_, ?_, ?_⟩
  · simp [blueController, flatRadar, nilBullseyeRequest]
  · simp [HandleDeclare, nilBullseyeRequest, Outcome.sent]
  · intro response
    simp [HandleDeclare, nilBullseyeRequest, Outcome.sent]
  · simp [HandleDeclare, nilBullseyeRequest]

/-- C13. In a call of `HandleDeclare` that makes the two searches, with results `friendly`
and `hostile`, the declaration is set on the attached group only.  In the Friendly case
the first friendly group gets the declaration Friendly, which is the classification of
the response, and the other friendly groups are as the search returned them; likewise in
the Hostile case for the first hostile group; in the Clean and Furball cases both lists
are as the searches returned them.  `SetDeclaration` changes no other field of the
group. -/
theorem HandleDeclare_declaration_frame (d : Deps) (c : Controller) (request : DeclareRequest)
    (q1 q2 : GroupQuery) (friendly hostile : List Group)
    (h : (HandleDeclare d c request).searches = [(q1, friendly), (q2, hostile)]) :
    (∀ g rest, friendly = g :: rest → hostile = [] →
      (HandleDeclare d c request).friendlyGroups = SetDeclaration g .Friendly :: rest ∧
      (HandleDeclare d c request).hostileGroups = [] ∧
      ∃ response, (HandleDeclare d c request).sent = [.DeclareResponse response] ∧
        response.Declaration = .Friendly ∧
        response.Group = some (SetDeclaration g response.Declaration)) ∧
    (∀ g rest, friendly = [] → hostile = g :: rest →
      (HandleDeclare d c request).friendlyGroups = [] ∧
      (HandleDeclare d c request).hostileGroups = SetDeclaration g .Hostile :: rest ∧
      ∃ response, (HandleDeclare d c request).sent = [.DeclareResponse response] ∧
        response.Declaration = .Hostile ∧
        response.Group = some (SetDeclaration g response.Declaration)) ∧
    (friendly = [] → hostile = [] →
      (HandleDeclare d c request).friendlyGroups = friendly ∧
      (HandleDeclare d c request).hostileGroups = hostile) ∧
    (friendly ≠ [] → hostile ≠ [] →
      (HandleDeclare d c request).friendlyGroups = friendly ∧
      (HandleDeclare d c request).hostileGroups = hostile) ∧
    (∀ (g : Group) (declaration : Declaration),
      (SetDeclaration g declaration).declaration = declaration ∧
      (SetDeclaration g declaration).contacts = g.contacts ∧
      (SetDeclaration g declaration).braa = g.braa ∧
      (SetDeclaration g declaration).bullseye = g.bullseye ∧
      (SetDeclaration g declaration).aspect = g.aspect ∧
      (SetDeclaration g declaration).isThreat = g.isThreat) := by
  rcases HandleDeclare_cases d c request with ⟨_, ho⟩ | ⟨found1, _, _, ho⟩ |
    ⟨found1, trackfile, logged, aoi, _, _, ha, ho⟩
  · rw [ho] at h
    simp [Outcome.searches] at h
  · rw [ho] at h
    simp [Outcome.searches, Event.searchResult] at h
  · have hlog := declareArea_logged d c request trackfile
    rw [ha] at hlog
    have hn := logged_no_effect logged hlog
    rw [ho] at h
    simp only [Outcome.searches, List.filterMap_cons, Event.searchResult, List.filterMap_append,
      hn.1, List.nil_append, List.filterMap_nil, List.cons.injEq, Prod.mk.injEq, and_true] at h
    obtain ⟨⟨_, hf⟩, ⟨_, hh⟩⟩ := h
    simp only [hf, hh] at ho
    have hsent : (HandleDeclare d c request).sent = [.DeclareResponse
        { Callsign := found1, Declaration := (declareClassify friendly hostile).1,
          Group := derefGroup (declareClassify friendly hostile).2
            (setDeclarationAt (declareClassify friendly hostile).1
              (declareClassify friendly hostile).2 (friendly, hostile)) }] := by
      rw [ho]
      simp only [Outcome.sent, List.filterMap_cons, Event.sentMessage, List.filterMap_append,
        hn.2, List.nil_append, List.filterMap_nil]
    have hfg : (HandleDeclare d c request).friendlyGroups =
        (setDeclarationAt (declareClassify friendly hostile).1
          (declareClassify friendly hostile).2 (friendly, hostile)).1 := by rw [ho]
    have hhg : (HandleDeclare d c request).hostileGroups =
        (setDeclarationAt (declareClassify friendly hostile).1
          (declareClassify friendly hostile).2 (friendly, hostile)).2 := by rw [ho]
    rw [hsent, hfg, hhg]
    refine ⟨?_, ?_, ?_, ?_, ?_⟩
    · intro g rest h1 h2
      subst h1 h2
      simp [declareClassify, derefGroup, setDeclarationAt]
    · intro g rest h1 h2
      subst h1 h2
      simp [declareClassify, derefGroup, setDeclarationAt]
    · intro h1 h2
      subst h1 h2
      simp [declareClassify, setDeclarationAt]
    · intro h1 h2
      have l1 := List.length_pos.2 h1
      have l2 := List.length_pos.2 h2
      have e1 : ¬ friendly.length = 0 := by omega
      have e2 : ¬ hostile.length = 0 := by omega
      simp [declareClassify, setDeclarationAt, l1, l2, e1, e2]
    · intro g declaration
      simp [SetDeclaration]

/-- The frame property on the request of "freedom 3 1" with two blue groups and no red
group: only the first blue group gets the declaration. -/
theorem HandleDeclare_declaration_frame_witness :
    (HandleDeclare flatDeps (blueController twoFriendly) freedomRequest).searches =
      [(freedomQuery .blue, twoFriendly (freedomQuery .blue)),
        (freedomQuery .red, twoFriendly (freedomQuery .red))] ∧
    (HandleDeclare flatDeps (blueController twoFriendly) freedomRequest).friendlyGroups =
      [SetDeclaration (soloGroup (mkTrack 1 20000 8000)) .Friendly,
        soloGroup (mkTrack 2 30000 8000)] ∧
    (HandleDeclare flatDeps (blueController twoFriendly) freedomRequest).hostileGroups = [] :=
  ⟨HandleDeclare_freedom_searches,
    ((HandleDeclare_declaration_frame flatDeps (blueController twoFriendly) freedomRequest
      (freedomQuery .blue) (freedomQuery .red) (twoFriendly (freedomQuery .blue))
      (twoFriendly (freedomQuery .red)) HandleDeclare_freedom_searches).1
      (soloGroup (mkTrack 1 20000 8000)) [soloGroup (mkTrack 2 30000 8000)]
      (by simp [twoFriendly, freedomQuery]) (by simp [twoFriendly, freedomQuery])).1,
    ((HandleDeclare_declaration_frame flatDeps (blueController twoFriendly) freedomRequest
      (freedomQuery .blue) (freedomQuery .red) (twoFriendly (freedomQuery .blue))
      (twoFriendly (freedomQuery .red)) HandleDeclare_freedom_searches).1
      (soloGroup (mkTrack 1 20000 8000)) [soloGroup (mkTrack 2 30000 8000)]
      (by simp [twoFriendly, freedomQuery]) (by simp [twoFriendly, freedomQuery])).2.1⟩

/-- C16 (the code at the failing input). On a bullseye request whose bullseye bearing is
`nil`, `HandleDeclare` faults with a nil dereference in the logger preamble (line 24),
before any event: nothing is logged, no lookup is made and nothing is sent.  Lines 52 to
65 on the same request log the violation (line 57) and then dereference the `nil` bearing
(line 59). -/
theorem HandleDeclare_nil_bullseye_bearing_faults :
    HandleDeclare flatDeps (blueController twoFriendly) nilBullseyeRequest =
      { events := [], fault := some .nilDereference, friendlyGroups := [],
        hostileGroups := [] } ∧
    (HandleDeclare flatDeps (blueController twoFriendly) nilBullseyeRequest).sent = [] ∧
    declareArea flatDeps (blueController twoFriendly) nilBullseyeRequest (mkTrack 7 0 8000) =
      ([.error "request.Bullseye.Bearing() is nil"], .error .nilDereference) := by
  refine ⟨?_, ?_, ?_⟩
  · simp [HandleDeclare, nilBullseyeRequest]
  · simp [HandleDeclare, nilBullseyeRequest, Outcome.sent]
  · simp [declareArea, nilBullseyeRequest]

/-! ## The wedge ring of `FindNearestGroupInSector` -/

/-- The rounded values of the ring loop for the arc 5/4: every one of them is exact. -/
theorem round64_arc_narrow :
    round64 ((5 / 4) / 2) = 5 / 8 ∧
    round64 (-(5 / 4) / 2) = -5 / 8 ∧
    round64 ((5 / 4) / 10) = 1 / 8 ∧
    round64 ((5 / 8) - (1 / 8)) = 1 / 2 ∧
    round64 ((1 / 2) - (1 / 8)) = 3 / 8 ∧
    round64 ((3 / 8) - (1 / 8)) = 1 / 4 ∧
    round64 ((1 / 4) - (1 / 8)) = 1 / 8 ∧
    round64 ((1 / 8) - (1 / 8)) = 0 ∧
    round64 ((0) - (1 / 8)) = -1 / 8 ∧
    round64 ((-1 / 8) - (1 / 8)) = -1 / 4 ∧
    round64 ((-1 / 4) - (1 / 8)) = -3 / 8 ∧
    round64 ((-3 / 8) - (1 / 8)) = -1 / 2 ∧
    round64 ((-1 / 2) - (1 / 8)) = -5 / 8 := by
  have ha : round64 ((5 / 4) / 2) = 5 / 8 := by
    have hq : ((5 / 4) / 2 : ℚ) = 5 / 8 := by norm_num
    rw [hq, round64_pos (5 / 8) (-1) 5629499534213120 (by norm_num) (by norm_num) (by norm_num)
      (by norm_num) (by norm_num)]
    norm_num
  have hb : round64 (-(5 / 4) / 2) = -5 / 8 := by
    have hq : (-(5 / 4) / 2 : ℚ) = -5 / 8 := by norm_num
    rw [hq, round64_neg (-5 / 8) (-1) (-5629499534213120) (by norm_num) (by norm_num) (by norm_num)
      (by norm_num) (by norm_num)]
    norm_num
  have hs : round64 ((5 / 4) / 10) = 1 / 8 := by
    have hq : ((5 / 4) / 10 : ℚ) = 1 / 8 := by norm_num
    rw [hq, round64_pos (1 / 8) (-3) 4503599627370496 (by norm_num) (by norm_num) (by norm_num)
      (by norm_num) (by norm_num)]
    norm_num
  have h0 : round64 ((5 / 8) - (1 / 8)) = 1 / 2 := by
    have hq : ((5 / 8) - (1 / 8) : ℚ) = 1 / 2 := by norm_num
    rw [hq, round64_pos (1 / 2) (-1) 4503599627370496 (by norm_num) (by norm_num) (by norm_num)
      (by norm_num) (by norm_num)]
    norm_num
  have h1 : round64 ((1 / 2) - (1 / 8)) = 3 / 8 := by
    have hq : ((1 / 2) - (1 / 8) : ℚ) = 3 / 8 := by norm_num
    rw [hq, round64_pos (3 / 8) (-2) 6755399441055744 (by norm_num) (by norm_num) (by norm_num)
      (by norm_num) (by norm_num)]
    norm_num
  have h2 : round64 ((3 / 8) - (1 / 8)) = 1 / 4 := by
    have hq : ((3 / 8) - (1 / 8) : ℚ) = 1 / 4 := by norm_num
    rw [hq, round64_pos (1 / 4) (-2) 4503599627370496 (by norm_num) (by norm_num) (by norm_num)
      (by norm_num) (by norm_num)]
    norm_num
  have h3 : round64 ((1 / 4) - (1 / 8)) = 1 / 8 := by
    have hq : ((1 / 4) - (1 / 8) : ℚ) = 1 / 8 := by norm_num
    rw [hq, round64_pos (1 / 8) (-3) 4503599627370496 (by norm_num) (by norm_num) (by norm_num)
      (by norm_num) (by norm_num)]
    norm_num
  have h4 : round64 ((1 / 8) - (1 / 8)) = 0 := by
    have hq : ((1 / 8) - (1 / 8) : ℚ) = 0 := by norm_num
    rw [hq, round64_zero]
  have h5 : round64 ((0) - (1 / 8)) = -1 / 8 := by
    have hq : ((0) - (1 / 8) : ℚ) = -1 / 8 := by norm_num
    rw [hq, round64_neg (-1 / 8) (-3) (-4503599627370496) (by norm_num) (by norm_num) (by norm_num)
      (by norm_num) (by norm_num)]
    norm_num
  have h6 : round64 ((-1 / 8) - (1 / 8)) = -1 / 4 := by
    have hq : ((-1 / 8) - (1 / 8) : ℚ) = -1 / 4 := by norm_num
    rw [hq, round64_neg (-1 / 4) (-2) (-4503599627370496) (by norm_num) (by norm_num) (by norm_num)
      (by norm_num) (by norm_num)]
    norm_num
  have h7 : round64 ((-1 / 4) - (1 / 8)) = -3 / 8 := by
    have hq : ((-1 / 4) - (1 / 8) : ℚ) = -3 / 8 := by norm_num
    rw [hq, round64_neg (-3 / 8) (-2) (-6755399441055744) (by norm_num) (by norm_num) (by norm_num)
      (by norm_num) (by norm_num)]
    norm_num
  have h8 : round64 ((-3 / 8) - (1 / 8)) = -1 / 2 := by
    have hq : ((-3 / 8) - (1 / 8) : ℚ) = -1 / 2 := by norm_num
    rw [hq, round64_neg (-1 / 2) (-1) (-4503599627370496) (by norm_num) (by norm_num) (by norm_num)
      (by norm_num) (by norm_num)]
    norm_num
  have h9 : round64 ((-1 / 2) - (1 / 8)) = -5 / 8 := by
    have hq : ((-1 / 2) - (1 / 8) : ℚ) = -5 / 8 := by norm_num
    rw [hq, round64_neg (-5 / 8) (-1) (-5629499534213120) (by norm_num) (by norm_num) (by norm_num)
      (by norm_num) (by norm_num)]
    norm_num
  exact ⟨ha, hb, hs, h0, h1, h2, h3, h4, h5, h6, h7, h8, h9⟩

/-- For the arc 5/4 the ring has the ten samples at 5/8, 1/2, ..., -1/2 on either side of
the bearing, in every environment. -/
theorem sectorRing_arc_narrow (d : Deps) (fuel : Nat) (origin : Point) (bearing : Bearing) (length : ℚ)
    (hf : 11 ≤ fuel) :
    sectorRing d fuel origin bearing length (5 / 4) =
      some (origin :: [5 / 8, 1 / 2, 3 / 8, 1 / 4, 1 / 8, 0, -1 / 8, -1 / 4, -3 / 8, -1 / 2].map
        (sectorVertex d origin bearing length) ++ [origin]) := by
  obtain ⟨ha, hb, hs, h0, h1, h2, h3, h4, h5, h6, h7, h8, h9⟩ := round64_arc_narrow
  have h := sectorRing_trace d fuel origin bearing length (5 / 4) (5 / 8) (-5 / 8) (1 / 8) (-5 / 8)
    [1 / 2, 3 / 8, 1 / 4, 1 / 8, 0, -1 / 8, -1 / 4, -3 / 8, -1 / 2, -5 / 8] ha hb hs
    (List.Chain.cons ⟨by norm_num, h0⟩
      (List.Chain.cons ⟨by norm_num, h1⟩
      (List.Chain.cons ⟨by norm_num, h2⟩
      (List.Chain.cons ⟨by norm_num, h3⟩
      (List.Chain.cons ⟨by norm_num, h4⟩
      (List.Chain.cons ⟨by norm_num, h5⟩
      (List.Chain.cons ⟨by norm_num, h6⟩
      (List.Chain.cons ⟨by norm_num, h7⟩
      (List.Chain.cons ⟨by norm_num, h8⟩
      (List.Chain.cons ⟨by norm_num, h9⟩
      (List.Chain.nil)))))))))))
    (by simp) (by norm_num) (by simp only [List.length_cons, List.length_nil]; omega)
  rw [h]
  rfl

/-- The sample values of the arc 5/4 are values of `float64`. -/
theorem round64_arc_narrow_samples :
    round64 (5 / 8) = 5 / 8 ∧
    round64 (1 / 2) = 1 / 2 ∧
    round64 (3 / 8) = 3 / 8 ∧
    round64 (1 / 4) = 1 / 4 ∧
    round64 (1 / 8) = 1 / 8 ∧
    round64 (-1 / 8) = -1 / 8 ∧
    round64 (-1 / 4) = -1 / 4 ∧
    round64 (-3 / 8) = -3 / 8 ∧
    round64 (-1 / 2) = -1 / 2 := by
  have r0 : round64 (5 / 8) = 5 / 8 := by
    have hq : (5 / 8 : ℚ) = 5 / 8 := by norm_num
    rw [hq, round64_pos (5 / 8) (-1) 5629499534213120 (by norm_num) (by norm_num) (by norm_num)
      (by norm_num) (by norm_num)]
    norm_num
  have r1 : round64 (1 / 2) = 1 / 2 := by
    have hq : (1 / 2 : ℚ) = 1 / 2 := by norm_num
    rw [hq, round64_pos (1 / 2) (-1) 4503599627370496 (by norm_num) (by norm_num) (by norm_num)
      (by norm_num) (by norm_num)]
    norm_num
  have r2 : round64 (3 / 8) = 3 / 8 := by
    have hq : (3 / 8 : ℚ) = 3 / 8 := by norm_num
    rw [hq, round64_pos (3 / 8) (-2) 6755399441055744 (by norm_num) (by norm_num) (by norm_num)
      (by norm_num) (by norm_num)]
    norm_num
  have r3 : round64 (1 / 4) = 1 / 4 := by
    have hq : (1 / 4 : ℚ) = 1 / 4 := by norm_num
    rw [hq, round64_pos (1 / 4) (-2) 4503599627370496 (by norm_num) (by norm_num) (by norm_num)
      (by norm_num) (by norm_num)]
    norm_num
  have r4 : round64 (1 / 8) = 1 / 8 := by
    have hq : (1 / 8 : ℚ) = 1 / 8 := by norm_num
    rw [hq, round64_pos (1 / 8) (-3) 4503599627370496 (by norm_num) (by norm_num) (by norm_num)
      (by norm_num) (by norm_num)]
    norm_num
  have r5 : round64 (-1 / 8) = -1 / 8 := by
    have hq : (-1 / 8 : ℚ) = -1 / 8 := by norm_num
    rw [hq, round64_neg (-1 / 8) (-3) (-4503599627370496) (by norm_num) (by norm_num) (by norm_num)
      (by norm_num) (by norm_num)]
    norm_num
  have r6 : round64 (-1 / 4) = -1 / 4 := by
    have hq : (-1 / 4 : ℚ) = -1 / 4 := by norm_num
    rw [hq, round64_neg (-1 / 4) (-2) (-4503599627370496) (by norm_num) (by norm_num) (by norm_num)
      (by norm_num) (by norm_num)]
    norm_num
  have r7 : round64 (-3 / 8) = -3 / 8 := by
    have hq : (-3 / 8 : ℚ) = -3 / 8 := by norm_num
    rw [hq, round64_neg (-3 / 8) (-2) (-6755399441055744) (by norm_num) (by norm_num) (by norm_num)
      (by norm_num) (by norm_num)]
    norm_num
  have r8 : round64 (-1 / 2) = -1 / 2 := by
    have hq : (-1 / 2 : ℚ) = -1 / 2 := by norm_num
    rw [hq, round64_neg (-1 / 2) (-1) (-4503599627370496) (by norm_num) (by norm_num) (by norm_num)
      (by norm_num) (by norm_num)]
    norm_num
  exact ⟨r0, r1, r2, r3, r4, r5, r6, r7, r8⟩

/-- In the test environment the ring of the sector with arc 5/4 around bearing 000 is
`narrowRing`. -/
theorem sectorRing_narrow :
    sectorRing flatDeps 11 origin0 north 50000 (5 / 4) = some narrowRing := by
  rw [sectorRing_arc_narrow flatDeps 11 origin0 north 50000 (le_refl 11)]
  have hv : ∀ a, round64 a = a → sectorVertex flatDeps origin0 north 50000 a
      = { lon := a, lat := 50000 } := by
    intro a h
    simp [sectorVertex, flatDeps, north, origin0, Degrees, Meters, h]
  obtain ⟨r0, r1, r2, r3, r4, r5, r6, r7, r8⟩ := round64_arc_narrow_samples
  simp only [List.map_cons, List.map_nil]
  rw [hv (5 / 8) r0,
    hv (1 / 2) r1,
    hv (3 / 8) r2,
    hv (1 / 4) r3,
    hv (1 / 8) r4,
    hv 0 round64_zero,
    hv (-1 / 8) r5,
    hv (-1 / 4) r6,
    hv (-3 / 8) r7,
    hv (-1 / 2) r8]
  rfl

/-- C15 (the code at the failing input). For the arc 5/4 around bearing 000 the ring is
closed and its ten samples are spaced by 1/8 from the upper end 5/8 of the arc down to
-1/2: the vertex at the upper end bearing is in the ring, the vertex at the lower end
bearing -5/8 is not.  The loop condition `a > -arc/2` is strict, so the loop stops one
step of `arc / 10` above the lower end. -/
theorem sectorRing_misses_lower_end :
    sectorRing flatDeps 11 origin0 north 50000 (5 / 4) = some narrowRing ∧
    narrowRing.head? = some origin0 ∧ narrowRing.getLast? = some origin0 ∧
    flatDeps.geoPointAtBearingAndDistance origin0
        (Degrees flatDeps (north.value + 5 / 4 / 2)) (Meters 50000) ∈ narrowRing ∧
    flatDeps.geoPointAtBearingAndDistance origin0
        (Degrees flatDeps (north.value - 5 / 4 / 2)) (Meters 50000) ∉ narrowRing := by
  refine ⟨sectorRing_narrow, ?_, ?_, ?_, ?_⟩
  · simp [narrowRing, origin0]
  · simp [narrowRing, origin0]
  · simp [narrowRing, flatDeps, origin0, north, Degrees, Meters]
    norm_num
  · simp [narrowRing, flatDeps, origin0, north, Degrees, Meters]
    norm_num

/-! ## The number of samples of the wedge ring -/

/-- The rounded values of the ring loop for the arc `tenDegrees`: the half arc, the lower
bound, the step, and the value of the loop variable after each of eleven steps. -/
theorem round64_tenDegrees :
    round64 ((tenDegrees) / 2) = 6288211335136391 / 72057594037927936 ∧
    round64 (-(tenDegrees) / 2) = -6288211335136391 / 72057594037927936 ∧
    round64 ((tenDegrees) / 10) = 5030569068109113 / 288230376151711744 ∧
    round64 ((6288211335136391 / 72057594037927936) - (5030569068109113 / 288230376151711744)) = 5030569068109113 / 72057594037927936 ∧
    round64 ((5030569068109113 / 72057594037927936) - (5030569068109113 / 288230376151711744)) = 3772926801081835 / 72057594037927936 ∧
    round64 ((3772926801081835 / 72057594037927936) - (5030569068109113 / 288230376151711744)) = 2515284534054557 / 72057594037927936 ∧
    round64 ((2515284534054557 / 72057594037927936) - (5030569068109113 / 288230376151711744)) = 5030569068109115 / 288230376151711744 ∧
    round64 ((5030569068109115 / 288230376151711744) - (5030569068109113 / 288230376151711744)) = 1 / 144115188075855872 ∧
    round64 ((1 / 144115188075855872) - (5030569068109113 / 288230376151711744)) = -5030569068109111 / 288230376151711744 ∧
    round64 ((-5030569068109111 / 288230376151711744) - (5030569068109113 / 288230376151711744)) = -628821133513639 / 18014398509481984 ∧
    round64 ((-628821133513639 / 18014398509481984) - (5030569068109113 / 288230376151711744)) = -1886463400540917 / 36028797018963968 ∧
    round64 ((-1886463400540917 / 36028797018963968) - (5030569068109113 / 288230376151711744)) = -628821133513639 / 9007199254740992 ∧
    round64 ((-628821133513639 / 9007199254740992) - (5030569068109113 / 288230376151711744)) = -3144105667568195 / 36028797018963968 ∧
    round64 ((-3144105667568195 / 36028797018963968) - (5030569068109113 / 288230376151711744)) = -1886463400540917 / 18014398509481984 := by
  have ha : round64 ((tenDegrees) / 2) = 6288211335136391 / 72057594037927936 := by
    have hq : ((tenDegrees) / 2 : ℚ) = 6288211335136391 / 72057594037927936 := by norm_num [tenDegrees]
    rw [hq, round64_pos (6288211335136391 / 72057594037927936) (-4) 6288211335136391 (by norm_num) (by norm_num) (by norm_num)
      (by norm_num) (by norm_num)]
    norm_num
  have hb : round64 (-(tenDegrees) / 2) = -6288211335136391 / 72057594037927936 := by
    have hq : (-(tenDegrees) / 2 : ℚ) = -6288211335136391 / 72057594037927936 := by norm_num [tenDegrees]
    rw [hq, round64_neg (-6288211335136391 / 72057594037927936) (-4) (-6288211335136391) (by norm_num) (by norm_num) (by norm_num)
      (by norm_num) (by norm_num)]
    norm_num
  have hs : round64 ((tenDegrees) / 10) = 5030569068109113 / 288230376151711744 := by
    have hq : ((tenDegrees) / 10 : ℚ) = 6288211335136391 / 360287970189639680 := by norm_num [tenDegrees]
    rw [hq, round64_pos (6288211335136391 / 360287970189639680) (-6) 5030569068109113 (by norm_num) (by norm_num) (by norm_num)
      (by norm_num) (by norm_num)]
    norm_num
  have h0 : round64 ((6288211335136391 / 72057594037927936) - (5030569068109113 / 288230376151711744)) = 5030569068109113 / 72057594037927936 := by
    have hq : ((6288211335136391 / 72057594037927936) - (5030569068109113 / 288230376151711744) : ℚ) = 20122276272436451 / 288230376151711744 := by norm_num
    rw [hq, round64_pos (20122276272436451 / 288230376151711744) (-4) 5030569068109113 (by norm_num) (by norm_num) (by norm_num)
      (by norm_num) (by norm_num)]
    norm_num
  have h1 : round64 ((5030569068109113 / 72057594037927936) - (5030569068109113 / 288230376151711744)) = 3772926801081835 / 72057594037927936 := by
    have hq : ((5030569068109113 / 72057594037927936) - (5030569068109113 / 288230376151711744) : ℚ) = 15091707204327339 / 288230376151711744 := by norm_num
    rw [hq, round64_pos_tie (15091707204327339 / 288230376151711744) (-5) 7545853602163670 (by norm_num) (by norm_num) (by norm_num)
      (by norm_num) (Or.inr (by norm_num))]
    norm_num
  have h2 : round64 ((3772926801081835 / 72057594037927936) - (5030569068109113 / 288230376151711744)) = 2515284534054557 / 72057594037927936 := by
    have hq : ((3772926801081835 / 72057594037927936) - (5030569068109113 / 288230376151711744) : ℚ) = 10061138136218227 / 288230376151711744 := by norm_num
    rw [hq, round64_pos_tie (10061138136218227 / 288230376151711744) (-5) 5030569068109114 (by norm_num) (by norm_num) (by norm_num)
      (by norm_num) (Or.inr (by norm_num))]
    norm_num
  have h3 : round64 ((2515284534054557 / 72057594037927936) - (5030569068109113 / 288230376151711744)) = 5030569068109115 / 288230376151711744 := by
    have hq : ((2515284534054557 / 72057594037927936) - (5030569068109113 / 288230376151711744) : ℚ) = 5030569068109115 / 288230376151711744 := by norm_num
    rw [hq, round64_pos (5030569068109115 / 288230376151711744) (-6) 5030569068109115 (by norm_num) (by norm_num) (by norm_num)
      (by norm_num) (by norm_num)]
    norm_num
  have h4 : round64 ((5030569068109115 / 288230376151711744) - (5030569068109113 / 288230376151711744)) = 1 / 144115188075855872 := by
    have hq : ((5030569068109115 / 288230376151711744) - (5030569068109113 / 288230376151711744) : ℚ) = 1 / 144115188075855872 := by norm_num
    rw [hq, round64_pos (1 / 144115188075855872) (-57) 4503599627370496 (by norm_num) (by norm_num) (by norm_num)
      (by norm_num) (by norm_num)]
    norm_num
  have h5 : round64 ((1 / 144115188075855872) - (5030569068109113 / 288230376151711744)) = -5030569068109111 / 288230376151711744 := by
    have hq : ((1 / 144115188075855872) - (5030569068109113 / 288230376151711744) : ℚ) = -5030569068109111 / 288230376151711744 := by norm_num
    rw [hq, round64_neg (-5030569068109111 / 288230376151711744) (-6) (-5030569068109111) (by norm_num) (by norm_num) (by norm_num)
      (by norm_num) (by norm_num)]
    norm_num
  have h6 : round64 ((-5030569068109111 / 288230376151711744) - (5030569068109113 / 288230376151711744)) = -628821133513639 / 18014398509481984 := by
    have hq : ((-5030569068109111 / 288230376151711744) - (5030569068109113 / 288230376151711744) : ℚ) = -628821133513639 / 18014398509481984 := by norm_num
    rw [hq, round64_neg (-628821133513639 / 18014398509481984) (-5) (-5030569068109112) (by norm_num) (by norm_num) (by norm_num)
      (by norm_num) (by norm_num)]
    norm_num
  have h7 : round64 ((-628821133513639 / 18014398509481984) - (5030569068109113 / 288230376151711744)) = -1886463400540917 / 36028797018963968 := by
    have hq : ((-628821133513639 / 18014398509481984) - (5030569068109113 / 288230376151711744) : ℚ) = -15091707204327337 / 288230376151711744 := by norm_num
    rw [hq, round64_neg_tie (-15091707204327337 / 288230376151711744) (-5) (-7545853602163668) (by norm_num) (by norm_num) (by norm_num)
      (by norm_num) (Or.inr (by norm_num))]
    norm_num
  have h8 : round64 ((-1886463400540917 / 36028797018963968) - (5030569068109113 / 288230376151711744)) = -628821133513639 / 9007199254740992 := by
    have hq : ((-1886463400540917 / 36028797018963968) - (5030569068109113 / 288230376151711744) : ℚ) = -20122276272436449 / 288230376151711744 := by norm_num
    rw [hq, round64_neg (-20122276272436449 / 288230376151711744) (-4) (-5030569068109112) (by norm_num) (by norm_num) (by norm_num)
      (by norm_num) (by norm_num)]
    norm_num
  have h9 : round64 ((-628821133513639 / 9007199254740992) - (5030569068109113 / 288230376151711744)) = -3144105667568195 / 36028797018963968 := by
    have hq : ((-628821133513639 / 9007199254740992) - (5030569068109113 / 288230376151711744) : ℚ) = -25152845340545561 / 288230376151711744 := by norm_num
    rw [hq, round64_neg (-25152845340545561 / 288230376151711744) (-4) (-6288211335136390) (by norm_num) (by norm_num) (by norm_num)
      (by norm_num) (by norm_num)]
    norm_num
  have h10 : round64 ((-3144105667568195 / 36028797018963968) - (5030569068109113 / 288230376151711744)) = -1886463400540917 / 18014398509481984 := by
    have hq : ((-3144105667568195 / 36028797018963968) - (5030569068109113 / 288230376151711744) : ℚ) = -30183414408654673 / 288230376151711744 := by norm_num
    rw [hq, round64_neg (-30183414408654673 / 288230376151711744) (-4) (-7545853602163668) (by norm_num) (by norm_num) (by norm_num)
      (by norm_num) (by norm_num)]
    norm_num
  exact ⟨ha, hb, hs, h0, h1, h2, h3, h4, h5, h6, h7, h8, h9, h10⟩

/-- For the arc `tenDegrees` the ring loop takes eleven samples, in every environment. -/
theorem sectorRing_tenDegrees (d : Deps) (fuel : Nat) (origin : Point) (bearing : Bearing) (length : ℚ)
    (hf : 12 ≤ fuel) :
    sectorRing d fuel origin bearing length (tenDegrees) =
      some (origin :: tenDegreesSamples.map
        (sectorVertex d origin bearing length) ++ [origin]) := by
  obtain ⟨ha, hb, hs, h0, h1, h2, h3, h4, h5, h6, h7, h8, h9, h10⟩ := round64_tenDegrees
  have h := sectorRing_trace d fuel origin bearing length (tenDegrees) (6288211335136391 / 72057594037927936) (-6288211335136391 / 72057594037927936) (5030569068109113 / 288230376151711744) (-1886463400540917 / 18014398509481984)
    [5030569068109113 / 72057594037927936, 3772926801081835 / 72057594037927936, 2515284534054557 / 72057594037927936, 5030569068109115 / 288230376151711744, 1 / 144115188075855872, -5030569068109111 / 288230376151711744, -628821133513639 / 18014398509481984, -1886463400540917 / 36028797018963968, -628821133513639 / 9007199254740992, -3144105667568195 / 36028797018963968, -1886463400540917 / 18014398509481984] ha hb hs
    (List.Chain.cons ⟨by norm_num, h0⟩
      (List.Chain.cons ⟨by norm_num, h1⟩
      (List.Chain.cons ⟨by norm_num, h2⟩
      (List.Chain.cons ⟨by norm_num, h3⟩
      (List.Chain.cons ⟨by norm_num, h4⟩
      (List.Chain.cons ⟨by norm_num, h5⟩
      (List.Chain.cons ⟨by norm_num, h6⟩
      (List.Chain.cons ⟨by norm_num, h7⟩
      (List.Chain.cons ⟨by norm_num, h8⟩
      (List.Chain.cons ⟨by norm_num, h9⟩
      (List.Chain.cons ⟨by norm_num, h10⟩
      (List.Chain.nil))))))))))))
    (by simp) (by norm_num) (by simp only [List.length_cons, List.length_nil]; omega)
  rw [h]
  rfl

/-- For the arc `tenDegrees` fuel 11 is not enough: the eleventh value of the loop variable
still passes the loop condition. -/
theorem sectorRing_tenDegrees_fuel (d : Deps) (origin : Point) (bearing : Bearing) (length : ℚ) :
    sectorRing d 11 origin bearing length tenDegrees = none := by
  obtain ⟨ha, hb, hs, h0, h1, h2, h3, h4, h5, h6, h7, h8, h9, h10⟩ := round64_tenDegrees
  have h := sectorLoop_fuel_out d origin bearing length tenDegrees (-6288211335136391 / 72057594037927936) (5030569068109113 / 288230376151711744) hb hs
    [5030569068109113 / 72057594037927936, 3772926801081835 / 72057594037927936, 2515284534054557 / 72057594037927936, 5030569068109115 / 288230376151711744, 1 / 144115188075855872, -5030569068109111 / 288230376151711744, -628821133513639 / 18014398509481984, -1886463400540917 / 36028797018963968, -628821133513639 / 9007199254740992, -3144105667568195 / 36028797018963968] (6288211335136391 / 72057594037927936) 11 [origin]
    (List.Chain.cons ⟨by norm_num, h0⟩
      (List.Chain.cons ⟨by norm_num, h1⟩
      (List.Chain.cons ⟨by norm_num, h2⟩
      (List.Chain.cons ⟨by norm_num, h3⟩
      (List.Chain.cons ⟨by norm_num, h4⟩
      (List.Chain.cons ⟨by norm_num, h5⟩
      (List.Chain.cons ⟨by norm_num, h6⟩
      (List.Chain.cons ⟨by norm_num, h7⟩
      (List.Chain.cons ⟨by norm_num, h8⟩
      (List.Chain.cons ⟨by norm_num, h9⟩
      (List.Chain.nil)))))))))))
    (by
      intro x hx
      simp only [List.mem_cons, List.mem_singleton, List.not_mem_nil, or_false] at hx
      rcases hx with rfl | rfl | rfl | rfl | rfl | rfl | rfl | rfl | rfl | rfl | rfl <;> norm_num)
    (by simp)
  rw [sectorRing, ha, h]
  rfl

/-- The rounded values of the ring loop for the arc `tinyArc`: the half arc is the
smallest positive `float64`, the step `tinyArc / 10` is rounded to zero, and the
subtraction of the step leaves the loop variable as it is. -/
theorem round64_tinyArc :
    round64 (tinyArc / 2) = 2 ^ (-1074 : ℤ) ∧
    round64 (-tinyArc / 2) = -2 ^ (-1074 : ℤ) ∧
    round64 (tinyArc / 10) = 0 ∧
    round64 (2 ^ (-1074 : ℤ) - 0) = 2 ^ (-1074 : ℤ) := by
  have hu : (0 : ℚ) < 2 ^ (-1074 : ℤ) := by positivity
  have hlt : (2 : ℚ) ^ (-1074 : ℤ) < 2 ^ (-1022 : ℤ) :=
    zpow_lt_zpow_right₀ (by norm_num) (by norm_num)
  have ht : tinyArc = 2 * 2 ^ (-1074 : ℤ) := by
    have h : (-1073 : ℤ) = 1 + -1074 := by norm_num
    rw [tinyArc, h, zpow_add₀ (by norm_num : (2 : ℚ) ≠ 0)]
    norm_num
  have h1 : round64 (2 ^ (-1074 : ℤ)) = 2 ^ (-1074 : ℤ) := by
    rw [round64_subnormal (2 ^ (-1074 : ℤ)) 1 (ne_of_gt hu) (by rw [abs_of_pos hu]; exact hlt)
      (by rw [div_self (ne_of_gt hu)]; norm_num) (by rw [div_self (ne_of_gt hu)]; norm_num)]
    norm_num
  have h2 : round64 (-2 ^ (-1074 : ℤ)) = -2 ^ (-1074 : ℤ) := by
    rw [round64_subnormal (-2 ^ (-1074 : ℤ)) (-1) (by linarith)
      (by rw [abs_neg, abs_of_pos hu]; exact hlt)
      (by rw [neg_div, div_self (ne_of_gt hu)]; norm_num)
      (by rw [neg_div, div_self (ne_of_gt hu)]; norm_num)]
    norm_num
  have h3 : round64 (2 * 2 ^ (-1074 : ℤ) / 10) = 0 := by
    have hq : (2 : ℚ) * 2 ^ (-1074 : ℤ) / 10 / 2 ^ (-1074 : ℤ) = 1 / 5 := by
      field_simp
      ring
    rw [round64_subnormal (2 * 2 ^ (-1074 : ℤ) / 10) 0 (by positivity)
      (by rw [abs_of_pos (by positivity)]; linarith)
      (by rw [hq]; norm_num) (by rw [hq]; norm_num)]
    norm_num
  refine ⟨?_, ?_, ?_, ?_⟩
  · have : tinyArc / 2 = 2 ^ (-1074 : ℤ) := by
      rw [ht]
      ring
    rw [this, h1]
  · have : -tinyArc / 2 = -2 ^ (-1074 : ℤ) := by
      rw [ht]
      ring
    rw [this, h2]
  · rw [ht, h3]
  · rw [sub_zero, h1]

/-- For the arc `tinyArc` the ring loop never ends: whatever the fuel, it runs out. -/
theorem sectorLoop_tinyArc (d : Deps) (origin : Point) (bearing : Bearing) (length : ℚ) :
    ∀ (fuel : Nat) (ring : List Point),
      sectorLoop d origin bearing length tinyArc fuel (2 ^ (-1074 : ℤ)) ring = none := by
  obtain ⟨_, hb, hs, hn⟩ := round64_tinyArc
  have hu : (0 : ℚ) < 2 ^ (-1074 : ℤ) := by positivity
  have hpass : (2 : ℚ) ^ (-1074 : ℤ) > -2 ^ (-1074 : ℤ) := by linarith
  intro fuel
  induction fuel with
  | zero =>
    intro ring
    rfl
  | succ f ih =>
    intro ring
    rw [sectorLoop, hb, hs, if_pos hpass, hn]
    exact ih _

/-- For the arc `tinyArc` the ring is never built, whatever the fuel. -/
theorem sectorRing_tinyArc (d : Deps) (fuel : Nat) (origin : Point) (bearing : Bearing)
    (length : ℚ) : sectorRing d fuel origin bearing length tinyArc = none := by
  rw [sectorRing, round64_tinyArc.1, sectorLoop_tinyArc]
  rfl

/-- C20 (the code at the failing input). For the arc `tenDegrees`, the `float64` value of
`10 * unit.Degree`, the loop of line 134 takes eleven samples, not ten: after ten
subtractions of the rounded step the loop variable is -0.08726646259971646, one unit in
the last place above the bound -0.08726646259971647, so the loop condition holds once
more.  The ring has thirteen vertices, and fuel 11 does not suffice.  For the arc 60 the
same loop takes ten samples and the ring has twelve vertices, so the number of samples
depends on the arc.  For the arc `tinyArc` the step `arc / 10` is rounded to zero, the
loop variable never changes and the loop does not end, whatever the fuel. -/
theorem sectorRing_subdivision_varies (d : Deps) (fuel : Nat) (origin : Point)
    (bearing : Bearing) (length : ℚ) :
    sectorRing d (fuel + 12) origin bearing length tenDegrees =
      some (origin :: tenDegreesSamples.map (sectorVertex d origin bearing length)
        ++ [origin]) ∧
    tenDegreesSamples.length = 11 ∧
    (origin :: tenDegreesSamples.map (sectorVertex d origin bearing length)
      ++ [origin]).length = 13 ∧
    sectorRing d 11 origin bearing length tenDegrees = none ∧
    sectorRing d (fuel + 12) origin bearing length 60 =
      some (origin :: [30, 24, 18, 12, 6, 0, -6, -12, -18, -24].map
        (sectorVertex d origin bearing length) ++ [origin]) ∧
    (origin :: ([30, 24, 18, 12, 6, 0, -6, -12, -18, -24] : List ℚ).map
      (sectorVertex d origin bearing length) ++ [origin]).length = 12 ∧
    sectorRing d fuel origin bearing length tinyArc = none := by
  refine ⟨sectorRing_tenDegrees d (fuel + 12) origin bearing length (by omega), rfl, rfl,
    sectorRing_tenDegrees_fuel d origin bearing length,
    sectorRing_arc60 d (fuel + 12) origin bearing length (by omega), rfl,
    sectorRing_tinyArc d fuel origin bearing length⟩

/-! ## Absent results of the group searches -/

/-- C14. `FindNearestGroupWithBRAA` returns absent iff `FindNearestTrackfile` finds no
trackfile or the group lookup yields no group for the trackfile found.
`FindNearestGroupInSector` returns absent iff no trackfile passes its selection or the
group lookup yields no group for the selected trackfile; it returns a result whenever the
ring loop ends, and with fuel 12 or more it does for every arc that is not positive or is
at least `2 ^ (-1018)`.  An absent result is returned before any field of a group is assigned: whenever
the lookup yields a group, the search returns a group. -/
theorem nearest_group_absent_iff (d : Deps) (s : Scope) (fuel : Nat) (origin : Point)
    (minAltitude maxAltitude radius length : ℚ) (bearing : Bearing) (arc : ℚ)
    (coalition : Coalition) (filter : ContactCategory) :
    (FindNearestGroupWithBRAA d s origin minAltitude maxAltitude radius coalition filter = none ↔
      (FindNearestTrackfile d s origin minAltitude maxAltitude radius coalition filter = none ∨
        ∃ t, FindNearestTrackfile d s origin minAltitude maxAltitude radius coalition filter
          = some t ∧ s.findGroupForAircraft t = none)) ∧
    (FindNearestGroupInSector d s fuel origin minAltitude maxAltitude length bearing arc
        coalition filter = some none ↔
      (sectorNearestContact d s fuel origin minAltitude maxAltitude length bearing arc
          coalition filter = some none ∨
        ∃ t, sectorNearestContact d s fuel origin minAltitude maxAltitude length bearing arc
          coalition filter = some (some t) ∧ s.findGroupForAircraft t = none)) ∧
    (FindNearestGroupInSector d s fuel origin minAltitude maxAltitude length bearing arc
        coalition filter = none ↔
      sectorRing d fuel origin (d.Magnetic bearing (s.Declination origin)) length arc
        = none) ∧
    (12 ≤ fuel → arc ≤ 0 ∨ 2 ^ (-1018 : ℤ) ≤ arc →
      ∃ r, FindNearestGroupInSector d s fuel origin minAltitude maxAltitude length
        bearing arc coalition filter = some r) ∧
    (∀ t g0, FindNearestTrackfile d s origin minAltitude maxAltitude radius coalition filter
        = some t → s.findGroupForAircraft t = some g0 →
      ∃ g, FindNearestGroupWithBRAA d s origin minAltitude maxAltitude radius coalition filter
        = some g) ∧
    (∀ t g0, sectorNearestContact d s fuel origin minAltitude maxAltitude length bearing arc
        coalition filter = some (some t) → s.findGroupForAircraft t = some g0 →
      ∃ g, FindNearestGroupInSector d s fuel origin minAltitude maxAltitude length bearing arc
        coalition filter = some (some g)) := by
  refine ⟨?_, ?_, FindNearestGroupInSector_none_iff d s fuel origin minAltitude
    maxAltitude length bearing arc coalition filter, ?_, ?_, ?_⟩
  · unfold FindNearestGroupWithBRAA
    cases ht : FindNearestTrackfile d s origin minAltitude maxAltitude radius coalition filter
      with
    | none => simp
    | some t =>
      cases hl : s.findGroupForAircraft t with
      | none => simp [hl]
      | some g0 => simp [hl]
  · unfold FindNearestGroupInSector
    cases hc : sectorNearestContact d s fuel origin minAltitude maxAltitude length bearing arc
      coalition filter with
    | none => simp
    | some sel =>
      cases sel with
      | none => simp [sectorGroup]
      | some t =>
        cases hl : s.findGroupForAircraft t with
        | none => simp [sectorGroup, hl]
        | some g0 => simp [sectorGroup, hl]
  · intro hf harc
    obtain ⟨ring, hring⟩ := sectorRing_total d fuel origin
      (d.Magnetic bearing (s.Declination origin)) length arc harc hf
    exact ⟨_, by simp only [FindNearestGroupInSector, sectorNearestContact, hring,
      Option.map_some']; rfl⟩
  · intro t g0 ht hl
    simp [FindNearestGroupWithBRAA, ht, hl]
  · intro t g0 hc hl
    simp [FindNearestGroupInSector, hc, sectorGroup, hl]

/-! ## Claims about `receiveVoice` -/

/-- The test `isMatchingPacket` holds iff the packet carries a frequency matching the
radio of the client and is either the first packet of a new transmission or a newer
packet from the same origin. -/
theorem isMatchingPacket_iff (c : AudioClient) (lastRx : LastRx) (vp : VoicePacket) :
    isMatchingPacket c lastRx vp = true ↔
      (isSameFrequency c vp = true ∧
        ((lastRx.origin = "" ∧ lastRx.packetNumber = 0) ∨
          (vp.PacketID > lastRx.packetNumber ∧ lastRx.origin = vp.OriginGUID))) := by
  simp [isMatchingPacket]

/-- C17 (the code at the failing input). The first packet of a new transmission, packet 1
of "pilot-1" on 305 MHz, arriving while the last-received state has its zero values and
the radio of the client is on 251 MHz, is not buffered: buffer and last-received state
stay as they were.  Line 119 puts the frequency test in front of both alternatives, where
the comment of lines 116 to 118 attaches it to the second alternative only. -/
theorem receiveVoice_first_packet_off_frequency :
    (rxInit.lastRx.origin = "" ∧ rxInit.lastRx.packetNumber = 0) ∧
    isSameFrequency testClient (offFrequency "pilot-1" 1) = false ∧
    receiveVoiceStep testClient rxInit (.incoming (.packet (offFrequency "pilot-1" 1)))
      = (rxInit, none) := by
  refine ⟨⟨rfl, rfl⟩, ?_, ?_⟩
  · simp [isSameFrequency, testClient, offFrequency]
  · simp [receiveVoiceStep, isMatchingPacket, isSameFrequency, testClient, offFrequency]

/-- The behaviour of lines 119 to 125 as the code has them.  A decoded voice packet is
buffered, and the last-received origin and packet number are set to its origin and packet
ID, iff it carries a frequency matching the radio of the client and is either the first
packet of a new transmission (the last-received origin and packet number have their zero
values) or a newer packet from the same origin; every other packet leaves the buffer and
the last-received state unchanged. -/
theorem receiveVoice_buffers_iff (c : AudioClient) (st : RxState) (vp : VoicePacket) :
    ((isSameFrequency c vp = true ∧
        ((st.lastRx.origin = "" ∧ st.lastRx.packetNumber = 0) ∨
          (vp.PacketID > st.lastRx.packetNumber ∧ st.lastRx.origin = vp.OriginGUID))) →
      receiveVoiceStep c st (.incoming (.packet vp)) =
        ({ buf := st.buf ++ [vp],
           lastRx := { origin := vp.OriginGUID, packetNumber := vp.PacketID,
                       deadline := st.lastRx.deadline } }, none)) ∧
    (¬ (isSameFrequency c vp = true ∧
        ((st.lastRx.origin = "" ∧ st.lastRx.packetNumber = 0) ∨
          (vp.PacketID > st.lastRx.packetNumber ∧ st.lastRx.origin = vp.OriginGUID))) →
      receiveVoiceStep c st (.incoming (.packet vp)) = (st, none)) ∧
    ((receiveVoiceStep c st (.incoming (.packet vp))).1.buf = st.buf ++ [vp] ↔
      (isSameFrequency c vp = true ∧
        ((st.lastRx.origin = "" ∧ st.lastRx.packetNumber = 0) ∨
          (vp.PacketID > st.lastRx.packetNumber ∧ st.lastRx.origin = vp.OriginGUID)))) := by
  have hiff := isMatchingPacket_iff c st.lastRx vp
  by_cases hm : isMatchingPacket c st.lastRx vp = true
  · have hc := hiff.1 hm
    refine ⟨fun _ => ?_, fun hn => absurd hc hn, ?_⟩
    · simp [receiveVoiceStep, hm, updateLastRX]
    · simp only [receiveVoiceStep, hm, if_true]
      exact ⟨fun _ => hc, fun _ => trivial⟩
  · have hc : ¬ (isSameFrequency c vp = true ∧
        ((st.lastRx.origin = "" ∧ st.lastRx.packetNumber = 0) ∨
          (vp.PacketID > st.lastRx.packetNumber ∧ st.lastRx.origin = vp.OriginGUID))) :=
      fun h => hm (hiff.2 h)
    refine ⟨fun h => absurd h hc, fun _ => ?_, ?_⟩
    · simp [receiveVoiceStep, hm]
    · simp only [receiveVoiceStep, hm]
      constructor
      · intro h
        have hlen := congrArg List.length h
        simp at hlen
      · intro h
        exact absurd h hc

/-- C19. On a ticker event `receiveVoice` publishes a transmission iff the buffer holds
more than 25 packets, no packet is queued on the input channel and the current time is
after the receive deadline.  The published transmission is the buffer, in arrival order,
so it has more than 25 packets; afterwards the buffer is empty, the last-received origin
and packet number have their zero values and the deadline is as it was.  When the
condition does not hold, nothing is published and the buffer and the last-received state
are unchanged. -/
theorem receiveVoice_tick (c : AudioClient) (st : RxState) (queued : Nat) (now : Int) :
    ((receiveVoiceStep c st (.tick queued now)).2.isSome = true ↔
      (st.buf.length > 25 ∧ queued = 0 ∧ now > st.lastRx.deadline)) ∧
    ((st.buf.length > 25 ∧ queued = 0 ∧ now > st.lastRx.deadline) →
      receiveVoiceStep c st (.tick queued now) =
        ({ buf := [], lastRx := { origin := "", packetNumber := 0,
                                  deadline := st.lastRx.deadline } }, some st.buf)) ∧
    (¬ (st.buf.length > 25 ∧ queued = 0 ∧ now > st.lastRx.deadline) →
      receiveVoiceStep c st (.tick queued now) = (st, none)) ∧
    (∀ audio, (receiveVoiceStep c st (.tick queued now)).2 = some audio →
      audio = st.buf ∧ audio.length > 25) := by
  by_cases hc : st.buf.length > 25 ∧ queued = 0 ∧ now > st.lastRx.deadline
  · refine ⟨?_, fun _ => ?_, fun hn => absurd hc hn, ?_⟩
    · simp [receiveVoiceStep, hc]
    · simp [receiveVoiceStep, hc, resetLastRx]
    · intro audio ha
      simp only [receiveVoiceStep, hc, and_self, if_true, Option.some.injEq] at ha
      exact ⟨ha.symm, by rw [← ha]; exact hc.1⟩
  · refine ⟨?_, fun h => absurd h hc, fun _ => ?_, ?_⟩
    · simp [receiveVoiceStep, hc]
    · simp [receiveVoiceStep, hc]
    · intro audio ha
      simp [receiveVoiceStep, hc] at ha

/-- One iteration of `receiveVoice` keeps the buffer invariant: either the buffer is empty
and the last-received origin and packet number have their zero values, or the buffer is
not empty, the last-received origin is not empty, the last-received state is that of the
last buffered packet, every buffered packet has that origin, a packet ID not above the
last-received one and a matching frequency, and the packet IDs increase strictly. -/
theorem receiveVoiceStep_invariant (c : AudioClient) (st : RxState) (input : RxInput)
    (horigin : ∀ vp, input = .incoming (.packet vp) → vp.OriginGUID ≠ "")
    (hinv : (st.buf = [] ∧ st.lastRx.origin = "" ∧ st.lastRx.packetNumber = 0) ∨
      (st.buf ≠ [] ∧ st.lastRx.origin ≠ "" ∧
        (∃ p, st.buf.getLast? = some p ∧ st.lastRx.origin = p.OriginGUID ∧
          st.lastRx.packetNumber = p.PacketID) ∧
        (∀ p ∈ st.buf, p.OriginGUID = st.lastRx.origin ∧
          p.PacketID ≤ st.lastRx.packetNumber ∧ isSameFrequency c p = true) ∧
        (st.buf.map VoicePacket.PacketID).Pairwise (· < ·))) :
    (fun st1 : RxState =>
      (st1.buf = [] ∧ st1.lastRx.origin = "" ∧ st1.lastRx.packetNumber = 0) ∨
      (st1.buf ≠ [] ∧ st1.lastRx.origin ≠ "" ∧
        (∃ p, st1.buf.getLast? = some p ∧ st1.lastRx.origin = p.OriginGUID ∧
          st1.lastRx.packetNumber = p.PacketID) ∧
        (∀ p ∈ st1.buf, p.OriginGUID = st1.lastRx.origin ∧
          p.PacketID ≤ st1.lastRx.packetNumber ∧ isSameFrequency c p = true) ∧
        (st1.buf.map VoicePacket.PacketID).Pairwise (· < ·)))
      (receiveVoiceStep c st input).1 := by
  cases input with
  | incoming decoded =>
    cases decoded with
    | failed => simpa [receiveVoiceStep] using hinv
    | nilPacket => simpa [receiveVoiceStep] using hinv
    | packet vp =>
      have hne := horigin vp rfl
      by_cases hm : isMatchingPacket c st.lastRx vp = true
      · have hc := (isMatchingPacket_iff c st.lastRx vp).1 hm
        simp only [receiveVoiceStep, hm, if_true, updateLastRX]
        right
        refine ⟨by simp, hne, ⟨vp, by simp, rfl, rfl⟩, ?_, ?_⟩
        · intro p hp
          rcases List.mem_append.1 hp with hp | hp
          · rcases hinv with ⟨hb, _, _⟩ | ⟨_, ho, _, hall, _⟩
            · rw [hb] at hp
              simp at hp
            · rcases hc.2 with ⟨h1, _⟩ | ⟨hnew, hsame⟩
              · exact absurd h1 ho
              · obtain ⟨hp1, hp2, hp3⟩ := hall p hp
                exact ⟨by rw [hp1, hsame], le_of_lt (lt_of_le_of_lt hp2 hnew), hp3⟩
          · have : p = vp := by simpa using hp
            subst this
            exact ⟨rfl, le_refl _, hc.1⟩
        · rw [List.map_append, List.pairwise_append]
          refine ⟨?_, by simp, ?_⟩
          · rcases hinv with ⟨hb, _, _⟩ | ⟨_, _, _, _, hpw⟩
            · rw [hb]
              simp
            · exact hpw
          · intro a ha b hb
            have hbv : b = vp.PacketID := by simpa using hb
            subst hbv
            obtain ⟨p, hp, rfl⟩ := List.mem_map.1 ha
            rcases hinv with ⟨hbuf, _, _⟩ | ⟨_, ho, _, hall, _⟩
            · rw [hbuf] at hp
              simp at hp
            · rcases hc.2 with ⟨h1, _⟩ | ⟨hnew, _⟩
              · exact absurd h1 ho
              · have := (hall p hp).2.1
                omega
      · simpa [receiveVoiceStep, hm] using hinv
  | tick queued now =>
    by_cases hc : st.buf.length > 25 ∧ queued = 0 ∧ now > st.lastRx.deadline
    · left
      simp [receiveVoiceStep, hc, resetLastRx]
    · simpa [receiveVoiceStep, hc] using hinv
  | udpVoice now =>
    simpa [receiveVoiceStep] using hinv

/-- The invariant of `receiveVoiceStep_invariant` holds after every sequence of
iterations that starts in a state where it holds, when every decoded packet has a
non-empty origin. -/
theorem receiveVoiceRun_invariant (c : AudioClient) (inputs : List RxInput)
    (horigin : ∀ vp, RxInput.incoming (.packet vp) ∈ inputs → vp.OriginGUID ≠ "") :
    ∀ st : RxState,
      ((st.buf = [] ∧ st.lastRx.origin = "" ∧ st.lastRx.packetNumber = 0) ∨
      (st.buf ≠ [] ∧ st.lastRx.origin ≠ "" ∧
        (∃ p, st.buf.getLast? = some p ∧ st.lastRx.origin = p.OriginGUID ∧
          st.lastRx.packetNumber = p.PacketID) ∧
        (∀ p ∈ st.buf, p.OriginGUID = st.lastRx.origin ∧
          p.PacketID ≤ st.lastRx.packetNumber ∧ isSameFrequency c p = true) ∧
        (st.buf.map VoicePacket.PacketID).Pairwise (· < ·))) →
      (fun st1 : RxState =>
        (st1.buf = [] ∧ st1.lastRx.origin = "" ∧ st1.lastRx.packetNumber = 0) ∨
        (st1.buf ≠ [] ∧ st1.lastRx.origin ≠ "" ∧
          (∃ p, st1.buf.getLast? = some p ∧ st1.lastRx.origin = p.OriginGUID ∧
            st1.lastRx.packetNumber = p.PacketID) ∧
          (∀ p ∈ st1.buf, p.OriginGUID = st1.lastRx.origin ∧
            p.PacketID ≤ st1.lastRx.packetNumber ∧ isSameFrequency c p = true) ∧
          (st1.buf.map VoicePacket.PacketID).Pairwise (· < ·)))
        (receiveVoiceRun c st inputs) := by
  induction inputs with
  | nil =>
    intro st hinv
    simpa [receiveVoiceRun] using hinv
  | cons input rest ih =>
    intro st hinv
    have hstep := receiveVoiceStep_invariant c st input
      (fun vp hvp => horigin vp (by rw [hvp]; exact List.mem_cons_self _ _)) hinv
    have hrest := ih (fun vp hvp => horigin vp (List.mem_cons_of_mem _ hvp))
      (receiveVoiceStep c st input).1 hstep
    simpa [receiveVoiceRun] using hrest

/-- C18. Starting from an empty buffer and the zero last-received state, when every
decoded packet has a non-empty origin, after every sequence of incoming packets, ticker
events and deadline writes: the buffered packets all have the same origin, their packet
IDs increase strictly in buffer order, each carries a frequency matching the radio of the
client, and the last-received origin and packet number are those of the last buffered
packet, or the zero values when the buffer is empty. -/
theorem receiveVoice_buffer_invariant (c : AudioClient) (inputs : List RxInput)
    (horigin : ∀ vp, RxInput.incoming (.packet vp) ∈ inputs → vp.OriginGUID ≠ "") :
    (∀ p ∈ (receiveVoiceRun c rxInit inputs).buf, ∀ q ∈ (receiveVoiceRun c rxInit inputs).buf,
      p.OriginGUID = q.OriginGUID) ∧
    ((receiveVoiceRun c rxInit inputs).buf.map VoicePacket.PacketID).Pairwise (· < ·) ∧
    (∀ p ∈ (receiveVoiceRun c rxInit inputs).buf, isSameFrequency c p = true) ∧
    (∀ p, (receiveVoiceRun c rxInit inputs).buf.getLast? = some p →
      (receiveVoiceRun c rxInit inputs).lastRx.origin = p.OriginGUID ∧
      (receiveVoiceRun c rxInit inputs).lastRx.packetNumber = p.PacketID) ∧
    ((receiveVoiceRun c rxInit inputs).buf = [] →
      (receiveVoiceRun c rxInit inputs).lastRx.origin = "" ∧
      (receiveVoiceRun c rxInit inputs).lastRx.packetNumber = 0) := by
  have hinv := receiveVoiceRun_invariant c inputs horigin rxInit (Or.inl ⟨rfl, rfl, rfl⟩)
  simp only at hinv
  rcases hinv with ⟨hb, ho, hn⟩ | ⟨hne, _, ⟨pl, hpl, hlo, hln⟩, hall, hpw⟩
  · rw [hb]
    simp [ho, hn]
  · refine ⟨?_, hpw, fun p hp => (hall p hp).2.2, ?_, fun hb => absurd hb hne⟩
    · intro p hp q hq
      rw [(hall p hp).1, (hall q hq).1]
    · intro p hp
      rw [hpl] at hp
      have : pl = p := by simpa using hp
      subst this
      exact ⟨hlo, hln⟩

/-- In the test environment every decoded packet of `sampleInputs` has a non-empty
origin. -/
theorem sampleInputs_origin :
    ∀ vp, RxInput.incoming (.packet vp) ∈ sampleInputs → vp.OriginGUID ≠ "" := by
  intro vp hvp
  simp only [sampleInputs, List.mem_cons, RxInput.incoming.injEq, Decoded.packet.injEq,
    reduceCtorEq, List.mem_nil_iff, or_false] at hvp
  rcases hvp with h | h | h | h <;> subst h <;> simp [onFrequency, offFrequency]

/-- In the test environment `sampleInputs` leaves the two packets of the first transmission
in the buffer. -/
theorem receiveVoiceRun_sample :
    receiveVoiceRun testClient rxInit sampleInputs =
      { buf := [onFrequency "pilot-1" 1, onFrequency "pilot-1" 2],
        lastRx := { origin := "pilot-1", packetNumber := 2, deadline := 300000100 } } := by
  simp [receiveVoiceRun, sampleInputs, receiveVoiceStep, isMatchingPacket, isSameFrequency,
    testClient, onFrequency, offFrequency, rxInit, updateLastRX, maxRxGap]

/-- The buffer invariant after the iterations `sampleInputs`. -/
theorem receiveVoice_buffer_invariant_witness :
    (∀ vp, RxInput.incoming (.packet vp) ∈ sampleInputs → vp.OriginGUID ≠ "") ∧
    ((∀ p ∈ (receiveVoiceRun testClient rxInit sampleInputs).buf,
      ∀ q ∈ (receiveVoiceRun testClient rxInit sampleInputs).buf,
      p.OriginGUID = q.OriginGUID) ∧
    ((receiveVoiceRun testClient rxInit sampleInputs).buf.map VoicePacket.PacketID).Pairwise
      (· < ·) ∧
    (∀ p ∈ (receiveVoiceRun testClient rxInit sampleInputs).buf,
      isSameFrequency testClient p = true) ∧
    (∀ p, (receiveVoiceRun testClient rxInit sampleInputs).buf.getLast? = some p →
      (receiveVoiceRun testClient rxInit sampleInputs).lastRx.origin = p.OriginGUID ∧
      (receiveVoiceRun testClient rxInit sampleInputs).lastRx.packetNumber = p.PacketID) ∧
    ((receiveVoiceRun testClient rxInit sampleInputs).buf = [] →
      (receiveVoiceRun testClient rxInit sampleInputs).lastRx.origin = "" ∧
      (receiveVoiceRun testClient rxInit sampleInputs).lastRx.packetNumber = 0)) :=
  ⟨sampleInputs_origin, receiveVoice_buffer_invariant testClient sampleInputs sampleInputs_origin⟩

/-- In the test environment a tick after the deadline with 26 buffered packets and an
empty input channel publishes the buffer and resets the state; the same tick with a
packet still queued publishes nothing. -/
theorem receiveVoiceStep_fullBuffer :
    receiveVoiceStep testClient fullBuffer (.tick 0 300000101) =
      ({ buf := [], lastRx := { origin := "", packetNumber := 0, deadline := 300000100 } },
        some fullBuffer.buf) ∧
    receiveVoiceStep testClient fullBuffer (.tick 1 300000101) = (fullBuffer, none) := by
  constructor
  · simp [receiveVoiceStep, fullBuffer, resetLastRx]
  · simp [receiveVoiceStep, fullBuffer]

/-- Without the proviso on the origin the buffer can mix origins: a first packet with an
empty origin and packet ID 0 leaves the last-received state at its zero values, so the
next packet, of any origin, counts as the first packet of a new transmission. -/
theorem receiveVoiceRun_empty_origin :
    receiveVoiceRun testClient rxInit
        [.incoming (.packet (onFrequency "" 0)), .incoming (.packet (onFrequency "pilot-2" 7))]
      = { buf := [onFrequency "" 0, onFrequency "pilot-2" 7],
          lastRx := { origin := "pilot-2", packetNumber := 7, deadline := 0 } } := by
  simp [receiveVoiceRun, receiveVoiceStep, isMatchingPacket, isSameFrequency, testClient,
    onFrequency, rxInit, updateLastRX]

/-- Every request whose bearing read by the logger preamble is `nil` (the bearing of a
BRAA request, the bullseye bearing of a bullseye request) makes `HandleDeclare` fault
before any event. -/
theorem HandleDeclare_nil_bearing (d : Deps) (c : Controller) (request : DeclareRequest)
    (hb : (if request.IsBRAA then request.Bearing else request.Bullseye.bearing) = none) :
    HandleDeclare d c request =
      { events := [], fault := some .nilDereference, friendlyGroups := [],
        hostileGroups := [] } := by
  simp [HandleDeclare, hb]

end Skyeye
